import Mathlib

/-!
# M4 sensor hub pedometer client (drivers/misc/m4sensorhub_pedometer.c)

A shallow embedding of the driver's entry points and proofs about its
accumulator (base / last / published totals), its polling rate and its
panic-restore checkpoint.

Conventions of the embedding:

* the driver data `dd` is passed explicitly and returned updated;
* C integers are `Nat` / `Int`, narrowed with an explicit `%` where a value is
  stored into a fixed-width field;
* everything the sensor hub and the kernel answer during one call of an entry
  point (register sizes, register read and write results, the boot-time clock,
  the results of the string conversions) is an explicit argument `m4`;
* every entry point returns, next to its C return value, the list of external
  operations it performed, in program order.
-/

namespace M4Ped

/-! ## Constants -/

/-- Linux errno `EINVAL`. -/
def EINVAL : Int := 22

/-- Linux errno `EBADE`. -/
def EBADE : Int := 52

/-- Linux errno `EOVERFLOW`. -/
def EOVERFLOW : Int := 75

/-- Bit number of the interrupt flag in `status`. -/
def M4PED_IRQ_ENABLED_BIT : Nat := 0

/-- Bit number of the feature flag in `status`. -/
def M4PED_FEATURE_ENABLED_BIT : Nat := 1

/-- Number of bytes of the local user profile. -/
def M4PED_USERDATA_SIZE : Nat := 5

/-- Narrowing to `uint8_t`. -/
def u8 (n : Nat) : Nat := n % 2 ^ 8

/-- Narrowing to `uint16_t`. -/
def u16 (n : Nat) : Nat := n % 2 ^ 16

/-- Narrowing to `uint32_t`. -/
def u32 (n : Nat) : Nat := n % 2 ^ 32

/-- Narrowing to `int16_t` (two's complement). -/
def s16 (v : Int) : Int := (v + 2 ^ 15) % 2 ^ 16 - 2 ^ 15

/-! ## Data model -/

/-- The sensor hub registers this driver reads or writes. -/
inductive m4sensorhub_reg where
  | M4SH_REG_PEDOMETER_ACTIVITY
  | M4SH_REG_PEDOMETER_TOTALDISTANCE
  | M4SH_REG_PEDOMETER_TOTALSTEPS
  | M4SH_REG_PEDOMETER_CURRENTSPEED
  | M4SH_REG_METS_HEALTHYMINUTES
  | M4SH_REG_METS_CALORIES
  | M4SH_REG_METS_CALORIES_NO_RMR
  | M4SH_REG_USERSETTINGS_USERAGE
  | M4SH_REG_USERSETTINGS_USERGENDER
  | M4SH_REG_USERSETTINGS_USERHEIGHT
  | M4SH_REG_USERSETTINGS_USERWEIGHT
  | M4SH_REG_PEDOMETER_ENABLE
  | M4SH_REG_METS_ENABLE
  deriving DecidableEq, Repr

open m4sensorhub_reg

/-- Modelled from the spec: the declaration of the sample record (header
`linux/iio/m4sensorhub/m4sensorhub_pedometer.h`) is not among the sources.
The fields are the ones the driver uses; their widths are the ones of the
conversions in `m4ped_iiodata_show` (`%hhu` for `ped_activity`, `%hu` for
`current_speed`, `%u` for the five totals) and of `ktime_to_ns` for the
timestamp. The five totals are the monotonic fields of the spec's CounterSet. -/
structure m4sensorhub_pedometer_iio_data where
  ped_activity : Nat
  total_distance : Nat
  total_steps : Nat
  current_speed : Nat
  healthy_minutes : Nat
  calories : Nat
  calories_normr : Nat
  timestamp : Int
  deriving DecidableEq, Repr

/-- The driver data `struct m4ped_driver_data`. The pointers `pdev` and `m4`
and the mutex carry no data of their own here. `m4ped_work` is the delayed
work item: `none` when it is not queued, `some d` when it is pending with a
delay of `d` milliseconds. -/
structure m4ped_driver_data where
  iiodat : m4sensorhub_pedometer_iio_data
  base_dat : m4sensorhub_pedometer_iio_data
  last_dat : m4sensorhub_pedometer_iio_data
  m4ped_work : Option Int
  samplerate : Int
  fastest_rate : Int
  userdata : List Nat
  status : Nat
  deriving DecidableEq, Repr

/-- What one call of `m4sensorhub_reg_read` answers: its return value and the
content of the destination buffer once the call is over. A call that leaves the
destination untouched is the case where `val` is the previous content. -/
structure reg_read_result where
  ret : Int
  val : Nat
  deriving DecidableEq, Repr

/-- The sensor hub and kernel services as seen during one call of an entry
point. No entry point accesses a register twice, so one answer per register
describes every possible behaviour of the register port.

* `reg_getsize r`: what `m4sensorhub_reg_getsize` returns for `r`;
* `reg_read r`: what `m4sensorhub_reg_read` answers for `r`;
* `reg_write r`: what `m4sensorhub_reg_write` returns for `r`;
* `boottime_ns`: `ktime_to_ns(ktime_get_boottime())`;
* `kstrtoint buf`: return value of `kstrtoint(buf, 10, &value)` and the value
  stored on success;
* `kstrtouint buf`: the same for `kstrtouint(buf, 16, &value)`. -/
structure m4sensorhub_data where
  reg_getsize : m4sensorhub_reg → Int
  reg_read : m4sensorhub_reg → reg_read_result
  reg_write : m4sensorhub_reg → Int
  boottime_ns : Int
  kstrtoint : List Char → Int × Int
  kstrtouint : List Char → Int × Nat

/-- External operations performed by the driver, as recorded in the log of an
entry point. `reg_write r bytes` carries the bytes that start at the source
pointer handed to the register port. -/
inductive Effect where
  | reg_read (r : m4sensorhub_reg)
  | reg_write (r : m4sensorhub_reg) (bytes : List Nat)
  | iio_push_to_buffers (dat : m4sensorhub_pedometer_iio_data)
  | cancel_delayed_work
  | queue_delayed_work (msecs : Int)
  deriving DecidableEq, Repr

/-- Result of running a piece of the driver: the C return value, the driver
data afterwards, and the external operations performed. -/
structure Ret (α : Type) where
  ret : α
  dd : m4ped_driver_data
  log : List Effect

/-- The work item is removed from the queue. -/
def cancel_delayed_work (dd : m4ped_driver_data) : m4ped_driver_data :=
  { dd with m4ped_work := none }

/-- The work item is queued unless it is pending already. -/
def queue_delayed_work (dd : m4ped_driver_data) (msecs : Int) : m4ped_driver_data :=
  match dd.m4ped_work with
  | some _ => dd
  | none => { dd with m4ped_work := some msecs }

/-! ## Sampling -/

/-- One sampling cycle, `m4ped_read_report_data`. The activity and the speed
are read straight into `dd.iiodat`, the five totals into the local `dat`; the
first failing read ends the cycle; a decrease of a total ends it as well, with
`err` still holding the return value of the last read. The guard against null
`iio` and `dd` has no counterpart: both are values here. -/
def m4ped_read_report_data (m4 : m4sensorhub_data) (dd : m4ped_driver_data) : Ret Int :=
  let size := m4.reg_getsize M4SH_REG_PEDOMETER_ACTIVITY
  let r := m4.reg_read M4SH_REG_PEDOMETER_ACTIVITY
  let dd := { dd with iiodat := { dd.iiodat with ped_activity := u8 r.val } }
  let log := [Effect.reg_read M4SH_REG_PEDOMETER_ACTIVITY]
  if r.ret < 0 then ⟨r.ret, dd, log⟩
  else if r.ret ≠ size then ⟨-EBADE, dd, log⟩
  else
  let size := m4.reg_getsize M4SH_REG_PEDOMETER_TOTALDISTANCE
  let r := m4.reg_read M4SH_REG_PEDOMETER_TOTALDISTANCE
  let dat_total_distance := u32 r.val
  let log := log ++ [Effect.reg_read M4SH_REG_PEDOMETER_TOTALDISTANCE]
  if r.ret < 0 then ⟨r.ret, dd, log⟩
  else if r.ret ≠ size then ⟨-EBADE, dd, log⟩
  else
  let size := m4.reg_getsize M4SH_REG_PEDOMETER_TOTALSTEPS
  let r := m4.reg_read M4SH_REG_PEDOMETER_TOTALSTEPS
  let dat_total_steps := u32 r.val
  let log := log ++ [Effect.reg_read M4SH_REG_PEDOMETER_TOTALSTEPS]
  if r.ret < 0 then ⟨r.ret, dd, log⟩
  else if r.ret ≠ size then ⟨-EBADE, dd, log⟩
  else
  let size := m4.reg_getsize M4SH_REG_PEDOMETER_CURRENTSPEED
  let r := m4.reg_read M4SH_REG_PEDOMETER_CURRENTSPEED
  let dd := { dd with iiodat := { dd.iiodat with current_speed := u16 r.val } }
  let log := log ++ [Effect.reg_read M4SH_REG_PEDOMETER_CURRENTSPEED]
  if r.ret < 0 then ⟨r.ret, dd, log⟩
  else if r.ret ≠ size then ⟨-EBADE, dd, log⟩
  else
  let size := m4.reg_getsize M4SH_REG_METS_HEALTHYMINUTES
  let r := m4.reg_read M4SH_REG_METS_HEALTHYMINUTES
  let dat_healthy_minutes := u32 r.val
  let log := log ++ [Effect.reg_read M4SH_REG_METS_HEALTHYMINUTES]
  if r.ret < 0 then ⟨r.ret, dd, log⟩
  else if r.ret ≠ size then ⟨-EBADE, dd, log⟩
  else
  let size := m4.reg_getsize M4SH_REG_METS_CALORIES
  let r := m4.reg_read M4SH_REG_METS_CALORIES
  let dat_calories := u32 r.val
  let log := log ++ [Effect.reg_read M4SH_REG_METS_CALORIES]
  if r.ret < 0 then ⟨r.ret, dd, log⟩
  else if r.ret ≠ size then ⟨-EBADE, dd, log⟩
  else
  let size := m4.reg_getsize M4SH_REG_METS_CALORIES_NO_RMR
  let r := m4.reg_read M4SH_REG_METS_CALORIES_NO_RMR
  let dat_calories_normr := u32 r.val
  let log := log ++ [Effect.reg_read M4SH_REG_METS_CALORIES_NO_RMR]
  if r.ret < 0 then ⟨r.ret, dd, log⟩
  else if r.ret ≠ size then ⟨-EBADE, dd, log⟩
  else
  let err := r.ret
  let dd := { dd with iiodat := { dd.iiodat with timestamp := m4.boottime_ns } }
  if (dat_total_distance < dd.last_dat.total_distance) ||
      (dat_total_steps < dd.last_dat.total_steps) ||
      (dat_healthy_minutes < dd.last_dat.healthy_minutes) ||
      (dat_calories < dd.last_dat.calories) ||
      (dat_calories_normr < dd.last_dat.calories_normr) then
    ⟨err, dd, log⟩
  else
  let dd := { dd with last_dat := { dd.last_dat with
    total_distance := dat_total_distance
    total_steps := dat_total_steps
    healthy_minutes := dat_healthy_minutes
    calories := dat_calories
    calories_normr := dat_calories_normr } }
  let dd := { dd with iiodat := { dd.iiodat with
    total_distance := u32 (dat_total_distance + dd.base_dat.total_distance)
    total_steps := u32 (dat_total_steps + dd.base_dat.total_steps)
    healthy_minutes := u32 (dat_healthy_minutes + dd.base_dat.healthy_minutes)
    calories := u32 (dat_calories + dd.base_dat.calories)
    calories_normr := u32 (dat_calories_normr + dd.base_dat.calories_normr) } }
  ⟨err, dd, log ++ [Effect.iio_push_to_buffers dd.iiodat]⟩

/-- The tick handler `m4ped_work_func`: one sampling cycle, whose error is only
logged, then the work item is queued again when the rate is positive. -/
def m4ped_work_func (m4 : m4sensorhub_data) (dd : m4ped_driver_data) : Ret Unit :=
  let r := m4ped_read_report_data m4 dd
  let dd := r.dd
  if dd.samplerate > 0 then
    ⟨(), queue_delayed_work dd dd.samplerate,
      r.log ++ [Effect.queue_delayed_work dd.samplerate]⟩
  else ⟨(), dd, r.log⟩

/-! ## User profile -/

/-- The profile writer `m4ped_write_userdata`: age, gender, height, weight, in
this order, stopping at the first write that fails. -/
def m4ped_write_userdata (m4 : m4sensorhub_data) (dd : m4ped_driver_data) : Ret Int :=
  let err := m4.reg_write M4SH_REG_USERSETTINGS_USERAGE
  let log := [Effect.reg_write M4SH_REG_USERSETTINGS_USERAGE (dd.userdata.drop 0)]
  if err < 0 then ⟨err, dd, log⟩
  else
  let err := m4.reg_write M4SH_REG_USERSETTINGS_USERGENDER
  let log := log ++ [Effect.reg_write M4SH_REG_USERSETTINGS_USERGENDER (dd.userdata.drop 1)]
  if err < 0 then ⟨err, dd, log⟩
  else
  let err := m4.reg_write M4SH_REG_USERSETTINGS_USERHEIGHT
  let log := log ++ [Effect.reg_write M4SH_REG_USERSETTINGS_USERHEIGHT (dd.userdata.drop 2)]
  if err < 0 then ⟨err, dd, log⟩
  else
  let err := m4.reg_write M4SH_REG_USERSETTINGS_USERWEIGHT
  let log := log ++ [Effect.reg_write M4SH_REG_USERSETTINGS_USERWEIGHT (dd.userdata.drop 3)]
  ⟨err, dd, log⟩

/-- The conversion loop of `m4ped_userdata_store`: for each index `i` of the
list, the four characters at `buf[i*5]` are converted with `kstrtouint`; the
first conversion that fails, or whose value exceeds 255, ends the loop with its
error. -/
def m4ped_userdata_convert (m4 : m4sensorhub_data) (buf : List Char) :
    List Nat → Except Int (List Nat)
  | [] => Except.ok []
  | i :: rest =>
    let convbuf := (buf.drop (i * 5)).take 4
    let r := m4.kstrtouint convbuf
    if r.1 < 0 then Except.error r.1
    else if r.2 > 255 then Except.error (-EOVERFLOW)
    else
      match m4ped_userdata_convert m4 buf rest with
      | Except.error e => Except.error e
      | Except.ok vs => Except.ok (u8 r.2 :: vs)

/-- The attribute writer `m4ped_userdata_store`. `size` is the length of `buf`.
The fifth byte of `outbuf` keeps its initial zero; age and gender are
exchanged when the local profile is stored. -/
def m4ped_userdata_store (m4 : m4sensorhub_data) (dd : m4ped_driver_data)
    (buf : List Char) : Ret Int :=
  let size : Int := buf.length
  if size ≠ 20 then ⟨-EINVAL, dd, []⟩
  else
  match m4ped_userdata_convert m4 buf [0, 1, 2, 3] with
  | Except.error e => ⟨e, dd, []⟩
  | Except.ok vs =>
    let outbuf := (vs ++ [0]).take M4PED_USERDATA_SIZE
    let userdata := (outbuf.set 0 (outbuf.getD 1 0)).set 1 (outbuf.getD 0 0)
    let dd := { dd with userdata := userdata }
    let w := m4ped_write_userdata m4 dd
    if w.ret < 0 then ⟨w.ret, w.dd, w.log⟩
    else ⟨size, w.dd, w.log⟩

/-! ## Sample rate -/

/-- The rate setter `m4ped_set_samplerate`. -/
def m4ped_set_samplerate (dd : m4ped_driver_data) (rate : Int) : Ret Int :=
  let err : Int := 0
  let rate := if rate ≥ 0 ∧ rate ≤ dd.fastest_rate then dd.fastest_rate else rate
  if rate = dd.samplerate then ⟨err, dd, []⟩
  else
  let dd := cancel_delayed_work dd
  let dd := { dd with samplerate := rate }
  if dd.samplerate > 0 then
    ⟨err, queue_delayed_work dd dd.samplerate,
      [Effect.cancel_delayed_work, Effect.queue_delayed_work dd.samplerate]⟩
  else ⟨err, dd, [Effect.cancel_delayed_work]⟩

/-- The attribute writer `m4ped_setrate_store`. `size` is the length of `buf`;
the accepted value is narrowed to the `int16_t` argument of the rate setter. -/
def m4ped_setrate_store (m4 : m4sensorhub_data) (dd : m4ped_driver_data)
    (buf : List Char) : Ret Int :=
  let size : Int := buf.length
  let k := m4.kstrtoint buf
  let value := k.2
  if k.1 < 0 then ⟨k.1, dd, []⟩
  else if value < -1 ∨ value > 32767 then ⟨-EINVAL, dd, []⟩
  else
  let s := m4ped_set_samplerate dd (s16 value)
  if s.ret < 0 then ⟨s.ret, s.dd, s.log⟩
  else if value ≥ 0 then
    let r := m4ped_read_report_data m4 s.dd
    if r.ret < 0 then ⟨r.ret, r.dd, s.log ++ r.log⟩
    else ⟨size, r.dd, s.log ++ r.log⟩
  else ⟨size, s.dd, s.log⟩

/-! ## Feature enable -/

/-- The feature flag of `status` is set. -/
def feature_enabled (dd : m4ped_driver_data) : Bool :=
  dd.status &&& (1 <<< M4PED_FEATURE_ENABLED_BIT) != 0

/-- The attribute writer `m4ped_feature_enable_store`. `size` is the length of
`buf` and is what every path returns. Clearing the flag is `status & ~(1 << 1)`
within the 16 bits of `status`. -/
def m4ped_feature_enable_store (m4 : m4sensorhub_data) (dd : m4ped_driver_data)
    (buf : List Char) : Ret Int :=
  let size : Int := buf.length
  let k := m4.kstrtoint buf
  let value := k.2
  if k.1 < 0 then ⟨size, dd, []⟩
  else if value = 0 then
    if feature_enabled dd then
      let enable : Nat := 0
      let err := m4.reg_write M4SH_REG_PEDOMETER_ENABLE
      let log := [Effect.reg_write M4SH_REG_PEDOMETER_ENABLE [enable]]
      if err < 0 then ⟨size, dd, log⟩
      else
      let err := m4.reg_write M4SH_REG_METS_ENABLE
      let log := log ++ [Effect.reg_write M4SH_REG_METS_ENABLE [enable]]
      if err < 0 then ⟨size, dd, log⟩
      else
      ⟨size, { dd with status :=
        dd.status &&& (2 ^ 16 - 1 - (1 <<< M4PED_FEATURE_ENABLED_BIT)) }, log⟩
    else ⟨size, dd, []⟩
  else
    if !feature_enabled dd then
      let enable : Nat := 1
      let err := m4.reg_write M4SH_REG_PEDOMETER_ENABLE
      let log := [Effect.reg_write M4SH_REG_PEDOMETER_ENABLE [enable]]
      if err < 0 then ⟨size, dd, log⟩
      else
      let err := m4.reg_write M4SH_REG_METS_ENABLE
      let log := log ++ [Effect.reg_write M4SH_REG_METS_ENABLE [enable]]
      if err < 0 then ⟨size, dd, log⟩
      else
      ⟨size, { dd with status := dd.status ||| (1 <<< M4PED_FEATURE_ENABLED_BIT) }, log⟩
    else ⟨size, dd, []⟩

/-! ## Panic restore (checkpoint) -/

/-- The panic callback `m4ped_panic_restore`: the profile is written again,
the two disable writes are repeated when the feature is off, and only then the
published totals become the new base, the last raw values are zeroed and the
work item is cancelled and queued again. A failing write leaves through
`m4ped_panic_restore_fail`, skipping what follows it. The guard against a null
`dd` has no counterpart. -/
def m4ped_panic_restore (m4 : m4sensorhub_data) (dd : m4ped_driver_data) : Ret Unit :=
  let disable : Nat := 0
  let w := m4ped_write_userdata m4 dd
  let dd := w.dd
  let log := w.log
  if w.ret < 0 then ⟨(), dd, log⟩
  else
  let f : Ret Int :=
    if !feature_enabled dd then
      let err := m4.reg_write M4SH_REG_PEDOMETER_ENABLE
      let log := log ++ [Effect.reg_write M4SH_REG_PEDOMETER_ENABLE [disable]]
      if err < 0 then ⟨err, dd, log⟩
      else
      let err := m4.reg_write M4SH_REG_METS_ENABLE
      let log := log ++ [Effect.reg_write M4SH_REG_METS_ENABLE [disable]]
      ⟨err, dd, log⟩
    else ⟨w.ret, dd, log⟩
  let log := f.log
  if f.ret < 0 then ⟨(), dd, log⟩
  else
  let dd := { dd with base_dat := { dd.base_dat with
    total_distance := dd.iiodat.total_distance
    total_steps := dd.iiodat.total_steps
    healthy_minutes := dd.iiodat.healthy_minutes
    calories := dd.iiodat.calories
    calories_normr := dd.iiodat.calories_normr } }
  let dd := { dd with last_dat := { dd.last_dat with
    total_distance := 0
    total_steps := 0
    healthy_minutes := 0
    calories := 0
    calories_normr := 0 } }
  let dd := cancel_delayed_work dd
  if dd.samplerate > 0 then
    ⟨(), queue_delayed_work dd dd.samplerate,
      log ++ [Effect.cancel_delayed_work, Effect.queue_delayed_work dd.samplerate]⟩
  else ⟨(), dd, log ++ [Effect.cancel_delayed_work]⟩

/-! ## Probe state and the driver as a transition system -/

/-- The all-zero sample record. -/
def iio_data_zero : m4sensorhub_pedometer_iio_data :=
  { ped_activity := 0, total_distance := 0, total_steps := 0, current_speed := 0,
    healthy_minutes := 0, calories := 0, calories_normr := 0, timestamp := 0 }

/-- The driver data as `m4ped_probe` and `m4ped_driver_init` leave it: the
zeroed allocation of `iio_device_alloc`, polling disabled, the floor rate of
1000 ms, the feature flag set, the default profile, no work item queued. -/
def m4ped_probe : m4ped_driver_data :=
  { iiodat := iio_data_zero
    base_dat := iio_data_zero
    last_dat := iio_data_zero
    m4ped_work := none
    samplerate := -1
    fastest_rate := 1000
    userdata := [0x23, 0x01, 0xB2, 0x5B, 0x00]
    status := 0 ||| (1 <<< M4PED_FEATURE_ENABLED_BIT) }

/-- The entry points that run under the driver mutex and may change the
driver data, each with what the hub answers during the call. The show
handlers only read and are left out. -/
inductive Event where
  | work_func (m4 : m4sensorhub_data)
  | setrate_store (m4 : m4sensorhub_data) (buf : List Char)
  | userdata_store (m4 : m4sensorhub_data) (buf : List Char)
  | feature_enable_store (m4 : m4sensorhub_data) (buf : List Char)
  | panic_restore (m4 : m4sensorhub_data)

/-- The tick handler only runs when the work item is pending; the attribute
writers and the panic callback may run at any time. -/
def enabled (dd : m4ped_driver_data) : Event → Bool
  | Event.work_func _ => dd.m4ped_work.isSome
  | _ => true

/-- One entry point runs to completion. The workqueue takes the work item off
the queue before it calls the tick handler. -/
def step (dd : m4ped_driver_data) : Event → m4ped_driver_data
  | Event.work_func m4 => (m4ped_work_func m4 { dd with m4ped_work := none }).dd
  | Event.setrate_store m4 buf => (m4ped_setrate_store m4 dd buf).dd
  | Event.userdata_store m4 buf => (m4ped_userdata_store m4 dd buf).dd
  | Event.feature_enable_store m4 buf => (m4ped_feature_enable_store m4 dd buf).dd
  | Event.panic_restore m4 => (m4ped_panic_restore m4 dd).dd

/-- The driver states that can be reached from the probe state. -/
inductive Reachable : m4ped_driver_data → Prop where
  | probe : Reachable m4ped_probe
  | step {dd : m4ped_driver_data} (ev : Event) :
      Reachable dd → enabled dd ev = true → Reachable (step dd ev)


/-! ## Vocabulary of the statements -/

/-- The five monotonic totals of a sample record, in the order
distance, steps, healthy minutes, calories, calories without RMR. -/
def totals (d : m4sensorhub_pedometer_iio_data) : List Nat :=
  [d.total_distance, d.total_steps, d.healthy_minutes, d.calories, d.calories_normr]

/-- Every total of `a` is at most the corresponding total of `b`. -/
def totals_le (a b : m4sensorhub_pedometer_iio_data) : Prop :=
  a.total_distance ≤ b.total_distance ∧ a.total_steps ≤ b.total_steps ∧
  a.healthy_minutes ≤ b.healthy_minutes ∧ a.calories ≤ b.calories ∧
  a.calories_normr ≤ b.calories_normr

instance (a b : m4sensorhub_pedometer_iio_data) : Decidable (totals_le a b) := by
  unfold totals_le; infer_instance

/-- Some total of `a` is strictly below the corresponding total of `b`: the
decrease test of the sampling cycle. -/
def totals_lt_some (a b : m4sensorhub_pedometer_iio_data) : Prop :=
  a.total_distance < b.total_distance ∨ a.total_steps < b.total_steps ∨
  a.healthy_minutes < b.healthy_minutes ∨ a.calories < b.calories ∨
  a.calories_normr < b.calories_normr

instance (a b : m4sensorhub_pedometer_iio_data) : Decidable (totals_lt_some a b) := by
  unfold totals_lt_some; infer_instance

/-- The fields of a sample record are within the range of their C types. -/
def iio_data_typed (d : m4sensorhub_pedometer_iio_data) : Prop :=
  d.ped_activity < 2 ^ 8 ∧ d.current_speed < 2 ^ 16 ∧
  d.total_distance < 2 ^ 32 ∧ d.total_steps < 2 ^ 32 ∧ d.healthy_minutes < 2 ^ 32 ∧
  d.calories < 2 ^ 32 ∧ d.calories_normr < 2 ^ 32

instance (d : m4sensorhub_pedometer_iio_data) : Decidable (iio_data_typed d) := by
  unfold iio_data_typed; infer_instance

/-- The read of register `r` succeeds: the return value is not negative and is
the declared size of the register. -/
def read_ok (m4 : m4sensorhub_data) (r : m4sensorhub_reg) : Prop :=
  0 ≤ (m4.reg_read r).ret ∧ (m4.reg_read r).ret = m4.reg_getsize r

instance (m4 : m4sensorhub_data) (r : m4sensorhub_reg) : Decidable (read_ok m4 r) := by
  unfold read_ok; infer_instance

/-- All seven reads of a sampling cycle succeed. -/
def reads_ok (m4 : m4sensorhub_data) : Prop :=
  read_ok m4 M4SH_REG_PEDOMETER_ACTIVITY ∧
  read_ok m4 M4SH_REG_PEDOMETER_TOTALDISTANCE ∧
  read_ok m4 M4SH_REG_PEDOMETER_TOTALSTEPS ∧
  read_ok m4 M4SH_REG_PEDOMETER_CURRENTSPEED ∧
  read_ok m4 M4SH_REG_METS_HEALTHYMINUTES ∧
  read_ok m4 M4SH_REG_METS_CALORIES ∧
  read_ok m4 M4SH_REG_METS_CALORIES_NO_RMR

instance (m4 : m4sensorhub_data) : Decidable (reads_ok m4) := by
  unfold reads_ok; infer_instance

/-- The raw reading of a cycle: what the seven registers deliver, each value
within the width of the field it is read into, and the time stamp. -/
def raw (m4 : m4sensorhub_data) : m4sensorhub_pedometer_iio_data :=
  { ped_activity := u8 (m4.reg_read M4SH_REG_PEDOMETER_ACTIVITY).val
    total_distance := u32 (m4.reg_read M4SH_REG_PEDOMETER_TOTALDISTANCE).val
    total_steps := u32 (m4.reg_read M4SH_REG_PEDOMETER_TOTALSTEPS).val
    current_speed := u16 (m4.reg_read M4SH_REG_PEDOMETER_CURRENTSPEED).val
    healthy_minutes := u32 (m4.reg_read M4SH_REG_METS_HEALTHYMINUTES).val
    calories := u32 (m4.reg_read M4SH_REG_METS_CALORIES).val
    calories_normr := u32 (m4.reg_read M4SH_REG_METS_CALORIES_NO_RMR).val
    timestamp := m4.boottime_ns }

/-- The records handed to `iio_push_to_buffers`, in order. -/
def pushed : List Effect → List m4sensorhub_pedometer_iio_data
  | [] => []
  | Effect.iio_push_to_buffers d :: rest => d :: pushed rest
  | _ :: rest => pushed rest

/-- The accumulator relation: every published total is base plus last raw
value, in 32-bit arithmetic. -/
def accumulator_inv (dd : m4ped_driver_data) : Prop :=
  dd.iiodat.total_distance = u32 (dd.base_dat.total_distance + dd.last_dat.total_distance) ∧
  dd.iiodat.total_steps = u32 (dd.base_dat.total_steps + dd.last_dat.total_steps) ∧
  dd.iiodat.healthy_minutes = u32 (dd.base_dat.healthy_minutes + dd.last_dat.healthy_minutes) ∧
  dd.iiodat.calories = u32 (dd.base_dat.calories + dd.last_dat.calories) ∧
  dd.iiodat.calories_normr = u32 (dd.base_dat.calories_normr + dd.last_dat.calories_normr)

/-- The driver data after an accepted cycle with hub answers `m4`. -/
def accepted (m4 : m4sensorhub_data) (dd : m4ped_driver_data) : m4ped_driver_data :=
  { dd with
    iiodat :=
      { ped_activity := (raw m4).ped_activity
        total_distance := u32 ((raw m4).total_distance + dd.base_dat.total_distance)
        total_steps := u32 ((raw m4).total_steps + dd.base_dat.total_steps)
        current_speed := (raw m4).current_speed
        healthy_minutes := u32 ((raw m4).healthy_minutes + dd.base_dat.healthy_minutes)
        calories := u32 ((raw m4).calories + dd.base_dat.calories)
        calories_normr := u32 ((raw m4).calories_normr + dd.base_dat.calories_normr)
        timestamp := (raw m4).timestamp }
    last_dat := { dd.last_dat with
      total_distance := (raw m4).total_distance
      total_steps := (raw m4).total_steps
      healthy_minutes := (raw m4).healthy_minutes
      calories := (raw m4).calories
      calories_normr := (raw m4).calories_normr } }

/-- The driver data after a cycle that read everything and found a decrease. -/
def rejected (m4 : m4sensorhub_data) (dd : m4ped_driver_data) : m4ped_driver_data :=
  { dd with iiodat := { dd.iiodat with
      ped_activity := (raw m4).ped_activity
      current_speed := (raw m4).current_speed
      timestamp := (raw m4).timestamp } }

/-- The seven register reads of a complete cycle, in program order. -/
def seven_reads : List Effect :=
  [Effect.reg_read M4SH_REG_PEDOMETER_ACTIVITY,
   Effect.reg_read M4SH_REG_PEDOMETER_TOTALDISTANCE,
   Effect.reg_read M4SH_REG_PEDOMETER_TOTALSTEPS,
   Effect.reg_read M4SH_REG_PEDOMETER_CURRENTSPEED,
   Effect.reg_read M4SH_REG_METS_HEALTHYMINUTES,
   Effect.reg_read M4SH_REG_METS_CALORIES,
   Effect.reg_read M4SH_REG_METS_CALORIES_NO_RMR]

/-- The driver data after a cycle that a failing read ended: apart from the
activity and the speed, which the reads store straight into `iiodat`, nothing
differs from `dd`. -/
def aborted (dd after : m4ped_driver_data) : m4ped_driver_data :=
  { dd with iiodat := { dd.iiodat with
      ped_activity := after.iiodat.ped_activity
      current_speed := after.iiodat.current_speed } }

/-- The three sample records of `a` and `b` are the same. -/
def same_records (a b : m4ped_driver_data) : Prop :=
  a.iiodat = b.iiodat ∧ a.base_dat = b.base_dat ∧ a.last_dat = b.last_dat

/-- The driver data after a checkpoint that ran to its end, before the work
item is cancelled and queued again. -/
def checkpointed (dd : m4ped_driver_data) : m4ped_driver_data :=
  { dd with
    base_dat := { dd.base_dat with
      total_distance := dd.iiodat.total_distance
      total_steps := dd.iiodat.total_steps
      healthy_minutes := dd.iiodat.healthy_minutes
      calories := dd.iiodat.calories
      calories_normr := dd.iiodat.calories_normr }
    last_dat := { dd.last_dat with
      total_distance := 0
      total_steps := 0
      healthy_minutes := 0
      calories := 0
      calories_normr := 0 } }

/-- The driver data after one sampling cycle. -/
def cycle (m4 : m4sensorhub_data) (dd : m4ped_driver_data) : m4ped_driver_data :=
  (m4ped_read_report_data m4 dd).dd

/-- The records one sampling cycle hands to the publish primitive. -/
def published (m4 : m4sensorhub_data) (dd : m4ped_driver_data) :
    List m4sensorhub_pedometer_iio_data :=
  pushed (m4ped_read_report_data m4 dd).log

/-- The driver data after the panic callback. -/
def checkpoint (m4 : m4sensorhub_data) (dd : m4ped_driver_data) : m4ped_driver_data :=
  (m4ped_panic_restore m4 dd).dd

/-- Every register write the hub is asked for succeeds. -/
def writes_ok (m4 : m4sensorhub_data) : Prop :=
  ∀ r : m4sensorhub_reg, 0 ≤ m4.reg_write r

/-- The 32-bit sums of the totals of `dat` and `base` do not wrap. -/
def no_wrap (dat base : m4sensorhub_pedometer_iio_data) : Prop :=
  dat.total_distance + base.total_distance < 2 ^ 32 ∧
  dat.total_steps + base.total_steps < 2 ^ 32 ∧
  dat.healthy_minutes + base.healthy_minutes < 2 ^ 32 ∧
  dat.calories + base.calories < 2 ^ 32 ∧
  dat.calories_normr + base.calories_normr < 2 ^ 32

instance (a b : m4sensorhub_pedometer_iio_data) : Decidable (no_wrap a b) := by
  unfold no_wrap; infer_instance

/-- The panic callback is the checkpoint of the specification. -/
def is_checkpoint : Event → Bool
  | Event.panic_restore _ => true
  | _ => false

/-- The entry points of `evs` run one after the other. -/
def run (dd : m4ped_driver_data) (evs : List Event) : m4ped_driver_data :=
  evs.foldl step dd


/-! ## Vocabulary for the rate, the feature flag and the profile line -/

/-- Linux errno `ERANGE`. -/
def ERANGE : Int := 34

/-- The rate the setter stores for a requested rate: the floor `fastest_rate`
for requests from 0 up to the floor, the request itself otherwise. -/
def clamped (dd : m4ped_driver_data) (rate : Int) : Int :=
  if rate ≥ 0 ∧ rate ≤ dd.fastest_rate then dd.fastest_rate else rate

/-- The register reads and writes among the operations of a log. -/
def reg_io : List Effect → List Effect
  | [] => []
  | Effect.reg_read r :: rest => Effect.reg_read r :: reg_io rest
  | Effect.reg_write r bytes :: rest => Effect.reg_write r bytes :: reg_io rest
  | _ :: rest => reg_io rest

/-- Number of writes to the register `r` in a log. -/
def writes_to (r : m4sensorhub_reg) : List Effect → Nat
  | [] => 0
  | Effect.reg_write r2 _ :: rest => (if r2 = r then 1 else 0) + writes_to r rest
  | _ :: rest => writes_to r rest

/-- Number of sampling cycles started in a log: every cycle starts with the one
read of the activity register. -/
def cycles_started (log : List Effect) : Nat :=
  List.count (Effect.reg_read M4SH_REG_PEDOMETER_ACTIVITY) log

/-- The scheduling calls that end a checkpoint: the work item is cancelled, and
queued again when the rate is positive. -/
def rearm_log (dd : m4ped_driver_data) : List Effect :=
  Effect.cancel_delayed_work ::
    (if dd.samplerate > 0 then [Effect.queue_delayed_work dd.samplerate] else [])

/-- The four characters of the `i`-th field of a profile line. -/
def field (buf : List Char) (i : Nat) : List Char :=
  (buf.drop (i * 5)).take 4

/-- Value of a character as a digit, as `_parse_integer` computes it: `0`-`9`,
and `a`-`f` in either case. -/
def digit_value (c : Char) : Option Nat :=
  if 48 ≤ c.toNat ∧ c.toNat ≤ 57 then some (c.toNat - 48)
  else if 97 ≤ c.toNat ∧ c.toNat ≤ 102 then some (c.toNat - 97 + 10)
  else if 65 ≤ c.toNat ∧ c.toNat ≤ 70 then some (c.toNat - 65 + 10)
  else none

/-- The byte that two hex digits denote. -/
def hex_pair (c1 c2 : Char) : Option Nat :=
  match digit_value c1, digit_value c2 with
  | some v1, some v2 => some (16 * v1 + v2)
  | _, _ => none

/-- The profile line `0xGG,0xAA,0xHH,0xWW` with its final newline, for the
given hex digits of gender, age, height and weight. -/
def profile_line (g1 g2 a1 a2 h1 h2 w1 w2 : Char) : List Char :=
  ['0', 'x', g1, g2, ',', '0', 'x', a1, a2, ',', '0', 'x', h1, h2, ',',
   '0', 'x', w1, w2, Char.ofNat 10]

/-- The buffer is a profile line: 20 characters, four fields `0x` plus two hex
digits, separated by commas and followed by a newline. -/
def is_profile_line (buf : List Char) : Bool :=
  match buf with
  | [z0, x0, g1, g2, s0, z1, x1, a1, a2, s1, z2, x2, h1, h2, s2, z3, x3, w1, w2, nl] =>
    z0 = '0' && x0 = 'x' && z1 = '0' && x1 = 'x' && z2 = '0' && x2 = 'x' &&
    z3 = '0' && x3 = 'x' && s0 = ',' && s1 = ',' && s2 = ',' && nl = Char.ofNat 10 &&
    (hex_pair g1 g2).isSome && (hex_pair a1 a2).isSome &&
    (hex_pair h1 h2).isSome && (hex_pair w1 w2).isSome
  | _ => false

/-- The hub converts every field `0xHH` to the byte its two hex digits denote:
what the profile writer needs of `kstrtouint(convbuf, 16, &value)`. -/
def decodes_hex (m4 : m4sensorhub_data) : Prop :=
  ∀ (c1 c2 : Char) (b : Nat), hex_pair c1 c2 = some b →
    m4.kstrtouint ['0', 'x', c1, c2] = (0, b)

/-! ## String conversion -/

/-- The digit loop `_parse_integer`: digits below the base are accumulated;
the result, the number of digits consumed and the unread rest are returned. -/
def parse_integer (base : Nat) : List Char → Nat → Nat → Nat × Nat × List Char
  | [], res, rv => (res, rv, [])
  | c :: s, res, rv =>
    match digit_value c with
    | none => (res, rv, c :: s)
    | some val =>
      if val ≥ base then (res, rv, c :: s)
      else parse_integer base s (res * base + val) (rv + 1)

/-- Radix fix-up `_parse_integer_fixup_radix` for an explicit base: a leading
`0x` or `0X` is skipped in base 16. -/
def parse_integer_fixup_radix (base : Nat) (s : List Char) : List Char :=
  match s with
  | c0 :: c1 :: rest => if base = 16 ∧ c0 = '0' ∧ c1.toLower = 'x' then rest else s
  | _ => s

/-- The C string ends here: nothing is left, or a NUL follows. -/
def at_end : List Char → Bool
  | [] => true
  | c :: _ => c = Char.ofNat 0

/-- Modelled from the spec: `kstrtouint` (lib/kstrtox.c) is not among the
sources. The model is the conversion the profile format `0xHH` of the spec
relies on, as the kernel performs it: an optional `+`, in base 16 an optional
`0x`, at least one digit of the base, an optional final newline and nothing
more; `-EINVAL` for anything else and `-ERANGE` for a value that does not fit
an `unsigned int`. The second component is the value stored on success. -/
def kstrtouint (s : List Char) (base : Nat) : Int × Nat :=
  let s := match s with
    | c :: t => if c = '+' then t else s
    | [] => s
  let s := parse_integer_fixup_radix base s
  let p := parse_integer base s 0 0
  if p.1 ≥ 2 ^ 64 then (-ERANGE, 0)
  else if p.2.1 = 0 then (-EINVAL, 0)
  else
  let rest := match p.2.2 with
    | c :: t => if c = Char.ofNat 10 then t else p.2.2
    | [] => p.2.2
  if !at_end rest then (-EINVAL, 0)
  else if p.1 ≥ 2 ^ 32 then (-ERANGE, 0)
  else (0, p.1)

/-- The driver data after a checkpoint that ran to its end: the records as
`checkpointed` describes, the work item queued with the rate when the rate is
positive and not queued otherwise. -/
def restored (dd : m4ped_driver_data) : m4ped_driver_data :=
  { checkpointed dd with
    m4ped_work := if dd.samplerate > 0 then some dd.samplerate else none }

/-- The driver data after the rate setter stored a new rate `rate`. -/
def rate_stored (dd : m4ped_driver_data) (rate : Int) : m4ped_driver_data :=
  { dd with
    samplerate := rate
    m4ped_work := if rate > 0 then some rate else none }

/-! ## Vocabulary for the scheduler and the status bits -/

/-- The scheduler relation: the work item is pending, with the rate as its
delay, when the rate is positive, and is not pending otherwise. -/
def scheduler_inv (dd : m4ped_driver_data) : Prop :=
  dd.m4ped_work = if dd.samplerate > 0 then some dd.samplerate else none

instance (dd : m4ped_driver_data) : Decidable (scheduler_inv dd) := by
  unfold scheduler_inv; infer_instance

/-- The scheduling calls of a log replayed on the work item `w`: a cancel
takes it off the queue, a queue call on the idle item makes it pending with
the given delay. The result is `none` when a queue call finds the item pending
already, and the state of the work item after the log otherwise. -/
def replay_work : Option Int → List Effect → Option (Option Int)
  | w, [] => some w
  | _, Effect.cancel_delayed_work :: rest => replay_work none rest
  | none, Effect.queue_delayed_work d :: rest => replay_work (some d) rest
  | some _, Effect.queue_delayed_work _ :: _ => none
  | w, Effect.reg_read _ :: rest => replay_work w rest
  | w, Effect.reg_write _ _ :: rest => replay_work w rest
  | w, Effect.iio_push_to_buffers _ :: rest => replay_work w rest

/-- The external operations an entry point performs, next to `step`. -/
def step_log (dd : m4ped_driver_data) : Event → List Effect
  | Event.work_func m4 => (m4ped_work_func m4 { dd with m4ped_work := none }).log
  | Event.setrate_store m4 buf => (m4ped_setrate_store m4 dd buf).log
  | Event.userdata_store m4 buf => (m4ped_userdata_store m4 dd buf).log
  | Event.feature_enable_store m4 buf => (m4ped_feature_enable_store m4 dd buf).log
  | Event.panic_restore m4 => (m4ped_panic_restore m4 dd).log

/-- The work item when an entry point starts: the workqueue has taken it off
the queue before the tick handler runs. -/
def work_at_entry (dd : m4ped_driver_data) : Event → Option Int
  | Event.work_func _ => none
  | _ => dd.m4ped_work

/-! ## Example hubs and states -/

/-- Register sizes used in the examples. -/
def example_size : m4sensorhub_reg → Int
  | M4SH_REG_PEDOMETER_ACTIVITY => 1
  | M4SH_REG_PEDOMETER_CURRENTSPEED => 2
  | M4SH_REG_USERSETTINGS_USERAGE => 1
  | M4SH_REG_USERSETTINGS_USERGENDER => 1
  | M4SH_REG_USERSETTINGS_USERHEIGHT => 1
  | M4SH_REG_USERSETTINGS_USERWEIGHT => 2
  | M4SH_REG_PEDOMETER_ENABLE => 1
  | M4SH_REG_METS_ENABLE => 1
  | _ => 4

/-- The register that delivers each field of the record `d`. -/
def example_value (d : m4sensorhub_pedometer_iio_data) : m4sensorhub_reg → Nat
  | M4SH_REG_PEDOMETER_ACTIVITY => d.ped_activity
  | M4SH_REG_PEDOMETER_TOTALDISTANCE => d.total_distance
  | M4SH_REG_PEDOMETER_TOTALSTEPS => d.total_steps
  | M4SH_REG_PEDOMETER_CURRENTSPEED => d.current_speed
  | M4SH_REG_METS_HEALTHYMINUTES => d.healthy_minutes
  | M4SH_REG_METS_CALORIES => d.calories
  | M4SH_REG_METS_CALORIES_NO_RMR => d.calories_normr
  | _ => 0

/-- An example hub: every read succeeds and delivers the record `d`, every
write succeeds, `kstrtoint` answers `k`. -/
def example_hub (d : m4sensorhub_pedometer_iio_data) (k : Int × Int) : m4sensorhub_data :=
  { reg_getsize := example_size
    reg_read := fun r => ⟨example_size r, example_value d r⟩
    reg_write := example_size
    boottime_ns := d.timestamp
    kstrtoint := fun _ => k
    kstrtouint := fun _ => (0, 0) }

/-- A raw reading whose only non-zero field is the step count. -/
def steps_only (n : Nat) : m4sensorhub_pedometer_iio_data :=
  { iio_data_zero with total_steps := n }

/-- A reachable state whose step base is the largest 32-bit value: the rate is
enabled while the hub reports 4294967295 steps, then the hub panics. -/
def wrap_state : m4ped_driver_data :=
  step (step m4ped_probe
      (Event.setrate_store (example_hub (steps_only 4294967295) (0, 0)) [Char.ofNat 48]))
    (Event.panic_restore (example_hub iio_data_zero (0, 0)))

/-- An example hub like `example_hub d (0, 0)`, except that the read of the
register `bad` returns `err`. -/
def failing_hub (d : m4sensorhub_pedometer_iio_data) (bad : m4sensorhub_reg) (err : Int) :
    m4sensorhub_data :=
  { example_hub d (0, 0) with
    reg_read := fun r =>
      if r = bad then ⟨err, example_value d r⟩ else ⟨example_size r, example_value d r⟩ }

/-- The probe state after one accepted cycle that read 150 steps. -/
def state_150 : m4ped_driver_data :=
  cycle (example_hub (steps_only 150) (0, 0)) m4ped_probe

/-- An example hub like `example_hub d k`, except that the write of the
register `bad` returns `err`. -/
def write_failing_hub (d : m4sensorhub_pedometer_iio_data) (k : Int × Int)
    (bad : m4sensorhub_reg) (err : Int) : m4sensorhub_data :=
  { example_hub d k with
    reg_write := fun r => if r = bad then err else example_size r }

/-- An example hub whose `kstrtouint` is the base-16 conversion `kstrtouint`. -/
def profile_hub : m4sensorhub_data :=
  { example_hub iio_data_zero (0, 0) with kstrtouint := fun s => kstrtouint s 16 }

/-- The probe state after the rate 1000 was written while the hub reported 150
steps: polling is armed at 1000 ms and 150 steps are published. -/
def state_armed : m4ped_driver_data :=
  (m4ped_setrate_store (example_hub (steps_only 150) (0, 1000)) m4ped_probe
    ['1', '0', '0', '0', Char.ofNat 10]).dd

/-- The probe state with the feature flag cleared. -/
def state_feature_off : m4ped_driver_data :=
  { m4ped_probe with status := 0 }

/-- A reachable state after polling was enabled at 1000 ms, a tick ran with a
failing distance read, the hub panicked and polling was disabled again. -/
def state_after_run : m4ped_driver_data :=
  step (step (step (step m4ped_probe
      (Event.setrate_store (example_hub (steps_only 150) (0, 1000))
        ['1', '0', '0', '0', Char.ofNat 10]))
      (Event.work_func (failing_hub (steps_only 160) M4SH_REG_PEDOMETER_TOTALDISTANCE (-5))))
      (Event.panic_restore (example_hub iio_data_zero (0, 0))))
      (Event.setrate_store (example_hub (steps_only 10) (0, -1)) ['-', '1', Char.ofNat 10])

/-! ## The sampling cycle, case by case -/

theorem read_report_accepted (m4 : m4sensorhub_data) (dd : m4ped_driver_data)
    (h : reads_ok m4) (hd : ¬ totals_lt_some (raw m4) dd.last_dat) :
    m4ped_read_report_data m4 dd =
      ⟨(m4.reg_read M4SH_REG_METS_CALORIES_NO_RMR).ret, accepted m4 dd,
        seven_reads ++ [Effect.iio_push_to_buffers (accepted m4 dd).iiodat]⟩ := by
  obtain ⟨⟨a1, b1⟩, ⟨a2, b2⟩, ⟨a3, b3⟩, ⟨a4, b4⟩, ⟨a5, b5⟩, ⟨a6, b6⟩, ⟨a7, b7⟩⟩ := h
  simp only [totals_lt_some, raw, not_or, not_lt] at hd
  obtain ⟨d1, d2, d3, d4, d5⟩ := hd
  unfold m4ped_read_report_data
  simp only [not_lt.mpr a1, not_lt.mpr a2, not_lt.mpr a3, not_lt.mpr a4, not_lt.mpr a5,
    not_lt.mpr a6, not_lt.mpr a7, ← b1, ← b2, ← b3, ← b4, ← b5, ← b6, ← b7,
    not_lt.mpr d1, not_lt.mpr d2, not_lt.mpr d3, not_lt.mpr d4, not_lt.mpr d5]
  simp [accepted, raw, seven_reads]

theorem read_report_rejected (m4 : m4sensorhub_data) (dd : m4ped_driver_data)
    (h : reads_ok m4) (hd : totals_lt_some (raw m4) dd.last_dat) :
    m4ped_read_report_data m4 dd =
      ⟨(m4.reg_read M4SH_REG_METS_CALORIES_NO_RMR).ret, rejected m4 dd, seven_reads⟩ := by
  obtain ⟨⟨a1, b1⟩, ⟨a2, b2⟩, ⟨a3, b3⟩, ⟨a4, b4⟩, ⟨a5, b5⟩, ⟨a6, b6⟩, ⟨a7, b7⟩⟩ := h
  simp only [totals_lt_some, raw] at hd
  unfold m4ped_read_report_data
  simp only [not_lt.mpr a1, not_lt.mpr a2, not_lt.mpr a3, not_lt.mpr a4, not_lt.mpr a5,
    not_lt.mpr a6, not_lt.mpr a7, ← b1, ← b2, ← b3, ← b4, ← b5, ← b6, ← b7]
  simp [rejected, raw, seven_reads]
  intro h1 h2 h3 h4
  omega


theorem read_report_failed (m4 : m4sensorhub_data) (dd : m4ped_driver_data)
    (h : ¬ reads_ok m4) :
    (m4ped_read_report_data m4 dd).ret < 0 ∧
    pushed (m4ped_read_report_data m4 dd).log = [] ∧
    (m4ped_read_report_data m4 dd).dd = aborted dd (m4ped_read_report_data m4 dd).dd := by
  by_cases c1 : (m4.reg_read M4SH_REG_PEDOMETER_ACTIVITY).ret < 0
  · unfold m4ped_read_report_data
    simp [c1, pushed, aborted]
  by_cases e1 : m4.reg_getsize M4SH_REG_PEDOMETER_ACTIVITY = (m4.reg_read M4SH_REG_PEDOMETER_ACTIVITY).ret
  swap
  · unfold m4ped_read_report_data
    simp [c1, Ne.symm e1, pushed, aborted, EBADE]
  by_cases c2 : (m4.reg_read M4SH_REG_PEDOMETER_TOTALDISTANCE).ret < 0
  · unfold m4ped_read_report_data
    simp [c1, e1, c2, pushed, aborted]
  by_cases e2 : m4.reg_getsize M4SH_REG_PEDOMETER_TOTALDISTANCE = (m4.reg_read M4SH_REG_PEDOMETER_TOTALDISTANCE).ret
  swap
  · unfold m4ped_read_report_data
    simp [c1, e1, c2, Ne.symm e2, pushed, aborted, EBADE]
  by_cases c3 : (m4.reg_read M4SH_REG_PEDOMETER_TOTALSTEPS).ret < 0
  · unfold m4ped_read_report_data
    simp [c1, e1, c2, e2, c3, pushed, aborted]
  by_cases e3 : m4.reg_getsize M4SH_REG_PEDOMETER_TOTALSTEPS = (m4.reg_read M4SH_REG_PEDOMETER_TOTALSTEPS).ret
  swap
  · unfold m4ped_read_report_data
    simp [c1, e1, c2, e2, c3, Ne.symm e3, pushed, aborted, EBADE]
  by_cases c4 : (m4.reg_read M4SH_REG_PEDOMETER_CURRENTSPEED).ret < 0
  · unfold m4ped_read_report_data
    simp [c1, e1, c2, e2, c3, e3, c4, pushed, aborted]
  by_cases e4 : m4.reg_getsize M4SH_REG_PEDOMETER_CURRENTSPEED = (m4.reg_read M4SH_REG_PEDOMETER_CURRENTSPEED).ret
  swap
  · unfold m4ped_read_report_data
    simp [c1, e1, c2, e2, c3, e3, c4, Ne.symm e4, pushed, aborted, EBADE]
  by_cases c5 : (m4.reg_read M4SH_REG_METS_HEALTHYMINUTES).ret < 0
  · unfold m4ped_read_report_data
    simp [c1, e1, c2, e2, c3, e3, c4, e4, c5, pushed, aborted]
  by_cases e5 : m4.reg_getsize M4SH_REG_METS_HEALTHYMINUTES = (m4.reg_read M4SH_REG_METS_HEALTHYMINUTES).ret
  swap
  · unfold m4ped_read_report_data
    simp [c1, e1, c2, e2, c3, e3, c4, e4, c5, Ne.symm e5, pushed, aborted, EBADE]
  by_cases c6 : (m4.reg_read M4SH_REG_METS_CALORIES).ret < 0
  · unfold m4ped_read_report_data
    simp [c1, e1, c2, e2, c3, e3, c4, e4, c5, e5, c6, pushed, aborted]
  by_cases e6 : m4.reg_getsize M4SH_REG_METS_CALORIES = (m4.reg_read M4SH_REG_METS_CALORIES).ret
  swap
  · unfold m4ped_read_report_data
    simp [c1, e1, c2, e2, c3, e3, c4, e4, c5, e5, c6, Ne.symm e6, pushed, aborted, EBADE]
  by_cases c7 : (m4.reg_read M4SH_REG_METS_CALORIES_NO_RMR).ret < 0
  · unfold m4ped_read_report_data
    simp [c1, e1, c2, e2, c3, e3, c4, e4, c5, e5, c6, e6, c7, pushed, aborted]
  by_cases e7 : m4.reg_getsize M4SH_REG_METS_CALORIES_NO_RMR = (m4.reg_read M4SH_REG_METS_CALORIES_NO_RMR).ret
  swap
  · unfold m4ped_read_report_data
    simp [c1, e1, c2, e2, c3, e3, c4, e4, c5, e5, c6, e6, c7, Ne.symm e7, pushed, aborted, EBADE]
  exact absurd ⟨⟨not_lt.mp c1, e1.symm⟩, ⟨not_lt.mp c2, e2.symm⟩, ⟨not_lt.mp c3, e3.symm⟩, ⟨not_lt.mp c4, e4.symm⟩, ⟨not_lt.mp c5, e5.symm⟩, ⟨not_lt.mp c6, e6.symm⟩, ⟨not_lt.mp c7, e7.symm⟩⟩ h

/-- The driver data after a sampling cycle that a failing read ended: the
activity holds what the activity read, which is always performed, left in it;
the speed holds what the speed read left in it when the three reads before it
succeeded, and is unchanged otherwise; nothing else differs from `dd`. -/
theorem read_report_failed_state (m4 : m4sensorhub_data) (dd : m4ped_driver_data)
    (h : ¬ reads_ok m4) :
    (m4ped_read_report_data m4 dd).dd =
      { dd with iiodat := { dd.iiodat with
          ped_activity := u8 (m4.reg_read M4SH_REG_PEDOMETER_ACTIVITY).val
          current_speed :=
            if read_ok m4 M4SH_REG_PEDOMETER_ACTIVITY ∧
                read_ok m4 M4SH_REG_PEDOMETER_TOTALDISTANCE ∧
                read_ok m4 M4SH_REG_PEDOMETER_TOTALSTEPS
            then u16 (m4.reg_read M4SH_REG_PEDOMETER_CURRENTSPEED).val
            else dd.iiodat.current_speed } } := by
  by_cases c1 : (m4.reg_read M4SH_REG_PEDOMETER_ACTIVITY).ret < 0
  · unfold m4ped_read_report_data
    simp [c1, not_le.mpr c1, read_ok]
  by_cases e1 : m4.reg_getsize M4SH_REG_PEDOMETER_ACTIVITY = (m4.reg_read M4SH_REG_PEDOMETER_ACTIVITY).ret
  swap
  · unfold m4ped_read_report_data
    simp [c1, not_lt.mp c1, Ne.symm e1, read_ok, EBADE]
  by_cases c2 : (m4.reg_read M4SH_REG_PEDOMETER_TOTALDISTANCE).ret < 0
  · unfold m4ped_read_report_data
    simp [c1, not_lt.mp c1, e1, c2, not_le.mpr c2, read_ok]
  by_cases e2 : m4.reg_getsize M4SH_REG_PEDOMETER_TOTALDISTANCE = (m4.reg_read M4SH_REG_PEDOMETER_TOTALDISTANCE).ret
  swap
  · unfold m4ped_read_report_data
    simp [c1, not_lt.mp c1, e1, c2, not_lt.mp c2, Ne.symm e2, read_ok, EBADE]
  by_cases c3 : (m4.reg_read M4SH_REG_PEDOMETER_TOTALSTEPS).ret < 0
  · unfold m4ped_read_report_data
    simp [c1, not_lt.mp c1, e1, c2, not_lt.mp c2, e2, c3, not_le.mpr c3, read_ok]
  by_cases e3 : m4.reg_getsize M4SH_REG_PEDOMETER_TOTALSTEPS = (m4.reg_read M4SH_REG_PEDOMETER_TOTALSTEPS).ret
  swap
  · unfold m4ped_read_report_data
    simp [c1, not_lt.mp c1, e1, c2, not_lt.mp c2, e2, c3, not_lt.mp c3, Ne.symm e3, read_ok, EBADE]
  by_cases c4 : (m4.reg_read M4SH_REG_PEDOMETER_CURRENTSPEED).ret < 0
  · unfold m4ped_read_report_data
    simp [c1, not_lt.mp c1, e1, c2, not_lt.mp c2, e2, c3, not_lt.mp c3, e3, c4, not_le.mpr c4, read_ok]
  by_cases e4 : m4.reg_getsize M4SH_REG_PEDOMETER_CURRENTSPEED = (m4.reg_read M4SH_REG_PEDOMETER_CURRENTSPEED).ret
  swap
  · unfold m4ped_read_report_data
    simp [c1, not_lt.mp c1, e1, c2, not_lt.mp c2, e2, c3, not_lt.mp c3, e3, c4, not_lt.mp c4, Ne.symm e4, read_ok, EBADE]
  by_cases c5 : (m4.reg_read M4SH_REG_METS_HEALTHYMINUTES).ret < 0
  · unfold m4ped_read_report_data
    simp [c1, not_lt.mp c1, e1, c2, not_lt.mp c2, e2, c3, not_lt.mp c3, e3, c4, not_lt.mp c4, e4, c5, not_le.mpr c5, read_ok]
  by_cases e5 : m4.reg_getsize M4SH_REG_METS_HEALTHYMINUTES = (m4.reg_read M4SH_REG_METS_HEALTHYMINUTES).ret
  swap
  · unfold m4ped_read_report_data
    simp [c1, not_lt.mp c1, e1, c2, not_lt.mp c2, e2, c3, not_lt.mp c3, e3, c4, not_lt.mp c4, e4, c5, not_lt.mp c5, Ne.symm e5, read_ok, EBADE]
  by_cases c6 : (m4.reg_read M4SH_REG_METS_CALORIES).ret < 0
  · unfold m4ped_read_report_data
    simp [c1, not_lt.mp c1, e1, c2, not_lt.mp c2, e2, c3, not_lt.mp c3, e3, c4, not_lt.mp c4, e4, c5, not_lt.mp c5, e5, c6, not_le.mpr c6, read_ok]
  by_cases e6 : m4.reg_getsize M4SH_REG_METS_CALORIES = (m4.reg_read M4SH_REG_METS_CALORIES).ret
  swap
  · unfold m4ped_read_report_data
    simp [c1, not_lt.mp c1, e1, c2, not_lt.mp c2, e2, c3, not_lt.mp c3, e3, c4, not_lt.mp c4, e4, c5, not_lt.mp c5, e5, c6, not_lt.mp c6, Ne.symm e6, read_ok, EBADE]
  by_cases c7 : (m4.reg_read M4SH_REG_METS_CALORIES_NO_RMR).ret < 0
  · unfold m4ped_read_report_data
    simp [c1, not_lt.mp c1, e1, c2, not_lt.mp c2, e2, c3, not_lt.mp c3, e3, c4, not_lt.mp c4, e4, c5, not_lt.mp c5, e5, c6, not_lt.mp c6, e6, c7, not_le.mpr c7, read_ok]
  by_cases e7 : m4.reg_getsize M4SH_REG_METS_CALORIES_NO_RMR = (m4.reg_read M4SH_REG_METS_CALORIES_NO_RMR).ret
  swap
  · unfold m4ped_read_report_data
    simp [c1, not_lt.mp c1, e1, c2, not_lt.mp c2, e2, c3, not_lt.mp c3, e3, c4, not_lt.mp c4, e4, c5, not_lt.mp c5, e5, c6, not_lt.mp c6, e6, c7, not_lt.mp c7, Ne.symm e7, read_ok, EBADE]
  exact absurd ⟨⟨not_lt.mp c1, e1.symm⟩, ⟨not_lt.mp c2, e2.symm⟩, ⟨not_lt.mp c3, e3.symm⟩, ⟨not_lt.mp c4, e4.symm⟩, ⟨not_lt.mp c5, e5.symm⟩, ⟨not_lt.mp c6, e6.symm⟩, ⟨not_lt.mp c7, e7.symm⟩⟩ h

/-- What a sampling cycle never touches, and what it keeps: the base and the
scheduling and control fields are unchanged, the last raw totals never
decrease, and the accumulator relation is kept. -/
theorem read_report_frame (m4 : m4sensorhub_data) (dd : m4ped_driver_data) :
    (m4ped_read_report_data m4 dd).dd.base_dat = dd.base_dat ∧
    (m4ped_read_report_data m4 dd).dd.m4ped_work = dd.m4ped_work ∧
    (m4ped_read_report_data m4 dd).dd.samplerate = dd.samplerate ∧
    (m4ped_read_report_data m4 dd).dd.fastest_rate = dd.fastest_rate ∧
    (m4ped_read_report_data m4 dd).dd.userdata = dd.userdata ∧
    (m4ped_read_report_data m4 dd).dd.status = dd.status ∧
    totals_le dd.last_dat (m4ped_read_report_data m4 dd).dd.last_dat ∧
    (accumulator_inv dd → accumulator_inv (m4ped_read_report_data m4 dd).dd) := by
  by_cases h : reads_ok m4
  · by_cases hd : totals_lt_some (raw m4) dd.last_dat
    · rw [read_report_rejected m4 dd h hd]
      simp [rejected, totals_le, accumulator_inv]
    · rw [read_report_accepted m4 dd h hd]
      simp only [totals_lt_some, not_or, not_lt] at hd
      obtain ⟨d1, d2, d3, d4, d5⟩ := hd
      simp [accepted, totals_le, accumulator_inv, d1, d2, d3, d4, d5, Nat.add_comm]
  · obtain ⟨_, _, e⟩ := read_report_failed m4 dd h
    rw [e]
    simp [aborted, totals_le, accumulator_inv]

/-! ## Frame lemmas for the other entry points -/

theorem same_records_inv {a b : m4ped_driver_data} (h : same_records a b)
    (hi : accumulator_inv b) : accumulator_inv a := by
  obtain ⟨h1, h2, h3⟩ := h
  simpa [accumulator_inv, h1, h2, h3] using hi

@[simp] theorem queue_delayed_work_iiodat (dd : m4ped_driver_data) (d : Int) :
    (queue_delayed_work dd d).iiodat = dd.iiodat := by
  unfold queue_delayed_work; cases dd.m4ped_work <;> rfl

@[simp] theorem queue_delayed_work_base_dat (dd : m4ped_driver_data) (d : Int) :
    (queue_delayed_work dd d).base_dat = dd.base_dat := by
  unfold queue_delayed_work; cases dd.m4ped_work <;> rfl

@[simp] theorem queue_delayed_work_last_dat (dd : m4ped_driver_data) (d : Int) :
    (queue_delayed_work dd d).last_dat = dd.last_dat := by
  unfold queue_delayed_work; cases dd.m4ped_work <;> rfl

@[simp] theorem queue_delayed_work_samplerate (dd : m4ped_driver_data) (d : Int) :
    (queue_delayed_work dd d).samplerate = dd.samplerate := by
  unfold queue_delayed_work; cases dd.m4ped_work <;> rfl

@[simp] theorem queue_delayed_work_fastest_rate (dd : m4ped_driver_data) (d : Int) :
    (queue_delayed_work dd d).fastest_rate = dd.fastest_rate := by
  unfold queue_delayed_work; cases dd.m4ped_work <;> rfl

@[simp] theorem queue_delayed_work_userdata (dd : m4ped_driver_data) (d : Int) :
    (queue_delayed_work dd d).userdata = dd.userdata := by
  unfold queue_delayed_work; cases dd.m4ped_work <;> rfl

@[simp] theorem queue_delayed_work_status (dd : m4ped_driver_data) (d : Int) :
    (queue_delayed_work dd d).status = dd.status := by
  unfold queue_delayed_work; cases dd.m4ped_work <;> rfl

theorem write_userdata_dd (m4 : m4sensorhub_data) (dd : m4ped_driver_data) :
    (m4ped_write_userdata m4 dd).dd = dd := by
  unfold m4ped_write_userdata
  simp only []
  split_ifs <;> rfl

theorem set_samplerate_records (dd : m4ped_driver_data) (rate : Int) :
    same_records (m4ped_set_samplerate dd rate).dd dd := by
  unfold m4ped_set_samplerate
  simp only []
  split_ifs <;> simp [same_records, cancel_delayed_work]

theorem userdata_store_records (m4 : m4sensorhub_data) (dd : m4ped_driver_data)
    (buf : List Char) : same_records (m4ped_userdata_store m4 dd buf).dd dd := by
  unfold m4ped_userdata_store
  simp only []
  split_ifs
  · simp [same_records]
  · cases m4ped_userdata_convert m4 buf [0, 1, 2, 3] with
    | error e => simp [same_records]
    | ok vs =>
      simp only []
      split_ifs <;> simp [same_records, write_userdata_dd]

theorem feature_enable_store_records (m4 : m4sensorhub_data) (dd : m4ped_driver_data)
    (buf : List Char) : same_records (m4ped_feature_enable_store m4 dd buf).dd dd := by
  unfold m4ped_feature_enable_store
  simp only []
  split_ifs <;> simp [same_records]

/-- A checkpoint either leaves through the failure label with the driver data
untouched, or leaves the three records as `checkpointed` describes. -/
theorem panic_restore_cases (m4 : m4sensorhub_data) (dd : m4ped_driver_data) :
    (m4ped_panic_restore m4 dd).dd = dd ∨
    same_records (m4ped_panic_restore m4 dd).dd (checkpointed dd) := by
  unfold m4ped_panic_restore
  simp only [write_userdata_dd]
  split_ifs
  all_goals first
    | (left; rfl)
    | (right; simp [same_records, cancel_delayed_work, checkpointed])

theorem work_func_dd (m4 : m4sensorhub_data) (dd : m4ped_driver_data) :
    same_records (m4ped_work_func m4 dd).dd (m4ped_read_report_data m4 dd).dd := by
  unfold m4ped_work_func
  simp only []
  split_ifs <;> simp [same_records]

/-- The attribute writer of the rate leaves the three records as they were, or
as a sampling cycle run on them leaves them. -/
theorem setrate_store_cases (m4 : m4sensorhub_data) (dd : m4ped_driver_data)
    (buf : List Char) :
    same_records (m4ped_setrate_store m4 dd buf).dd dd ∨
    same_records (m4ped_setrate_store m4 dd buf).dd
      (m4ped_read_report_data m4 (m4ped_set_samplerate dd (s16 (m4.kstrtoint buf).2)).dd).dd := by
  unfold m4ped_setrate_store
  simp only []
  split_ifs
  all_goals first
    | (left; exact set_samplerate_records _ _)
    | (left; simp [same_records]; done)
    | (right; simp [same_records])

theorem totals_le_refl (a : m4sensorhub_pedometer_iio_data) : totals_le a a := by
  simp [totals_le]

theorem checkpointed_inv (dd : m4ped_driver_data) (hi : accumulator_inv dd) :
    accumulator_inv (checkpointed dd) := by
  obtain ⟨h1, h2, h3, h4, h5⟩ := hi
  have b1 : dd.iiodat.total_distance < 2 ^ 32 := by rw [h1]; exact Nat.mod_lt _ (by norm_num)
  have b2 : dd.iiodat.total_steps < 2 ^ 32 := by rw [h2]; exact Nat.mod_lt _ (by norm_num)
  have b3 : dd.iiodat.healthy_minutes < 2 ^ 32 := by rw [h3]; exact Nat.mod_lt _ (by norm_num)
  have b4 : dd.iiodat.calories < 2 ^ 32 := by rw [h4]; exact Nat.mod_lt _ (by norm_num)
  have b5 : dd.iiodat.calories_normr < 2 ^ 32 := by rw [h5]; exact Nat.mod_lt _ (by norm_num)
  simp only [accumulator_inv, checkpointed, u32, Nat.add_zero]
  exact ⟨(Nat.mod_eq_of_lt b1).symm, (Nat.mod_eq_of_lt b2).symm, (Nat.mod_eq_of_lt b3).symm,
    (Nat.mod_eq_of_lt b4).symm, (Nat.mod_eq_of_lt b5).symm⟩

/-- Every entry point keeps the accumulator relation. -/
theorem step_accumulator_inv (dd : m4ped_driver_data) (ev : Event)
    (hi : accumulator_inv dd) : accumulator_inv (step dd ev) := by
  cases ev with
  | work_func m4 =>
    have h0 : accumulator_inv { dd with m4ped_work := none } := by
      simpa [accumulator_inv] using hi
    exact same_records_inv (work_func_dd m4 _) ((read_report_frame m4 _).2.2.2.2.2.2.2 h0)
  | setrate_store m4 buf =>
    rcases setrate_store_cases m4 dd buf with h | h
    · exact same_records_inv h hi
    · exact same_records_inv h ((read_report_frame m4 _).2.2.2.2.2.2.2
        (same_records_inv (set_samplerate_records dd _) hi))
  | userdata_store m4 buf => exact same_records_inv (userdata_store_records m4 dd buf) hi
  | feature_enable_store m4 buf =>
    exact same_records_inv (feature_enable_store_records m4 dd buf) hi
  | panic_restore m4 =>
    rcases panic_restore_cases m4 dd with h | h
    · simp only [step]; rw [h]; exact hi
    · exact same_records_inv h (checkpointed_inv dd hi)

theorem totals_le_trans {a b c : m4sensorhub_pedometer_iio_data}
    (h1 : totals_le a b) (h2 : totals_le b c) : totals_le a c := by
  obtain ⟨a1, a2, a3, a4, a5⟩ := h1
  obtain ⟨b1, b2, b3, b4, b5⟩ := h2
  exact ⟨le_trans a1 b1, le_trans a2 b2, le_trans a3 b3, le_trans a4 b4, le_trans a5 b5⟩

/-- Between two checkpoints the base stays and the last raw totals never
decrease, whichever entry point runs. -/
theorem step_epoch (dd : m4ped_driver_data) (ev : Event) (hc : is_checkpoint ev = false) :
    (step dd ev).base_dat = dd.base_dat ∧ totals_le dd.last_dat (step dd ev).last_dat := by
  cases ev with
  | work_func m4 =>
    obtain ⟨_, e2, e3⟩ := work_func_dd m4 { dd with m4ped_work := none }
    obtain ⟨f1, _, _, _, _, _, f7, _⟩ := read_report_frame m4 { dd with m4ped_work := none }
    simp only [step]
    rw [e2, e3]
    exact ⟨f1, f7⟩
  | setrate_store m4 buf =>
    obtain ⟨_, s2, s3⟩ := set_samplerate_records dd (s16 (m4.kstrtoint buf).2)
    rcases setrate_store_cases m4 dd buf with h | h
    · obtain ⟨_, e2, e3⟩ := h
      simp only [step]
      rw [e2, e3]
      exact ⟨rfl, totals_le_refl _⟩
    · obtain ⟨_, e2, e3⟩ := h
      obtain ⟨f1, _, _, _, _, _, f7, _⟩ :=
        read_report_frame m4 (m4ped_set_samplerate dd (s16 (m4.kstrtoint buf).2)).dd
      simp only [step]
      rw [e2, e3, f1, s2]
      rw [s3] at f7
      exact ⟨rfl, f7⟩
  | userdata_store m4 buf =>
    obtain ⟨_, e2, e3⟩ := userdata_store_records m4 dd buf
    simp only [step]
    rw [e2, e3]
    exact ⟨rfl, totals_le_refl _⟩
  | feature_enable_store m4 buf =>
    obtain ⟨_, e2, e3⟩ := feature_enable_store_records m4 dd buf
    simp only [step]
    rw [e2, e3]
    exact ⟨rfl, totals_le_refl _⟩
  | panic_restore m4 => simp [is_checkpoint] at hc

theorem run_epoch (evs : List Event) :
    ∀ dd : m4ped_driver_data, (∀ ev ∈ evs, is_checkpoint ev = false) →
      (run dd evs).base_dat = dd.base_dat ∧ totals_le dd.last_dat (run dd evs).last_dat := by
  induction evs with
  | nil => intro dd _; exact ⟨rfl, totals_le_refl _⟩
  | cons ev rest ih =>
    intro dd h
    obtain ⟨s1, s2⟩ := step_epoch dd ev (h ev (List.mem_cons_self _ _))
    obtain ⟨r1, r2⟩ := ih (step dd ev) (fun e he => h e (List.mem_cons_of_mem _ he))
    simp only [run, List.foldl_cons] at r1 r2 ⊢
    exact ⟨r1.trans s1, totals_le_trans s2 r2⟩

theorem write_userdata_ok (m4 : m4sensorhub_data) (dd : m4ped_driver_data)
    (hw : writes_ok m4) : ¬ (m4ped_write_userdata m4 dd).ret < 0 := by
  unfold m4ped_write_userdata
  simp only []
  have w1 := hw M4SH_REG_USERSETTINGS_USERAGE
  have w2 := hw M4SH_REG_USERSETTINGS_USERGENDER
  have w3 := hw M4SH_REG_USERSETTINGS_USERHEIGHT
  have w4 := hw M4SH_REG_USERSETTINGS_USERWEIGHT
  split_ifs <;> simp only [] <;> omega

/-- A checkpoint whose writes succeed runs to its end. -/
theorem panic_restore_ok (m4 : m4sensorhub_data) (dd : m4ped_driver_data)
    (hw : writes_ok m4) : same_records (checkpoint m4 dd) (checkpointed dd) := by
  have w0 := write_userdata_ok m4 dd hw
  have w1 := not_lt.mpr (hw M4SH_REG_PEDOMETER_ENABLE)
  have w2 := not_lt.mpr (hw M4SH_REG_METS_ENABLE)
  unfold checkpoint m4ped_panic_restore
  simp only [write_userdata_dd, w0, w1, w2, if_false]
  split_ifs <;> simp [same_records, cancel_delayed_work, checkpointed]

/-! ## Properties of the specification -/

/-- C1 (P1, monotonic publish), amended: for every driver state, a successful
sampling cycle followed, after any entry points other than the checkpoint, by
a second successful sampling cycle whose sums raw + base do not wrap around
32 bits publishes five totals that are each at least the ones published by the
first cycle. -/
theorem C1_monotonic_publish (dd : m4ped_driver_data) (m1 m2 : m4sensorhub_data)
    (evs : List Event)
    (h1 : reads_ok m1) (a1 : ¬ totals_lt_some (raw m1) dd.last_dat)
    (hev : ∀ ev ∈ evs, is_checkpoint ev = false)
    (h2 : reads_ok m2) (a2 : ¬ totals_lt_some (raw m2) (run (cycle m1 dd) evs).last_dat)
    (hw : no_wrap (raw m2) dd.base_dat) :
    published m1 dd = [(cycle m1 dd).iiodat] ∧
    published m2 (run (cycle m1 dd) evs) = [(cycle m2 (run (cycle m1 dd) evs)).iiodat] ∧
    totals_le (cycle m1 dd).iiodat (cycle m2 (run (cycle m1 dd) evs)).iiodat := by
  obtain ⟨r1, r2⟩ := run_epoch evs (cycle m1 dd) hev
  have e1 : cycle m1 dd = accepted m1 dd := by
    simp only [cycle, read_report_accepted m1 dd h1 a1]
  have p1 : published m1 dd = [(cycle m1 dd).iiodat] := by
    simp [published, cycle, read_report_accepted m1 dd h1 a1, pushed, seven_reads]
  generalize run (cycle m1 dd) evs = D at r1 r2 a2 ⊢
  have e2 : cycle m2 D = accepted m2 D := by
    simp only [cycle, read_report_accepted m2 D h2 a2]
  have p2 : published m2 D = [(cycle m2 D).iiodat] := by
    simp [published, cycle, read_report_accepted m2 D h2 a2, pushed, seven_reads]
  refine ⟨p1, p2, ?_⟩
  rw [e1] at r1 r2 ⊢
  rw [e2]
  simp only [totals_lt_some, not_or, not_lt] at a2
  obtain ⟨w1, w2, w3, w4, w5⟩ := hw
  obtain ⟨l1, l2, l3, l4, l5⟩ := r2
  obtain ⟨g1, g2, g3, g4, g5⟩ := a2
  simp only [accepted] at r1 l1 l2 l3 l4 l5
  simp only [totals_le, accepted, r1, u32]
  rw [Nat.mod_eq_of_lt w1, Nat.mod_eq_of_lt w2, Nat.mod_eq_of_lt w3, Nat.mod_eq_of_lt w4,
    Nat.mod_eq_of_lt w5]
  refine ⟨?_, ?_, ?_, ?_, ?_⟩
  · exact le_trans (Nat.mod_le _ _) (by omega)
  · exact le_trans (Nat.mod_le _ _) (by omega)
  · exact le_trans (Nat.mod_le _ _) (by omega)
  · exact le_trans (Nat.mod_le _ _) (by omega)
  · exact le_trans (Nat.mod_le _ _) (by omega)

/-- C1 as stated fails: in the reachable state `wrap_state` (step base
4294967295) two successive accepted cycles with raw steps 0 and then 1 publish
4294967295 steps and then 0 steps. -/
theorem C1_counterexample :
    Reachable wrap_state ∧
    reads_ok (example_hub (steps_only 0) (0, 0)) ∧
    ¬ totals_lt_some (raw (example_hub (steps_only 0) (0, 0))) wrap_state.last_dat ∧
    reads_ok (example_hub (steps_only 1) (0, 0)) ∧
    ¬ totals_lt_some (raw (example_hub (steps_only 1) (0, 0)))
        (cycle (example_hub (steps_only 0) (0, 0)) wrap_state).last_dat ∧
    (published (example_hub (steps_only 0) (0, 0)) wrap_state).map
        m4sensorhub_pedometer_iio_data.total_steps = [4294967295] ∧
    (published (example_hub (steps_only 1) (0, 0))
        (cycle (example_hub (steps_only 0) (0, 0)) wrap_state)).map
        m4sensorhub_pedometer_iio_data.total_steps = [0] ∧
    ¬ totals_le (cycle (example_hub (steps_only 0) (0, 0)) wrap_state).iiodat
        (cycle (example_hub (steps_only 1) (0, 0))
          (cycle (example_hub (steps_only 0) (0, 0)) wrap_state)).iiodat := by
  refine ⟨?_, by decide, by decide, by decide, by decide, by decide, by decide, by decide⟩
  exact Reachable.step _ (Reachable.step _ Reachable.probe rfl) rfl

/-- The hypotheses of `C1_monotonic_publish` hold for two cycles from the probe
state that report 100 and then 150 steps, with a tick whose distance read fails
and a feature write in between. -/
theorem C1_monotonic_publish_witness :
    reads_ok (example_hub (steps_only 100) (0, 0)) ∧
    ¬ totals_lt_some (raw (example_hub (steps_only 100) (0, 0))) m4ped_probe.last_dat ∧
    reads_ok (example_hub (steps_only 150) (0, 0)) ∧
    no_wrap (raw (example_hub (steps_only 150) (0, 0))) m4ped_probe.base_dat ∧
    totals_le (cycle (example_hub (steps_only 100) (0, 0)) m4ped_probe).iiodat
      (cycle (example_hub (steps_only 150) (0, 0))
        (run (cycle (example_hub (steps_only 100) (0, 0)) m4ped_probe)
          [Event.work_func (failing_hub (steps_only 7) M4SH_REG_PEDOMETER_TOTALDISTANCE (-5)),
           Event.feature_enable_store (example_hub (steps_only 7) (0, 0)) []])).iiodat :=
  ⟨by decide, by decide, by decide, by decide,
   (C1_monotonic_publish m4ped_probe (example_hub (steps_only 100) (0, 0))
      (example_hub (steps_only 150) (0, 0))
      [Event.work_func (failing_hub (steps_only 7) M4SH_REG_PEDOMETER_TOTALDISTANCE (-5)),
       Event.feature_enable_store (example_hub (steps_only 7) (0, 0)) []]
      (by decide) (by decide) (by decide) (by decide) (by decide) (by decide)).2.2⟩

/-- C2 (P2, checkpoint conservation): a checkpoint whose device writes succeed
leaves the published record unchanged, zeroes the five last raw totals and
makes the five base totals equal to the published totals; a following sampling
cycle whose reads succeed with all five raw totals zero is accepted (its record
is published) and its totals are the ones from before the checkpoint. -/
theorem C2_checkpoint_conservation (m4 : m4sensorhub_data) (dd : m4ped_driver_data)
    (ht : iio_data_typed dd.iiodat) (hw : writes_ok m4) :
    (checkpoint m4 dd).iiodat = dd.iiodat ∧
    totals (checkpoint m4 dd).last_dat = [0, 0, 0, 0, 0] ∧
    totals (checkpoint m4 dd).base_dat = totals dd.iiodat ∧
    ∀ m2 : m4sensorhub_data, reads_ok m2 → totals (raw m2) = [0, 0, 0, 0, 0] →
      published m2 (checkpoint m4 dd) = [(cycle m2 (checkpoint m4 dd)).iiodat] ∧
      totals (cycle m2 (checkpoint m4 dd)).last_dat = [0, 0, 0, 0, 0] ∧
      totals (cycle m2 (checkpoint m4 dd)).iiodat = totals dd.iiodat := by
  obtain ⟨c1, c2, c3⟩ := panic_restore_ok m4 dd hw
  generalize checkpoint m4 dd = C at c1 c2 c3 ⊢
  refine ⟨by rw [c1]; rfl, by rw [c3]; rfl, by rw [c2]; rfl, ?_⟩
  intro m2 h2 hz
  simp only [totals, List.cons.injEq, and_true] at hz
  obtain ⟨z1, z2, z3, z4, z5⟩ := hz
  have a2 : ¬ totals_lt_some (raw m2) C.last_dat := by
    simp [totals_lt_some, c3, checkpointed]
  obtain ⟨_, _, t1, t2, t3, t4, t5⟩ := ht
  simp only [published, cycle, read_report_accepted m2 C h2 a2]
  simp only [accepted, c2, checkpointed, z1, z2, z3, z4, z5, u32, Nat.zero_add,
    Nat.mod_eq_of_lt t1, Nat.mod_eq_of_lt t2, Nat.mod_eq_of_lt t3, Nat.mod_eq_of_lt t4,
    Nat.mod_eq_of_lt t5, totals]
  simp [pushed, seven_reads]

/-- The hypotheses of `C2_checkpoint_conservation` hold after 150 reported
steps: the checkpoint keeps the published record, and the all-zero cycle after
it publishes 150 steps again. -/
theorem C2_checkpoint_conservation_witness :
    iio_data_typed state_150.iiodat ∧
    writes_ok (example_hub iio_data_zero (0, 0)) ∧
    reads_ok (example_hub (steps_only 0) (0, 0)) ∧
    totals (raw (example_hub (steps_only 0) (0, 0))) = [0, 0, 0, 0, 0] ∧
    (checkpoint (example_hub iio_data_zero (0, 0)) state_150).iiodat = state_150.iiodat ∧
    totals (cycle (example_hub (steps_only 0) (0, 0))
      (checkpoint (example_hub iio_data_zero (0, 0)) state_150)).iiodat = [0, 150, 0, 0, 0] :=
  ⟨by decide, fun r => by cases r <;> decide, by decide, by decide,
   (C2_checkpoint_conservation (example_hub iio_data_zero (0, 0)) state_150 (by decide)
      (fun r => by cases r <;> decide)).1,
   ((C2_checkpoint_conservation (example_hub iio_data_zero (0, 0)) state_150 (by decide)
      (fun r => by cases r <;> decide)).2.2.2 (example_hub (steps_only 0) (0, 0))
      (by decide) (by decide)).2.2⟩

/-- C3 (P3, reset detection): when every read succeeds and some raw total is
below its last value, the cycle publishes nothing and leaves the base, the last
raw values and the five published totals as they were; a following cycle whose
reads succeed without a decrease then returns, stores and publishes exactly
what it would have without the rejected cycle. -/
theorem C3_reset_detection (m4 : m4sensorhub_data) (dd : m4ped_driver_data)
    (h : reads_ok m4) (hd : totals_lt_some (raw m4) dd.last_dat) :
    published m4 dd = [] ∧
    (cycle m4 dd).base_dat = dd.base_dat ∧
    (cycle m4 dd).last_dat = dd.last_dat ∧
    totals (cycle m4 dd).iiodat = totals dd.iiodat ∧
    ∀ m2 : m4sensorhub_data, reads_ok m2 → ¬ totals_lt_some (raw m2) dd.last_dat →
      (m4ped_read_report_data m2 (cycle m4 dd)).ret = (m4ped_read_report_data m2 dd).ret ∧
      cycle m2 (cycle m4 dd) = cycle m2 dd ∧
      published m2 (cycle m4 dd) = published m2 dd := by
  have e : cycle m4 dd = rejected m4 dd := by
    simp only [cycle, read_report_rejected m4 dd h hd]
  refine ⟨?_, by rw [e]; rfl, by rw [e]; rfl, by rw [e]; rfl, ?_⟩
  · simp [published, read_report_rejected m4 dd h hd, pushed, seven_reads]
  · intro m2 h2 a2
    have a2r : ¬ totals_lt_some (raw m2) (rejected m4 dd).last_dat := a2
    have ea : accepted m2 (rejected m4 dd) = accepted m2 dd := by
      simp [accepted, rejected]
    rw [e]
    simp only [published, cycle, read_report_accepted m2 _ h2 a2r,
      read_report_accepted m2 dd h2 a2, ea, and_self]

/-- The hypotheses of `C3_reset_detection` hold in scenario B: after 150
reported steps a reading of 140 steps is rejected and 150 stays published; a
reading of 160 steps after it gives the same state as without the rejected
cycle. -/
theorem C3_reset_detection_witness :
    reads_ok (example_hub (steps_only 140) (0, 0)) ∧
    totals_lt_some (raw (example_hub (steps_only 140) (0, 0))) state_150.last_dat ∧
    published (example_hub (steps_only 140) (0, 0)) state_150 = [] ∧
    (cycle (example_hub (steps_only 140) (0, 0)) state_150).iiodat.total_steps = 150 ∧
    cycle (example_hub (steps_only 160) (0, 0))
        (cycle (example_hub (steps_only 140) (0, 0)) state_150) =
      cycle (example_hub (steps_only 160) (0, 0)) state_150 :=
  ⟨by decide, by decide,
   (C3_reset_detection (example_hub (steps_only 140) (0, 0)) state_150
      (by decide) (by decide)).1,
   by decide,
   ((C3_reset_detection (example_hub (steps_only 140) (0, 0)) state_150
      (by decide) (by decide)).2.2.2.2 (example_hub (steps_only 160) (0, 0))
      (by decide) (by decide)).2.1⟩

/-- C4 (absorb success postcondition): when every read succeeds with the
declared size and no raw total is below its last value, the cycle stores the
raw totals as the last values, publishes raw + base (32-bit sum) for each of
the five totals, passes the activity and the speed through as read, leaves the
base unchanged and pushes exactly the resulting record, once. -/
theorem C4_absorb_success (m4 : m4sensorhub_data) (dd : m4ped_driver_data)
    (h : reads_ok m4) (hd : totals_le dd.last_dat (raw m4)) :
    totals (cycle m4 dd).last_dat = totals (raw m4) ∧
    (cycle m4 dd).iiodat.total_distance =
      u32 ((raw m4).total_distance + dd.base_dat.total_distance) ∧
    (cycle m4 dd).iiodat.total_steps = u32 ((raw m4).total_steps + dd.base_dat.total_steps) ∧
    (cycle m4 dd).iiodat.healthy_minutes =
      u32 ((raw m4).healthy_minutes + dd.base_dat.healthy_minutes) ∧
    (cycle m4 dd).iiodat.calories = u32 ((raw m4).calories + dd.base_dat.calories) ∧
    (cycle m4 dd).iiodat.calories_normr =
      u32 ((raw m4).calories_normr + dd.base_dat.calories_normr) ∧
    (cycle m4 dd).iiodat.ped_activity = (raw m4).ped_activity ∧
    (cycle m4 dd).iiodat.current_speed = (raw m4).current_speed ∧
    (cycle m4 dd).base_dat = dd.base_dat ∧
    published m4 dd = [(cycle m4 dd).iiodat] := by
  have a : ¬ totals_lt_some (raw m4) dd.last_dat := by
    obtain ⟨d1, d2, d3, d4, d5⟩ := hd
    simp only [totals_lt_some, not_or, not_lt]
    exact ⟨d1, d2, d3, d4, d5⟩
  simp only [published, cycle, read_report_accepted m4 dd h a]
  simp [accepted, totals, pushed, seven_reads]

/-- The hypotheses of `C4_absorb_success` hold for a reading of 10 steps on a
state with base 150 and last 0: 160 steps are published. -/
theorem C4_absorb_success_witness :
    reads_ok (example_hub (steps_only 10) (0, 0)) ∧
    totals_le
      (checkpoint (example_hub iio_data_zero (0, 0))
        (cycle (example_hub (steps_only 150) (0, 0)) m4ped_probe)).last_dat
      (raw (example_hub (steps_only 10) (0, 0))) ∧
    (cycle (example_hub (steps_only 10) (0, 0))
      (checkpoint (example_hub iio_data_zero (0, 0))
        (cycle (example_hub (steps_only 150) (0, 0)) m4ped_probe))).iiodat.total_steps =
      u32 (10 + 150) :=
  ⟨by decide, by decide,
   (C4_absorb_success (example_hub (steps_only 10) (0, 0))
      (checkpoint (example_hub iio_data_zero (0, 0))
        (cycle (example_hub (steps_only 150) (0, 0)) m4ped_probe))
      (by decide) (by decide)).2.2.1⟩

/-- C5 (accumulator invariant): in every state reachable from the probe state,
by ticks, rate writes, profile writes, feature writes and panic callbacks with
any answers of the hub, each published total is base + last raw value in
32-bit arithmetic. -/
theorem C5_accumulator_invariant (dd : m4ped_driver_data) (h : Reachable dd) :
    accumulator_inv dd := by
  induction h with
  | probe => simp [accumulator_inv, m4ped_probe, iio_data_zero, u32]
  | step ev _ _ ih => exact step_accumulator_inv _ ev ih

/-- The reachable state `wrap_state` satisfies the accumulator relation. -/
theorem C5_accumulator_invariant_witness :
    Reachable wrap_state ∧ accumulator_inv wrap_state :=
  ⟨Reachable.step _ (Reachable.step _ Reachable.probe rfl) rfl,
   C5_accumulator_invariant wrap_state
     (Reachable.step _ (Reachable.step _ Reachable.probe rfl) rfl)⟩

/-- C6 (scenario A): from the probe state, with every read and write
succeeding, a cycle reading 100 steps publishes 100 steps, a cycle reading 150
steps publishes 150, a checkpoint keeps 150 published with base 150 and last 0,
and a cycle reading 10 steps then publishes 160. -/
theorem C6_scenario_A (m1 m2 m3 m4 : m4sensorhub_data)
    (h1 : reads_ok m1) (s1 : (raw m1).total_steps = 100)
    (h2 : reads_ok m2) (s2 : (raw m2).total_steps = 150) (g2 : totals_le (raw m1) (raw m2))
    (h3 : writes_ok m3)
    (h4 : reads_ok m4) (s4 : (raw m4).total_steps = 10) :
    (published m1 m4ped_probe).map m4sensorhub_pedometer_iio_data.total_steps = [100] ∧
    (cycle m1 m4ped_probe).iiodat.total_steps = 100 ∧
    (published m2 (cycle m1 m4ped_probe)).map
      m4sensorhub_pedometer_iio_data.total_steps = [150] ∧
    (cycle m2 (cycle m1 m4ped_probe)).iiodat.total_steps = 150 ∧
    (checkpoint m3 (cycle m2 (cycle m1 m4ped_probe))).iiodat.total_steps = 150 ∧
    (checkpoint m3 (cycle m2 (cycle m1 m4ped_probe))).base_dat.total_steps = 150 ∧
    (checkpoint m3 (cycle m2 (cycle m1 m4ped_probe))).last_dat.total_steps = 0 ∧
    (published m4 (checkpoint m3 (cycle m2 (cycle m1 m4ped_probe)))).map
      m4sensorhub_pedometer_iio_data.total_steps = [160] ∧
    (cycle m4 (checkpoint m3 (cycle m2 (cycle m1 m4ped_probe)))).iiodat.total_steps = 160 := by
  have a1 : ¬ totals_lt_some (raw m1) m4ped_probe.last_dat := by
    simp [totals_lt_some, m4ped_probe, iio_data_zero]
  have e1 : m4ped_read_report_data m1 m4ped_probe = _ := read_report_accepted m1 _ h1 a1
  have a2 : ¬ totals_lt_some (raw m2) (accepted m1 m4ped_probe).last_dat := by
    obtain ⟨d1, d2, d3, d4, d5⟩ := g2
    simp only [totals_lt_some, accepted, not_or, not_lt]
    exact ⟨d1, d2, d3, d4, d5⟩
  have e2 : m4ped_read_report_data m2 (accepted m1 m4ped_probe) = _ :=
    read_report_accepted m2 _ h2 a2
  obtain ⟨c1, c2, c3⟩ := panic_restore_ok m3 (accepted m2 (accepted m1 m4ped_probe)) h3
  simp only [published, cycle, e1, e2]
  generalize checkpoint m3 (accepted m2 (accepted m1 m4ped_probe)) = C at c1 c2 c3 ⊢
  have a4 : ¬ totals_lt_some (raw m4) C.last_dat := by
    simp [totals_lt_some, c3, checkpointed]
  have e4 : m4ped_read_report_data m4 C = _ := read_report_accepted m4 _ h4 a4
  simp only [e4, c1, c2, c3]
  simp [accepted, c2, checkpointed, pushed, seven_reads, s1, s2, s4, m4ped_probe,
    iio_data_zero, u32]

/-- Scenario A with hubs that report nothing but the steps. -/
theorem C6_scenario_A_witness :
    reads_ok (example_hub (steps_only 100) (0, 0)) ∧
    writes_ok (example_hub iio_data_zero (0, 0)) ∧
    (cycle (example_hub (steps_only 10) (0, 0))
      (checkpoint (example_hub iio_data_zero (0, 0))
        (cycle (example_hub (steps_only 150) (0, 0))
          (cycle (example_hub (steps_only 100) (0, 0)) m4ped_probe)))).iiodat.total_steps
      = 160 :=
  ⟨by decide, fun r => by cases r <;> decide,
   (C6_scenario_A (example_hub (steps_only 100) (0, 0)) (example_hub (steps_only 150) (0, 0))
      (example_hub iio_data_zero (0, 0)) (example_hub (steps_only 10) (0, 0))
      (by decide) (by decide) (by decide) (by decide) (by decide)
      (fun r => by cases r <;> decide) (by decide) (by decide)).2.2.2.2.2.2.2.2⟩

/-- C7 (UnexpectedReset is surfaced) fails on the code: with 150 steps last
seen, a cycle whose reads all succeed and deliver 140 steps publishes nothing
but returns 4, the byte count of its last read, exactly as the accepted cycle
reading 150 steps does; the rate writer that ran it returns the consumed size. -/
theorem C7_reset_not_surfaced :
    reads_ok (example_hub (steps_only 140) (0, 0)) ∧
    totals_lt_some (raw (example_hub (steps_only 140) (0, 0))) state_150.last_dat ∧
    published (example_hub (steps_only 140) (0, 0)) state_150 = [] ∧
    (m4ped_read_report_data (example_hub (steps_only 140) (0, 0)) state_150).ret = 4 ∧
    (m4ped_read_report_data (example_hub (steps_only 150) (0, 0)) state_150).ret = 4 ∧
    (m4ped_setrate_store (example_hub (steps_only 140) (0, 0)) state_150
      [Char.ofNat 48]).ret = 1 := by
  decide

/-- C8 as stated fails: from the probe state, when the activity read succeeds
with value 3 and the distance read fails with -5, the cycle fails and leaves 3
in the published record's activity, which was 0. -/
theorem C8_counterexample :
    ¬ reads_ok (failing_hub { iio_data_zero with ped_activity := 3 }
        M4SH_REG_PEDOMETER_TOTALDISTANCE (-5)) ∧
    (m4ped_read_report_data (failing_hub { iio_data_zero with ped_activity := 3 }
        M4SH_REG_PEDOMETER_TOTALDISTANCE (-5)) m4ped_probe).ret = -5 ∧
    m4ped_probe.iiodat.ped_activity = 0 ∧
    (cycle (failing_hub { iio_data_zero with ped_activity := 3 }
        M4SH_REG_PEDOMETER_TOTALDISTANCE (-5)) m4ped_probe).iiodat.ped_activity = 3 ∧
    cycle (failing_hub { iio_data_zero with ped_activity := 3 }
        M4SH_REG_PEDOMETER_TOTALDISTANCE (-5)) m4ped_probe ≠ m4ped_probe := by
  decide

/-- C8 (aborted reads), amended: when one of the seven reads fails or returns a
byte count other than the declared size, the cycle returns a negative error,
publishes nothing and leaves the driver data unchanged except for two fields of
the published record: the activity holds the value the activity read, which is
always performed, left in its destination; the speed holds the value the speed
read left in its destination when the activity, distance and step reads before
it succeeded, and is unchanged when one of those three failed. -/
theorem C8_aborted_reads (m4 : m4sensorhub_data) (dd : m4ped_driver_data)
    (h : ¬ reads_ok m4) :
    (m4ped_read_report_data m4 dd).ret < 0 ∧
    published m4 dd = [] ∧
    cycle m4 dd =
      { dd with iiodat := { dd.iiodat with
          ped_activity := u8 (m4.reg_read M4SH_REG_PEDOMETER_ACTIVITY).val
          current_speed :=
            if read_ok m4 M4SH_REG_PEDOMETER_ACTIVITY ∧
                read_ok m4 M4SH_REG_PEDOMETER_TOTALDISTANCE ∧
                read_ok m4 M4SH_REG_PEDOMETER_TOTALSTEPS
            then u16 (m4.reg_read M4SH_REG_PEDOMETER_CURRENTSPEED).val
            else dd.iiodat.current_speed } } :=
  ⟨(read_report_failed m4 dd h).1, (read_report_failed m4 dd h).2.1,
   read_report_failed_state m4 dd h⟩

/-- The hypothesis of `C8_aborted_reads` holds for hubs that deliver activity 3
and speed 9 and whose calories read fails with -5, or whose distance read
returns one byte: in `state_150` the first cycle fails, publishes nothing and
stores activity 3 and speed 9; the second stores activity 3 only. -/
theorem C8_aborted_reads_witness :
    (¬ reads_ok (failing_hub { iio_data_zero with ped_activity := 3, current_speed := 9 }
        M4SH_REG_METS_CALORIES (-5)) ∧
      (m4ped_read_report_data
        (failing_hub { iio_data_zero with ped_activity := 3, current_speed := 9 }
          M4SH_REG_METS_CALORIES (-5)) state_150).ret < 0 ∧
      published (failing_hub { iio_data_zero with ped_activity := 3, current_speed := 9 }
        M4SH_REG_METS_CALORIES (-5)) state_150 = [] ∧
      cycle (failing_hub { iio_data_zero with ped_activity := 3, current_speed := 9 }
          M4SH_REG_METS_CALORIES (-5)) state_150 =
        { state_150 with iiodat := { state_150.iiodat with
            ped_activity := 3, current_speed := 9 } }) ∧
    (¬ reads_ok (failing_hub { iio_data_zero with ped_activity := 3, current_speed := 9 }
        M4SH_REG_PEDOMETER_TOTALDISTANCE 1) ∧
      cycle (failing_hub { iio_data_zero with ped_activity := 3, current_speed := 9 }
          M4SH_REG_PEDOMETER_TOTALDISTANCE 1) state_150 =
        { state_150 with iiodat := { state_150.iiodat with ped_activity := 3 } }) :=
  ⟨⟨by decide,
    (C8_aborted_reads (failing_hub { iio_data_zero with ped_activity := 3, current_speed := 9 }
      M4SH_REG_METS_CALORIES (-5)) state_150 (by decide)).1,
    (C8_aborted_reads (failing_hub { iio_data_zero with ped_activity := 3, current_speed := 9 }
      M4SH_REG_METS_CALORIES (-5)) state_150 (by decide)).2.1,
    (C8_aborted_reads (failing_hub { iio_data_zero with ped_activity := 3, current_speed := 9 }
      M4SH_REG_METS_CALORIES (-5)) state_150 (by decide)).2.2.trans (by decide)⟩,
   by decide,
   (C8_aborted_reads (failing_hub { iio_data_zero with ped_activity := 3, current_speed := 9 }
      M4SH_REG_PEDOMETER_TOTALDISTANCE 1) state_150 (by decide)).2.2.trans (by decide)⟩

/-- C9 (I3, atomic field update): after a sampling cycle either every read
succeeded without a decrease and all five last raw totals and all five
published totals come from the new reading (which is published), or the cycle
ended early and none of these ten fields changed (and nothing is published). -/
theorem C9_atomic_field_update (m4 : m4sensorhub_data) (dd : m4ped_driver_data) :
    (reads_ok m4 ∧ ¬ totals_lt_some (raw m4) dd.last_dat ∧
      totals (cycle m4 dd).last_dat = totals (raw m4) ∧
      totals (cycle m4 dd).iiodat =
        [u32 ((raw m4).total_distance + dd.base_dat.total_distance),
         u32 ((raw m4).total_steps + dd.base_dat.total_steps),
         u32 ((raw m4).healthy_minutes + dd.base_dat.healthy_minutes),
         u32 ((raw m4).calories + dd.base_dat.calories),
         u32 ((raw m4).calories_normr + dd.base_dat.calories_normr)] ∧
      published m4 dd = [(cycle m4 dd).iiodat]) ∨
    ((¬ reads_ok m4 ∨ totals_lt_some (raw m4) dd.last_dat) ∧
      totals (cycle m4 dd).last_dat = totals dd.last_dat ∧
      totals (cycle m4 dd).iiodat = totals dd.iiodat ∧
      published m4 dd = []) := by
  by_cases h : reads_ok m4
  · by_cases hd : totals_lt_some (raw m4) dd.last_dat
    · right
      simp only [published, cycle, read_report_rejected m4 dd h hd]
      simp [hd, rejected, totals, pushed, seven_reads]
    · left
      simp only [published, cycle, read_report_accepted m4 dd h hd]
      simp [h, hd, accepted, totals, pushed, seven_reads]
  · right
    obtain ⟨_, p, e⟩ := read_report_failed m4 dd h
    refine ⟨Or.inl h, ?_, ?_, p⟩
    · simp only [cycle]; rw [e]; rfl
    · simp only [cycle]; rw [e]; rfl

/-- C10 (P4, rate clamp): after the rate setter ran with the requested rate
`r`, the stored rate is the floor `fastest_rate` when `0 ≤ r ≤ fastest_rate`,
is `r` when `r > fastest_rate`, and is negative when `r < 0`; in that last case
the call queues no tick, and no tick is pending afterwards provided none was
pending without a positive rate before. -/
theorem C10_rate_clamp (dd : m4ped_driver_data) (r : Int) :
    (0 ≤ r ∧ r ≤ dd.fastest_rate →
      (m4ped_set_samplerate dd r).dd.samplerate = dd.fastest_rate) ∧
    (dd.fastest_rate < r → (m4ped_set_samplerate dd r).dd.samplerate = r) ∧
    (r < 0 →
      (m4ped_set_samplerate dd r).dd.samplerate < 0 ∧
      (∀ d : Int, Effect.queue_delayed_work d ∉ (m4ped_set_samplerate dd r).log) ∧
      ((dd.m4ped_work.isSome = true → 0 < dd.samplerate) →
        (m4ped_set_samplerate dd r).dd.m4ped_work = none)) := by
  refine ⟨?_, ?_, ?_⟩
  · intro h
    unfold m4ped_set_samplerate
    simp only [ge_iff_le, h, and_self, if_true]
    split_ifs with e <;> simp [e]
  · intro h
    have n : ¬ (r ≥ 0 ∧ r ≤ dd.fastest_rate) := by omega
    unfold m4ped_set_samplerate
    simp only [n, if_false]
    split_ifs with e <;> simp [e]
  · intro h
    have n : ¬ (r ≥ 0 ∧ r ≤ dd.fastest_rate) := by omega
    have n2 : ¬ r > 0 := by omega
    unfold m4ped_set_samplerate
    simp only [n, if_false, cancel_delayed_work, n2]
    split_ifs with e
    · refine ⟨by simp only []; omega, by simp, ?_⟩
      intro hp
      cases hw : dd.m4ped_work with
      | none => rfl
      | some d =>
        have := hp (by simp [hw])
        omega
    · exact ⟨by simp only []; omega, by simp, fun _ => rfl⟩

/-- Scenario C on the probe state (floor 1000): a request of 500 gives 1000, a
request of 2000 gives 2000, a request of -1 after that disables polling. -/
theorem C10_rate_clamp_witness :
    (m4ped_set_samplerate m4ped_probe 500).dd.samplerate = 1000 ∧
    (m4ped_set_samplerate m4ped_probe 2000).dd.samplerate = 2000 ∧
    (m4ped_set_samplerate (m4ped_set_samplerate m4ped_probe 500).dd (-1)).dd.samplerate < 0 ∧
    (m4ped_set_samplerate (m4ped_set_samplerate m4ped_probe 500).dd (-1)).dd.m4ped_work = none :=
  ⟨(C10_rate_clamp m4ped_probe 500).1 (by decide),
   (C10_rate_clamp m4ped_probe 2000).2.1 (by decide),
   ((C10_rate_clamp (m4ped_set_samplerate m4ped_probe 500).dd (-1)).2.2 (by decide)).1,
   ((C10_rate_clamp (m4ped_set_samplerate m4ped_probe 500).dd (-1)).2.2 (by decide)).2.2
     (by decide)⟩

/-! ## The rate setter, the feature writer and the checkpoint, case by case -/

theorem set_samplerate_same (dd : m4ped_driver_data) (r : Int)
    (h : clamped dd r = dd.samplerate) : m4ped_set_samplerate dd r = ⟨0, dd, []⟩ := by
  unfold clamped at h
  unfold m4ped_set_samplerate
  simp only [h, if_true]

theorem set_samplerate_changed (dd : m4ped_driver_data) (r : Int)
    (h : clamped dd r ≠ dd.samplerate) :
    m4ped_set_samplerate dd r =
      ⟨0, rate_stored dd (clamped dd r),
        Effect.cancel_delayed_work ::
          (if clamped dd r > 0 then [Effect.queue_delayed_work (clamped dd r)] else [])⟩ := by
  unfold clamped at h ⊢
  unfold m4ped_set_samplerate
  simp only [h, if_false, cancel_delayed_work, queue_delayed_work, rate_stored]
  split_ifs <;> rfl

theorem s16_id (v : Int) (h1 : -1 ≤ v) (h2 : v ≤ 32767) : s16 v = v := by
  unfold s16
  omega

theorem set_bit (s : Nat) : (s ||| 2) &&& 2 ≠ 0 := by
  intro h
  have t : Nat.testBit 2 1 = true := by decide
  have := congrArg (fun n => n.testBit 1) h
  simp [Nat.testBit_and, Nat.testBit_or, t] at this

theorem clear_bit (s : Nat) : (s &&& 65533) &&& 2 = 0 := by
  have t : (65533 &&& 2 : Nat) = 0 := by decide
  rw [Nat.and_assoc, t, Nat.and_zero]

theorem feature_enabled_set (dd : m4ped_driver_data) :
    feature_enabled
      { dd with status := dd.status ||| (1 <<< M4PED_FEATURE_ENABLED_BIT) } = true := by
  have e : (1 <<< M4PED_FEATURE_ENABLED_BIT : Nat) = 2 := by decide
  simp only [feature_enabled, e, bne_iff_ne]
  exact set_bit dd.status

theorem feature_enabled_clear (dd : m4ped_driver_data) :
    feature_enabled { dd with status :=
      dd.status &&& (2 ^ 16 - 1 - (1 <<< M4PED_FEATURE_ENABLED_BIT)) } = false := by
  have e : (1 <<< M4PED_FEATURE_ENABLED_BIT : Nat) = 2 := by decide
  have e2 : (2 ^ 16 - 1 - 2 : Nat) = 65533 := by decide
  simp only [feature_enabled, e, e2, clear_bit]
  rfl

/-- A feature write that asks for the state the flag already has does
nothing. -/
theorem feature_enable_store_noop (m4 : m4sensorhub_data) (dd : m4ped_driver_data)
    (buf : List Char) (hk : ¬ (m4.kstrtoint buf).1 < 0)
    (hm : (m4.kstrtoint buf).2 = 0 ↔ feature_enabled dd = false) :
    m4ped_feature_enable_store m4 dd buf = ⟨(buf.length : Int), dd, []⟩ := by
  unfold m4ped_feature_enable_store
  simp only [hk, if_false]
  by_cases hv : (m4.kstrtoint buf).2 = 0
  · have hf := hm.mp hv
    simp [hv, hf]
  · have hf : feature_enabled dd = true := by
      cases h : feature_enabled dd
      · exact absurd (hm.mpr h) hv
      · rfl
    simp [hv, hf]

/-- A feature write whose register writes succeed leaves the flag as asked. -/
theorem feature_enable_store_ok (m4 : m4sensorhub_data) (dd : m4ped_driver_data)
    (buf : List Char) (hk : ¬ (m4.kstrtoint buf).1 < 0) (hw : writes_ok m4) :
    ((m4.kstrtoint buf).2 = 0 ↔
      feature_enabled (m4ped_feature_enable_store m4 dd buf).dd = false) ∧
    writes_to M4SH_REG_PEDOMETER_ENABLE (m4ped_feature_enable_store m4 dd buf).log ≤ 1 ∧
    writes_to M4SH_REG_METS_ENABLE (m4ped_feature_enable_store m4 dd buf).log ≤ 1 := by
  have w1 := not_lt.mpr (hw M4SH_REG_PEDOMETER_ENABLE)
  have w2 := not_lt.mpr (hw M4SH_REG_METS_ENABLE)
  unfold m4ped_feature_enable_store
  simp only [hk, w1, w2, if_false]
  by_cases hv : (m4.kstrtoint buf).2 = 0
  · cases hf : feature_enabled dd
    · simp [hv, hf, writes_to]
    · simp [hv, hf, writes_to]
      exact feature_enabled_clear dd
  · cases hf : feature_enabled dd
    · simp [hv, hf, writes_to, feature_enabled_set]
    · simp [hv, hf, writes_to]

theorem write_userdata_log (m4 : m4sensorhub_data) (dd : m4ped_driver_data) :
    writes_to M4SH_REG_PEDOMETER_ENABLE (m4ped_write_userdata m4 dd).log = 0 ∧
    writes_to M4SH_REG_METS_ENABLE (m4ped_write_userdata m4 dd).log = 0 ∧
    Effect.cancel_delayed_work ∉ (m4ped_write_userdata m4 dd).log ∧
    ∀ d : Int, Effect.queue_delayed_work d ∉ (m4ped_write_userdata m4 dd).log := by
  unfold m4ped_write_userdata
  simp only []
  split_ifs <;> simp [writes_to]

/-- A checkpoint whose profile write fails stops there. -/
theorem panic_restore_profile_failed (m4 : m4sensorhub_data) (dd : m4ped_driver_data)
    (h : (m4ped_write_userdata m4 dd).ret < 0) :
    m4ped_panic_restore m4 dd = ⟨(), dd, (m4ped_write_userdata m4 dd).log⟩ := by
  unfold m4ped_panic_restore
  simp only [h, if_true, write_userdata_dd]

/-- A checkpoint whose profile write succeeds, case by case. -/
theorem panic_restore_profile_ok (m4 : m4sensorhub_data) (dd : m4ped_driver_data)
    (h : ¬ (m4ped_write_userdata m4 dd).ret < 0) :
    m4ped_panic_restore m4 dd =
      if feature_enabled dd = true then
        ⟨(), restored dd, (m4ped_write_userdata m4 dd).log ++ rearm_log dd⟩
      else if m4.reg_write M4SH_REG_PEDOMETER_ENABLE < 0 then
        ⟨(), dd, (m4ped_write_userdata m4 dd).log ++
          [Effect.reg_write M4SH_REG_PEDOMETER_ENABLE [0]]⟩
      else if m4.reg_write M4SH_REG_METS_ENABLE < 0 then
        ⟨(), dd, (m4ped_write_userdata m4 dd).log ++
          [Effect.reg_write M4SH_REG_PEDOMETER_ENABLE [0],
           Effect.reg_write M4SH_REG_METS_ENABLE [0]]⟩
      else
        ⟨(), restored dd, (m4ped_write_userdata m4 dd).log ++
          [Effect.reg_write M4SH_REG_PEDOMETER_ENABLE [0],
           Effect.reg_write M4SH_REG_METS_ENABLE [0]] ++ rearm_log dd⟩ := by
  unfold m4ped_panic_restore
  simp only [h, if_false, write_userdata_dd]
  cases hf : feature_enabled dd
  · by_cases p : m4.reg_write M4SH_REG_PEDOMETER_ENABLE < 0
    · simp [p]
    · by_cases q : m4.reg_write M4SH_REG_METS_ENABLE < 0
      · simp [p, q]
      · simp only [p, q, Bool.not_false, if_true, if_false, Bool.false_eq_true]
        simp only [cancel_delayed_work, queue_delayed_work, restored, checkpointed, rearm_log]
        split_ifs <;> simp
  · simp only [Bool.not_true, Bool.false_eq_true, if_false, h, if_true]
    simp only [cancel_delayed_work, queue_delayed_work, restored, checkpointed, rearm_log]
    split_ifs <;> simp

theorem writes_to_append (r : m4sensorhub_reg) (a b : List Effect) :
    writes_to r (a ++ b) = writes_to r a + writes_to r b := by
  induction a with
  | nil => simp [writes_to]
  | cons e rest ih =>
    cases e <;> simp [writes_to, ih, Nat.add_assoc]

theorem write_userdata_log_regs (m4 : m4sensorhub_data) (dd : m4ped_driver_data)
    (r : m4sensorhub_reg) (bytes : List Nat)
    (h : Effect.reg_write r bytes ∈ (m4ped_write_userdata m4 dd).log) :
    r ≠ M4SH_REG_PEDOMETER_ENABLE ∧ r ≠ M4SH_REG_METS_ENABLE := by
  unfold m4ped_write_userdata at h
  simp only [] at h
  split_ifs at h <;> (refine ⟨?_, ?_⟩ <;> rintro rfl <;> simp at h)

theorem set_samplerate_rate (dd : m4ped_driver_data) (r : Int) :
    (m4ped_set_samplerate dd r).dd.samplerate = clamped dd r := by
  by_cases h : clamped dd r = dd.samplerate
  · rw [set_samplerate_same dd r h, h]
  · rw [set_samplerate_changed dd r h]
    rfl

theorem set_samplerate_log (dd : m4ped_driver_data) (r : Int) :
    reg_io (m4ped_set_samplerate dd r).log = [] ∧
    cycles_started (m4ped_set_samplerate dd r).log = 0 ∧
    pushed (m4ped_set_samplerate dd r).log = [] := by
  by_cases h : clamped dd r = dd.samplerate
  · rw [set_samplerate_same dd r h]
    simp [reg_io, cycles_started, pushed]
  · rw [set_samplerate_changed dd r h]
    split_ifs <;> simp [reg_io, cycles_started, pushed]

/-- Every sampling cycle performs register I/O and reads the activity register
exactly once. -/
theorem read_report_log (m4 : m4sensorhub_data) (dd : m4ped_driver_data) :
    reg_io (m4ped_read_report_data m4 dd).log ≠ [] ∧
    cycles_started (m4ped_read_report_data m4 dd).log = 1 := by
  by_cases h : reads_ok m4
  · by_cases hd : totals_lt_some (raw m4) dd.last_dat
    · rw [read_report_rejected m4 dd h hd]
      simp [seven_reads, reg_io, cycles_started]
    · rw [read_report_accepted m4 dd h hd]
      simp [seven_reads, reg_io, cycles_started]
  · by_cases c1 : (m4.reg_read M4SH_REG_PEDOMETER_ACTIVITY).ret < 0
    · unfold m4ped_read_report_data
      simp [c1, reg_io, cycles_started]
    by_cases e1 : m4.reg_getsize M4SH_REG_PEDOMETER_ACTIVITY = (m4.reg_read M4SH_REG_PEDOMETER_ACTIVITY).ret
    swap
    · unfold m4ped_read_report_data
      simp [c1, Ne.symm e1, reg_io, cycles_started]
    by_cases c2 : (m4.reg_read M4SH_REG_PEDOMETER_TOTALDISTANCE).ret < 0
    · unfold m4ped_read_report_data
      simp [c1, e1, c2, reg_io, cycles_started]
    by_cases e2 : m4.reg_getsize M4SH_REG_PEDOMETER_TOTALDISTANCE = (m4.reg_read M4SH_REG_PEDOMETER_TOTALDISTANCE).ret
    swap
    · unfold m4ped_read_report_data
      simp [c1, e1, c2, Ne.symm e2, reg_io, cycles_started]
    by_cases c3 : (m4.reg_read M4SH_REG_PEDOMETER_TOTALSTEPS).ret < 0
    · unfold m4ped_read_report_data
      simp [c1, e1, c2, e2, c3, reg_io, cycles_started]
    by_cases e3 : m4.reg_getsize M4SH_REG_PEDOMETER_TOTALSTEPS = (m4.reg_read M4SH_REG_PEDOMETER_TOTALSTEPS).ret
    swap
    · unfold m4ped_read_report_data
      simp [c1, e1, c2, e2, c3, Ne.symm e3, reg_io, cycles_started]
    by_cases c4 : (m4.reg_read M4SH_REG_PEDOMETER_CURRENTSPEED).ret < 0
    · unfold m4ped_read_report_data
      simp [c1, e1, c2, e2, c3, e3, c4, reg_io, cycles_started]
    by_cases e4 : m4.reg_getsize M4SH_REG_PEDOMETER_CURRENTSPEED = (m4.reg_read M4SH_REG_PEDOMETER_CURRENTSPEED).ret
    swap
    · unfold m4ped_read_report_data
      simp [c1, e1, c2, e2, c3, e3, c4, Ne.symm e4, reg_io, cycles_started]
    by_cases c5 : (m4.reg_read M4SH_REG_METS_HEALTHYMINUTES).ret < 0
    · unfold m4ped_read_report_data
      simp [c1, e1, c2, e2, c3, e3, c4, e4, c5, reg_io, cycles_started]
    by_cases e5 : m4.reg_getsize M4SH_REG_METS_HEALTHYMINUTES = (m4.reg_read M4SH_REG_METS_HEALTHYMINUTES).ret
    swap
    · unfold m4ped_read_report_data
      simp [c1, e1, c2, e2, c3, e3, c4, e4, c5, Ne.symm e5, reg_io, cycles_started]
    by_cases c6 : (m4.reg_read M4SH_REG_METS_CALORIES).ret < 0
    · unfold m4ped_read_report_data
      simp [c1, e1, c2, e2, c3, e3, c4, e4, c5, e5, c6, reg_io, cycles_started]
    by_cases e6 : m4.reg_getsize M4SH_REG_METS_CALORIES = (m4.reg_read M4SH_REG_METS_CALORIES).ret
    swap
    · unfold m4ped_read_report_data
      simp [c1, e1, c2, e2, c3, e3, c4, e4, c5, e5, c6, Ne.symm e6, reg_io, cycles_started]
    by_cases c7 : (m4.reg_read M4SH_REG_METS_CALORIES_NO_RMR).ret < 0
    · unfold m4ped_read_report_data
      simp [c1, e1, c2, e2, c3, e3, c4, e4, c5, e5, c6, e6, c7, reg_io, cycles_started]
    by_cases e7 : m4.reg_getsize M4SH_REG_METS_CALORIES_NO_RMR = (m4.reg_read M4SH_REG_METS_CALORIES_NO_RMR).ret
    swap
    · unfold m4ped_read_report_data
      simp [c1, e1, c2, e2, c3, e3, c4, e4, c5, e5, c6, e6, c7, Ne.symm e7, reg_io, cycles_started]
    exact absurd ⟨⟨not_lt.mp c1, e1.symm⟩, ⟨not_lt.mp c2, e2.symm⟩, ⟨not_lt.mp c3, e3.symm⟩, ⟨not_lt.mp c4, e4.symm⟩, ⟨not_lt.mp c5, e5.symm⟩, ⟨not_lt.mp c6, e6.symm⟩, ⟨not_lt.mp c7, e7.symm⟩⟩ h

theorem set_samplerate_ret (dd : m4ped_driver_data) (r : Int) :
    (m4ped_set_samplerate dd r).ret = 0 := by
  by_cases h : clamped dd r = dd.samplerate
  · rw [set_samplerate_same dd r h]
  · rw [set_samplerate_changed dd r h]

theorem setrate_store_rejected (m4 : m4sensorhub_data) (dd : m4ped_driver_data)
    (buf : List Char) (hk : ¬ (m4.kstrtoint buf).1 < 0)
    (h : (m4.kstrtoint buf).2 < -1 ∨ (m4.kstrtoint buf).2 > 32767) :
    m4ped_setrate_store m4 dd buf = ⟨-EINVAL, dd, []⟩ := by
  unfold m4ped_setrate_store
  simp only [hk, h, if_false, if_true]

theorem setrate_store_enable (m4 : m4sensorhub_data) (dd : m4ped_driver_data)
    (buf : List Char) (hk : ¬ (m4.kstrtoint buf).1 < 0)
    (h1 : 0 ≤ (m4.kstrtoint buf).2) (h2 : (m4.kstrtoint buf).2 ≤ 32767) :
    m4ped_setrate_store m4 dd buf =
      ⟨if (m4ped_read_report_data m4
            (m4ped_set_samplerate dd (m4.kstrtoint buf).2).dd).ret < 0
        then (m4ped_read_report_data m4
            (m4ped_set_samplerate dd (m4.kstrtoint buf).2).dd).ret
        else (buf.length : Int),
       cycle m4 (m4ped_set_samplerate dd (m4.kstrtoint buf).2).dd,
       (m4ped_set_samplerate dd (m4.kstrtoint buf).2).log ++
         (m4ped_read_report_data m4
            (m4ped_set_samplerate dd (m4.kstrtoint buf).2).dd).log⟩ := by
  have n : ¬ ((m4.kstrtoint buf).2 < -1 ∨ (m4.kstrtoint buf).2 > 32767) := by omega
  have e := s16_id (m4.kstrtoint buf).2 (by omega) h2
  unfold m4ped_setrate_store
  simp only [hk, n, if_false, e, set_samplerate_ret, lt_irrefl, ge_iff_le, h1, if_true, cycle]
  split_ifs <;> rfl

theorem setrate_store_disable (m4 : m4sensorhub_data) (dd : m4ped_driver_data)
    (buf : List Char) (hk : ¬ (m4.kstrtoint buf).1 < 0)
    (h : (m4.kstrtoint buf).2 = -1) :
    m4ped_setrate_store m4 dd buf =
      ⟨(buf.length : Int), (m4ped_set_samplerate dd (-1)).dd,
        (m4ped_set_samplerate dd (-1)).log⟩ := by
  have e := s16_id (-1) (by omega) (by omega)
  unfold m4ped_setrate_store
  simp only [hk, h, if_false, e, set_samplerate_ret, lt_irrefl]
  simp

theorem digit_value_le (c : Char) (v : Nat) (h : digit_value c = some v) : v ≤ 15 := by
  unfold digit_value at h
  split_ifs at h <;> simp at h <;> omega

theorem hex_pair_le (c1 c2 : Char) (b : Nat) (h : hex_pair c1 c2 = some b) : b ≤ 255 := by
  unfold hex_pair at h
  cases h1 : digit_value c1 with
  | none => simp [h1] at h
  | some v1 =>
    cases h2 : digit_value c2 with
    | none => simp [h1, h2] at h
    | some v2 =>
      have := digit_value_le c1 v1 h1
      have := digit_value_le c2 v2 h2
      simp [h1, h2] at h
      omega

/-- The base-16 conversion `kstrtouint` converts every field `0xHH` to the byte
its two hex digits denote. -/
theorem kstrtouint_hex_pair (c1 c2 : Char) (b : Nat) (h : hex_pair c1 c2 = some b) :
    kstrtouint ['0', 'x', c1, c2] 16 = (0, b) := by
  unfold hex_pair at h
  cases h1 : digit_value c1 with
  | none => simp [h1] at h
  | some v1 =>
    cases h2 : digit_value c2 with
    | none => simp [h1, h2] at h
    | some v2 =>
      have b1 := digit_value_le c1 v1 h1
      have b2 := digit_value_le c2 v2 h2
      simp [h1, h2] at h
      have n1 : ¬ v1 ≥ 16 := by omega
      have n2 : ¬ v2 ≥ 16 := by omega
      have n3 : ¬ (0 * 16 + v1) * 16 + v2 ≥ 2 ^ 64 := by omega
      have n4 : ¬ (0 * 16 + v1) * 16 + v2 ≥ 2 ^ 32 := by omega
      have e0 : ('0' : Char) ≠ '+' := by decide
      have e1 : ('x' : Char).toLower = 'x' := by decide
      simp only [kstrtouint, parse_integer_fixup_radix, parse_integer, e0, e1, if_false,
        true_and, and_self, if_true, h1, h2, n1, n2, n3, n4, at_end, Bool.not_true]
      simp
      omega

theorem decodes_hex_profile_hub : decodes_hex profile_hub := by
  intro c1 c2 b h
  exact kstrtouint_hex_pair c1 c2 b h

/-- A conversion loop in which some field fails to convert, or converts to more
than 255, ends with a negative error. -/
theorem userdata_convert_error (m4 : m4sensorhub_data) (buf : List Char) :
    ∀ l : List Nat,
      (∃ i ∈ l, (m4.kstrtouint (field buf i)).1 < 0 ∨ 255 < (m4.kstrtouint (field buf i)).2) →
      ∃ e : Int, e < 0 ∧ m4ped_userdata_convert m4 buf l = Except.error e := by
  intro l
  induction l with
  | nil => intro h; simp at h
  | cons i rest ih =>
    intro h
    unfold m4ped_userdata_convert
    simp only []
    by_cases c : (m4.kstrtouint (List.take 4 (List.drop (i * 5) buf))).1 < 0
    · exact ⟨_, c, by simp [c]⟩
    · by_cases d : (m4.kstrtouint (List.take 4 (List.drop (i * 5) buf))).2 > 255
      · exact ⟨-EOVERFLOW, by simp [EOVERFLOW], by simp [c, d]⟩
      · have hr : ∃ j ∈ rest, (m4.kstrtouint (field buf j)).1 < 0 ∨
            255 < (m4.kstrtouint (field buf j)).2 := by
          obtain ⟨j, hj, hf⟩ := h
          rcases List.mem_cons.mp hj with rfl | hj
          · exfalso
            simp only [field] at hf
            rcases hf with hf | hf
            · exact c hf
            · exact d hf
          · exact ⟨j, hj, hf⟩
        obtain ⟨e, he, hc⟩ := ih hr
        exact ⟨e, he, by simp [c, d, hc]⟩

theorem setrate_store_refused (m4 : m4sensorhub_data) (dd : m4ped_driver_data)
    (buf : List Char) (hk : (m4.kstrtoint buf).1 < 0) :
    m4ped_setrate_store m4 dd buf = ⟨(m4.kstrtoint buf).1, dd, []⟩ := by
  unfold m4ped_setrate_store
  simp only [hk, if_true]

/-- The rate writer on a text that `kstrtoint` converted to the integer `v`:
it returns `-EINVAL` with the rate and the work item unchanged and without
register I/O if and only if `v < -1` or `v > 32767` (and then it changes and
performs nothing at all); for `v` from -1 to 32767 it runs the rate setter with
`v`, followed by one sampling cycle when `v ≥ 0`. -/
theorem setrate_store_converted (m4 : m4sensorhub_data) (dd : m4ped_driver_data)
    (buf : List Char) (hk : ¬ (m4.kstrtoint buf).1 < 0) :
    (((m4ped_setrate_store m4 dd buf).ret = -EINVAL ∧
        (m4ped_setrate_store m4 dd buf).dd.samplerate = dd.samplerate ∧
        (m4ped_setrate_store m4 dd buf).dd.m4ped_work = dd.m4ped_work ∧
        reg_io (m4ped_setrate_store m4 dd buf).log = []) ↔
      ((m4.kstrtoint buf).2 < -1 ∨ (m4.kstrtoint buf).2 > 32767)) ∧
    ((m4.kstrtoint buf).2 < -1 ∨ (m4.kstrtoint buf).2 > 32767 →
      (m4ped_setrate_store m4 dd buf).dd = dd ∧ (m4ped_setrate_store m4 dd buf).log = []) ∧
    (-1 ≤ (m4.kstrtoint buf).2 ∧ (m4.kstrtoint buf).2 ≤ 32767 →
      (m4ped_setrate_store m4 dd buf).dd =
        (if 0 ≤ (m4.kstrtoint buf).2
          then cycle m4 (m4ped_set_samplerate dd (m4.kstrtoint buf).2).dd
          else (m4ped_set_samplerate dd (m4.kstrtoint buf).2).dd) ∧
      (m4ped_setrate_store m4 dd buf).log =
        (m4ped_set_samplerate dd (m4.kstrtoint buf).2).log ++
          (if 0 ≤ (m4.kstrtoint buf).2
            then (m4ped_read_report_data m4
              (m4ped_set_samplerate dd (m4.kstrtoint buf).2).dd).log
            else [])) := by
  by_cases h : (m4.kstrtoint buf).2 < -1 ∨ (m4.kstrtoint buf).2 > 32767
  · rw [setrate_store_rejected m4 dd buf hk h]
    refine ⟨⟨fun _ => h, fun _ => ⟨rfl, rfl, rfl, rfl⟩⟩, fun _ => ⟨rfl, rfl⟩, fun h2 => ?_⟩
    omega
  · refine ⟨⟨fun hr => ?_, fun h2 => absurd h2 h⟩, fun h2 => absurd h2 h, fun _ => ?_⟩
    · exfalso
      obtain ⟨r1, _, _, r4⟩ := hr
      by_cases h0 : 0 ≤ (m4.kstrtoint buf).2
      · rw [setrate_store_enable m4 dd buf hk h0 (by omega)] at r4
        have l := (read_report_log m4 (m4ped_set_samplerate dd (m4.kstrtoint buf).2).dd).1
        have s := (set_samplerate_log dd (m4.kstrtoint buf).2).1
        generalize (m4ped_set_samplerate dd (m4.kstrtoint buf).2).log = a at r4 s
        generalize (m4ped_read_report_data m4
          (m4ped_set_samplerate dd (m4.kstrtoint buf).2).dd).log = b at r4 l
        simp only [] at r4
        have key : ∀ x y : List Effect, reg_io (x ++ y) = reg_io x ++ reg_io y := by
          intro x y
          induction x with
          | nil => simp [reg_io]
          | cons e rest ih => cases e <;> simp [reg_io, ih]
        rw [key, s] at r4
        exact l r4
      · have hm : (m4.kstrtoint buf).2 = -1 := by omega
        rw [setrate_store_disable m4 dd buf hk hm] at r1
        simp only [EINVAL] at r1
        omega
    · by_cases h0 : 0 ≤ (m4.kstrtoint buf).2
      · rw [setrate_store_enable m4 dd buf hk h0 (by omega)]
        simp [h0]
      · have hm : (m4.kstrtoint buf).2 = -1 := by omega
        rw [setrate_store_disable m4 dd buf hk hm]
        simp [hm]

/-- The rate writer on an accepted request `v`: the clamped rate is stored;
when `v ≥ 0` the writer then runs exactly one sampling cycle on the state the
rate setter left, whether or not the rate changed, and returns that cycle's
result if it is negative, as it is whenever a read fails, and the consumed size
otherwise; when `v = -1` it runs no cycle. -/
theorem setrate_store_sample (m4 : m4sensorhub_data) (dd : m4ped_driver_data)
    (buf : List Char) (hk : ¬ (m4.kstrtoint buf).1 < 0)
    (h1 : -1 ≤ (m4.kstrtoint buf).2) (h2 : (m4.kstrtoint buf).2 ≤ 32767) :
    (m4ped_setrate_store m4 dd buf).dd.samplerate = clamped dd (m4.kstrtoint buf).2 ∧
    (0 ≤ (m4.kstrtoint buf).2 →
      cycles_started (m4ped_setrate_store m4 dd buf).log = 1 ∧
      (m4ped_setrate_store m4 dd buf).dd =
        cycle m4 (m4ped_set_samplerate dd (m4.kstrtoint buf).2).dd ∧
      (m4ped_setrate_store m4 dd buf).log =
        (m4ped_set_samplerate dd (m4.kstrtoint buf).2).log ++
          (m4ped_read_report_data m4
            (m4ped_set_samplerate dd (m4.kstrtoint buf).2).dd).log ∧
      ((m4ped_read_report_data m4
          (m4ped_set_samplerate dd (m4.kstrtoint buf).2).dd).ret < 0 →
        (m4ped_setrate_store m4 dd buf).ret =
          (m4ped_read_report_data m4
            (m4ped_set_samplerate dd (m4.kstrtoint buf).2).dd).ret) ∧
      (¬ (m4ped_read_report_data m4
          (m4ped_set_samplerate dd (m4.kstrtoint buf).2).dd).ret < 0 →
        (m4ped_setrate_store m4 dd buf).ret = (buf.length : Int)) ∧
      (¬ reads_ok m4 → (m4ped_setrate_store m4 dd buf).ret < 0)) ∧
    ((m4.kstrtoint buf).2 = -1 →
      cycles_started (m4ped_setrate_store m4 dd buf).log = 0 ∧
      reg_io (m4ped_setrate_store m4 dd buf).log = [] ∧
      pushed (m4ped_setrate_store m4 dd buf).log = [] ∧
      (m4ped_setrate_store m4 dd buf).ret = (buf.length : Int)) := by
  refine ⟨?_, fun h0 => ?_, fun hm => ?_⟩
  · by_cases h0 : 0 ≤ (m4.kstrtoint buf).2
    · rw [setrate_store_enable m4 dd buf hk h0 h2]
      simp only [cycle]
      rw [(read_report_frame m4 _).2.2.1, set_samplerate_rate]
    · have hm : (m4.kstrtoint buf).2 = -1 := by omega
      rw [setrate_store_disable m4 dd buf hk hm, hm]
      simp only []
      rw [set_samplerate_rate]
  · rw [setrate_store_enable m4 dd buf hk h0 h2]
    refine ⟨?_, rfl, rfl, fun hr => ?_, fun hr => ?_, fun hf => ?_⟩
    · simp only [cycles_started, List.count_append]
      have a := (set_samplerate_log dd (m4.kstrtoint buf).2).2.1
      have b := (read_report_log m4 (m4ped_set_samplerate dd (m4.kstrtoint buf).2).dd).2
      simp only [cycles_started] at a b
      rw [a, b]
    · simp only [hr, if_true]
    · simp only [hr, if_false]
    · have hr := (read_report_failed m4 (m4ped_set_samplerate dd (m4.kstrtoint buf).2).dd hf).1
      simp only [hr, if_true]
  · rw [setrate_store_disable m4 dd buf hk hm]
    obtain ⟨a, b, c⟩ := set_samplerate_log dd (-1)
    exact ⟨b, a, c, rfl⟩

/-- A conversion loop in which every field converts to at most 255 delivers
the converted values. -/
theorem userdata_convert_ok (m4 : m4sensorhub_data) (buf : List Char) :
    ∀ l : List Nat,
      (∀ i ∈ l, ¬ (m4.kstrtouint (field buf i)).1 < 0 ∧ (m4.kstrtouint (field buf i)).2 ≤ 255) →
      m4ped_userdata_convert m4 buf l =
        Except.ok (l.map (fun i => (m4.kstrtouint (field buf i)).2)) := by
  intro l
  induction l with
  | nil => intro _; simp [m4ped_userdata_convert]
  | cons i rest ih =>
    intro h
    obtain ⟨c, d⟩ := h i (List.mem_cons_self i rest)
    have r := ih (fun j hj => h j (List.mem_cons_of_mem i hj))
    simp only [field] at c d
    have d2 : ¬ (m4.kstrtouint (List.take 4 (List.drop (i * 5) buf))).2 > 255 := by omega
    have u : u8 (m4.kstrtouint (List.take 4 (List.drop (i * 5) buf))).2 =
        (m4.kstrtouint (List.take 4 (List.drop (i * 5) buf))).2 := by
      unfold u8
      omega
    unfold m4ped_userdata_convert
    simp only [c, d2, if_false, r, u, List.map_cons, field]

/-- The conversion loop reads the buffer through its fields only. -/
theorem userdata_convert_fields (m4 : m4sensorhub_data) (buf buf2 : List Char) :
    ∀ l : List Nat, (∀ i ∈ l, field buf2 i = field buf i) →
      m4ped_userdata_convert m4 buf2 l = m4ped_userdata_convert m4 buf l := by
  intro l
  induction l with
  | nil => intro _; simp [m4ped_userdata_convert]
  | cons i rest ih =>
    intro h
    have e := h i (List.mem_cons_self i rest)
    have r := ih (fun j hj => h j (List.mem_cons_of_mem i hj))
    simp only [field] at e
    unfold m4ped_userdata_convert
    simp only [e, r]

theorem write_userdata_log_ne (m4 : m4sensorhub_data) (dd : m4ped_driver_data) :
    (m4ped_write_userdata m4 dd).log ≠ [] := by
  unfold m4ped_write_userdata
  simp only []
  split_ifs <;> simp

/-- What the profile writer does with a buffer of 20 characters whose four
fields convert. -/
theorem userdata_store_accepted (m4 : m4sensorhub_data) (dd : m4ped_driver_data)
    (buf : List Char) (hl : buf.length = 20)
    (h : ∀ i ∈ [0, 1, 2, 3],
      ¬ (m4.kstrtouint (field buf i)).1 < 0 ∧ (m4.kstrtouint (field buf i)).2 ≤ 255) :
    m4ped_userdata_store m4 dd buf =
      ⟨if (m4ped_write_userdata m4 { dd with userdata :=
            [(m4.kstrtouint (field buf 1)).2, (m4.kstrtouint (field buf 0)).2,
             (m4.kstrtouint (field buf 2)).2, (m4.kstrtouint (field buf 3)).2, 0] }).ret < 0
        then (m4ped_write_userdata m4 { dd with userdata :=
            [(m4.kstrtouint (field buf 1)).2, (m4.kstrtouint (field buf 0)).2,
             (m4.kstrtouint (field buf 2)).2, (m4.kstrtouint (field buf 3)).2, 0] }).ret
        else 20,
       { dd with userdata :=
            [(m4.kstrtouint (field buf 1)).2, (m4.kstrtouint (field buf 0)).2,
             (m4.kstrtouint (field buf 2)).2, (m4.kstrtouint (field buf 3)).2, 0] },
       (m4ped_write_userdata m4 { dd with userdata :=
            [(m4.kstrtouint (field buf 1)).2, (m4.kstrtouint (field buf 0)).2,
             (m4.kstrtouint (field buf 2)).2, (m4.kstrtouint (field buf 3)).2, 0] }).log⟩ := by
  have len : (buf.length : Int) = 20 := by exact_mod_cast hl
  unfold m4ped_userdata_store
  simp only [len, userdata_convert_ok m4 buf [0, 1, 2, 3] h, ne_eq, not_true, if_false]
  simp only [List.map, List.cons_append, List.nil_append, M4PED_USERDATA_SIZE, List.take,
    List.set, List.getD_cons_zero, List.getD_cons_succ, write_userdata_dd]
  split_ifs <;> rfl

/-- Replacing a character outside a field leaves the field as it was. -/
theorem field_set (buf : List Char) (n i : Nat) (c : Char)
    (h : n < i * 5 ∨ i * 5 + 4 ≤ n) : field (buf.set n c) i = field buf i := by
  unfold field
  apply List.ext_getElem?
  intro k
  by_cases hk : k < 4
  · have ne : n ≠ i * 5 + k := by omega
    simp [List.getElem?_take, hk, List.getElem?_drop, List.getElem?_set, ne]
  · simp [List.getElem?_take, hk]

/-! ## Properties of the control surface and the checkpoint -/

/-- C11 (set_rate scheduling): when the clamped rate is the current rate the
rate setter changes nothing and performs neither a cancel nor a queue;
otherwise it cancels the work item, stores the clamped rate and queues the work
item once with that rate as delay exactly when the rate is positive. -/
theorem C11_set_rate_scheduling (dd : m4ped_driver_data) (r : Int) :
    (clamped dd r = dd.samplerate →
      (m4ped_set_samplerate dd r).dd = dd ∧ (m4ped_set_samplerate dd r).log = []) ∧
    (clamped dd r ≠ dd.samplerate →
      (m4ped_set_samplerate dd r).dd.samplerate = clamped dd r ∧
      (m4ped_set_samplerate dd r).dd.m4ped_work =
        (if clamped dd r > 0 then some (clamped dd r) else none) ∧
      (m4ped_set_samplerate dd r).dd =
        { dd with samplerate := (m4ped_set_samplerate dd r).dd.samplerate
                  m4ped_work := (m4ped_set_samplerate dd r).dd.m4ped_work } ∧
      (m4ped_set_samplerate dd r).log =
        Effect.cancel_delayed_work ::
          (if clamped dd r > 0 then [Effect.queue_delayed_work (clamped dd r)] else [])) := by
  refine ⟨fun h => ?_, fun h => ?_⟩
  · rw [set_samplerate_same dd r h]
    exact ⟨rfl, rfl⟩
  · rw [set_samplerate_changed dd r h]
    exact ⟨rfl, rfl, rfl, rfl⟩

/-- Scenario C on the probe state (floor 1000, polling disabled): a request of
500 stores 1000 and queues the tick at 1000 ms; a following request of -1
cancels it and queues nothing. -/
theorem C11_set_rate_scheduling_witness :
    clamped m4ped_probe 500 ≠ m4ped_probe.samplerate ∧
    (m4ped_set_samplerate m4ped_probe 500).dd.samplerate = 1000 ∧
    (m4ped_set_samplerate m4ped_probe 500).dd.m4ped_work = some 1000 ∧
    (m4ped_set_samplerate m4ped_probe 500).log =
      [Effect.cancel_delayed_work, Effect.queue_delayed_work 1000] ∧
    (m4ped_set_samplerate (m4ped_set_samplerate m4ped_probe 500).dd (-1)).dd.m4ped_work = none ∧
    (m4ped_set_samplerate (m4ped_set_samplerate m4ped_probe 500).dd (-1)).log =
      [Effect.cancel_delayed_work] ∧
    (m4ped_set_samplerate (m4ped_set_samplerate m4ped_probe 500).dd 700).log = [] :=
  ⟨by decide,
   ((C11_set_rate_scheduling m4ped_probe 500).2 (by decide)).1,
   ((C11_set_rate_scheduling m4ped_probe 500).2 (by decide)).2.1,
   ((C11_set_rate_scheduling m4ped_probe 500).2 (by decide)).2.2.2,
   ((C11_set_rate_scheduling (m4ped_set_samplerate m4ped_probe 500).dd (-1)).2
      (by decide)).2.1,
   ((C11_set_rate_scheduling (m4ped_set_samplerate m4ped_probe 500).dd (-1)).2
      (by decide)).2.2.2,
   ((C11_set_rate_scheduling (m4ped_set_samplerate m4ped_probe 500).dd 700).1
      (by decide)).2⟩

/-- C12 as stated fails: on the probe state (feature enabled) a disable request
whose write to `PEDOMETER_ENABLE` fails leaves the flag set, so the same
request repeated issues that write again: two writes for the pair. -/
theorem C12_counterexample :
    feature_enabled m4ped_probe = true ∧
    (m4ped_feature_enable_store
      (write_failing_hub iio_data_zero (0, 0) M4SH_REG_PEDOMETER_ENABLE (-5))
      m4ped_probe ['0', Char.ofNat 10]).log =
      [Effect.reg_write M4SH_REG_PEDOMETER_ENABLE [0]] ∧
    (m4ped_feature_enable_store
      (write_failing_hub iio_data_zero (0, 0) M4SH_REG_PEDOMETER_ENABLE (-5))
      (m4ped_feature_enable_store
        (write_failing_hub iio_data_zero (0, 0) M4SH_REG_PEDOMETER_ENABLE (-5))
        m4ped_probe ['0', Char.ofNat 10]).dd ['0', Char.ofNat 10]).log =
      [Effect.reg_write M4SH_REG_PEDOMETER_ENABLE [0]] ∧
    writes_to M4SH_REG_PEDOMETER_ENABLE
      ((m4ped_feature_enable_store
        (write_failing_hub iio_data_zero (0, 0) M4SH_REG_PEDOMETER_ENABLE (-5))
        m4ped_probe ['0', Char.ofNat 10]).log ++
       (m4ped_feature_enable_store
        (write_failing_hub iio_data_zero (0, 0) M4SH_REG_PEDOMETER_ENABLE (-5))
        (m4ped_feature_enable_store
          (write_failing_hub iio_data_zero (0, 0) M4SH_REG_PEDOMETER_ENABLE (-5))
          m4ped_probe ['0', Char.ofNat 10]).dd ['0', Char.ofNat 10]).log) = 2 := by
  decide

/-- C12 (P5, idempotent feature toggle), amended: when two feature writes in a
row ask for the same boolean and the register writes of the first one succeed,
the second one performs no register write and changes no state, so the pair
writes `PEDOMETER_ENABLE` and `METS_ENABLE` at most once each. -/
theorem C12_idempotent_feature_toggle (m1 m2 : m4sensorhub_data) (dd : m4ped_driver_data)
    (buf1 buf2 : List Char)
    (k1 : ¬ (m1.kstrtoint buf1).1 < 0) (k2 : ¬ (m2.kstrtoint buf2).1 < 0)
    (hb : (m1.kstrtoint buf1).2 = 0 ↔ (m2.kstrtoint buf2).2 = 0)
    (hw : writes_ok m1) :
    (m4ped_feature_enable_store m2 (m4ped_feature_enable_store m1 dd buf1).dd buf2).log = [] ∧
    (m4ped_feature_enable_store m2 (m4ped_feature_enable_store m1 dd buf1).dd buf2).dd =
      (m4ped_feature_enable_store m1 dd buf1).dd ∧
    writes_to M4SH_REG_PEDOMETER_ENABLE
      ((m4ped_feature_enable_store m1 dd buf1).log ++
       (m4ped_feature_enable_store m2
          (m4ped_feature_enable_store m1 dd buf1).dd buf2).log) ≤ 1 ∧
    writes_to M4SH_REG_METS_ENABLE
      ((m4ped_feature_enable_store m1 dd buf1).log ++
       (m4ped_feature_enable_store m2
          (m4ped_feature_enable_store m1 dd buf1).dd buf2).log) ≤ 1 := by
  obtain ⟨f, p, q⟩ := feature_enable_store_ok m1 dd buf1 k1 hw
  have e := feature_enable_store_noop m2 (m4ped_feature_enable_store m1 dd buf1).dd buf2 k2
    (hb.symm.trans f)
  refine ⟨by rw [e], by rw [e], ?_, ?_⟩
  · rw [e]
    simpa using p
  · rw [e]
    simpa using q

/-- The hypotheses of `C12_idempotent_feature_toggle` hold on the probe state
for two disable requests with succeeding writes: the first writes both
registers, the second writes nothing. -/
theorem C12_idempotent_feature_toggle_witness :
    writes_ok (example_hub iio_data_zero (0, 0)) ∧
    (m4ped_feature_enable_store (example_hub iio_data_zero (0, 0)) m4ped_probe
      ['0', Char.ofNat 10]).log =
      [Effect.reg_write M4SH_REG_PEDOMETER_ENABLE [0],
       Effect.reg_write M4SH_REG_METS_ENABLE [0]] ∧
    (m4ped_feature_enable_store (example_hub iio_data_zero (0, 0))
      (m4ped_feature_enable_store (example_hub iio_data_zero (0, 0)) m4ped_probe
        ['0', Char.ofNat 10]).dd ['0', Char.ofNat 10]).log = [] :=
  ⟨fun r => by cases r <;> decide, by decide,
   (C12_idempotent_feature_toggle (example_hub iio_data_zero (0, 0))
      (example_hub iio_data_zero (0, 0)) m4ped_probe ['0', Char.ofNat 10]
      ['0', Char.ofNat 10] (by decide) (by decide) (by decide)
      (fun r => by cases r <;> decide)).1⟩

/-- C13 as stated fails: in `state_armed` (rate 1000, tick pending, 150 steps
published over base 0) a checkpoint whose first profile write fails performs
that write only; the base stays 0, the last raw steps stay 150, and the work
item is neither cancelled nor queued. -/
theorem C13_counterexample :
    (m4ped_write_userdata
      (write_failing_hub iio_data_zero (0, 0) M4SH_REG_USERSETTINGS_USERAGE (-5))
      state_armed).ret < 0 ∧
    state_armed.iiodat.total_steps = 150 ∧
    (checkpoint (write_failing_hub iio_data_zero (0, 0) M4SH_REG_USERSETTINGS_USERAGE (-5))
      state_armed).base_dat.total_steps = 0 ∧
    (checkpoint (write_failing_hub iio_data_zero (0, 0) M4SH_REG_USERSETTINGS_USERAGE (-5))
      state_armed).last_dat.total_steps = 150 ∧
    (m4ped_panic_restore
      (write_failing_hub iio_data_zero (0, 0) M4SH_REG_USERSETTINGS_USERAGE (-5))
      state_armed).log =
      [Effect.reg_write M4SH_REG_USERSETTINGS_USERAGE [0x23, 0x01, 0xB2, 0x5B, 0x00]] := by
  decide

/-- C13 (profile-write failure in a checkpoint), amended: when the re-write of
the user profile fails, the checkpoint stops there: the driver data, with the
base and the last raw values, is unchanged, and the profile writes attempted
are the only operations performed, so the work item is neither cancelled nor
queued and no enable register is written. -/
theorem C13_profile_failure_aborts (m4 : m4sensorhub_data) (dd : m4ped_driver_data)
    (h : (m4ped_write_userdata m4 dd).ret < 0) :
    checkpoint m4 dd = dd ∧
    (m4ped_panic_restore m4 dd).log = (m4ped_write_userdata m4 dd).log ∧
    Effect.cancel_delayed_work ∉ (m4ped_panic_restore m4 dd).log ∧
    (∀ d : Int, Effect.queue_delayed_work d ∉ (m4ped_panic_restore m4 dd).log) ∧
    writes_to M4SH_REG_PEDOMETER_ENABLE (m4ped_panic_restore m4 dd).log = 0 ∧
    writes_to M4SH_REG_METS_ENABLE (m4ped_panic_restore m4 dd).log = 0 := by
  obtain ⟨l1, l2, l3, l4⟩ := write_userdata_log m4 dd
  unfold checkpoint
  rw [panic_restore_profile_failed m4 dd h]
  exact ⟨rfl, rfl, l3, l4, l1, l2⟩

/-- The hypothesis of `C13_profile_failure_aborts` holds in `state_armed` for a
hub whose height write fails: the checkpoint changes nothing. -/
theorem C13_profile_failure_aborts_witness :
    (m4ped_write_userdata
      (write_failing_hub iio_data_zero (0, 0) M4SH_REG_USERSETTINGS_USERHEIGHT (-5))
      state_armed).ret < 0 ∧
    checkpoint (write_failing_hub iio_data_zero (0, 0) M4SH_REG_USERSETTINGS_USERHEIGHT (-5))
      state_armed = state_armed :=
  ⟨by decide,
   (C13_profile_failure_aborts
      (write_failing_hub iio_data_zero (0, 0) M4SH_REG_USERSETTINGS_USERHEIGHT (-5))
      state_armed (by decide)).1⟩

/-- C14 (checkpoint feature re-assert): after a successful profile re-write the
checkpoint writes the disable value 0 to `PEDOMETER_ENABLE`, and after its
success to `METS_ENABLE`, exactly when the feature flag is clear, and writes
neither register when the flag is set; when one of the two disable writes fails
the rest is skipped: the driver data, with the base and the last raw values, is
unchanged and the work item is neither cancelled nor queued; otherwise the
checkpoint runs to its end. -/
theorem C14_feature_reassert (m4 : m4sensorhub_data) (dd : m4ped_driver_data)
    (hp : ¬ (m4ped_write_userdata m4 dd).ret < 0) :
    writes_to M4SH_REG_PEDOMETER_ENABLE (m4ped_panic_restore m4 dd).log =
      (if feature_enabled dd = true then 0 else 1) ∧
    writes_to M4SH_REG_METS_ENABLE (m4ped_panic_restore m4 dd).log =
      (if feature_enabled dd = true ∨ m4.reg_write M4SH_REG_PEDOMETER_ENABLE < 0
        then 0 else 1) ∧
    (∀ (r : m4sensorhub_reg) (bytes : List Nat),
      Effect.reg_write r bytes ∈ (m4ped_panic_restore m4 dd).log →
      r = M4SH_REG_PEDOMETER_ENABLE ∨ r = M4SH_REG_METS_ENABLE → bytes = [0]) ∧
    (feature_enabled dd = false →
      m4.reg_write M4SH_REG_PEDOMETER_ENABLE < 0 ∨ m4.reg_write M4SH_REG_METS_ENABLE < 0 →
      checkpoint m4 dd = dd ∧
      Effect.cancel_delayed_work ∉ (m4ped_panic_restore m4 dd).log ∧
      ∀ d : Int, Effect.queue_delayed_work d ∉ (m4ped_panic_restore m4 dd).log) ∧
    (feature_enabled dd = true ∨
        (¬ m4.reg_write M4SH_REG_PEDOMETER_ENABLE < 0 ∧
         ¬ m4.reg_write M4SH_REG_METS_ENABLE < 0) →
      checkpoint m4 dd = restored dd) := by
  obtain ⟨l1, l2, l3, l4⟩ := write_userdata_log m4 dd
  have l5 := write_userdata_log_regs m4 dd
  unfold checkpoint
  rw [panic_restore_profile_ok m4 dd hp]
  cases hf : feature_enabled dd
  · by_cases p : m4.reg_write M4SH_REG_PEDOMETER_ENABLE < 0
    · simp only [p, if_true, Bool.false_eq_true, if_false, false_or]
      refine ⟨by simp [writes_to_append, l1, writes_to], by simp [writes_to_append, l2, writes_to],
        ?_, ?_, ?_⟩
      · intro r bytes hm hr
        simp only [List.mem_append, List.mem_singleton, Effect.reg_write.injEq] at hm
        rcases hm with hm | hm
        · have := l5 r bytes hm
          rcases hr with hr | hr
          · exact absurd hr this.1
          · exact absurd hr this.2
        · exact hm.2
      · intro _ _
        exact ⟨by first | rfl | trivial, by simp [l3], by simp [l4]⟩
      · intro h
        simp [p] at h
    · by_cases q : m4.reg_write M4SH_REG_METS_ENABLE < 0
      · simp only [p, q, if_true, Bool.false_eq_true, if_false, false_or]
        refine ⟨by simp [writes_to_append, l1, writes_to],
          by simp [writes_to_append, l2, writes_to], ?_, ?_, ?_⟩
        · intro r bytes hm hr
          simp only [List.mem_append, List.mem_cons, List.mem_singleton,
            Effect.reg_write.injEq, List.not_mem_nil, or_false] at hm
          rcases hm with hm | hm | hm
          · have := l5 r bytes hm
            rcases hr with hr | hr
            · exact absurd hr this.1
            · exact absurd hr this.2
          · exact hm.2
          · exact hm.2
        · intro _ _
          exact ⟨by first | rfl | trivial, by simp [l3], by simp [l4]⟩
        · intro h
          simp [q] at h
      · simp only [p, q, Bool.false_eq_true, if_false, false_or]
        refine ⟨by simp [writes_to_append, l1, writes_to, rearm_log]; split_ifs <;> simp [writes_to],
          by simp [writes_to_append, l2, writes_to, rearm_log]; split_ifs <;> simp [writes_to],
          ?_, ?_, ?_⟩
        · intro r bytes hm hr
          simp only [rearm_log, List.mem_append, List.mem_cons, List.mem_singleton,
            Effect.reg_write.injEq, List.not_mem_nil, or_false] at hm
          rcases hm with (hm | hm | hm) | hm
          · have := l5 r bytes hm
            rcases hr with hr | hr
            · exact absurd hr this.1
            · exact absurd hr this.2
          · exact hm.2
          · exact hm.2
          · rcases hm with hm | hm
            · cases hm
            · split_ifs at hm <;> simp at hm
        · intro _ h
          simp at h
        · intro _
          first | rfl | trivial
  · simp only [if_true, true_or]
    refine ⟨by simp [writes_to_append, l1, writes_to, rearm_log]; split_ifs <;> simp [writes_to],
      by simp [writes_to_append, l2, writes_to, rearm_log]; split_ifs <;> simp [writes_to],
      ?_, ?_, ?_⟩
    · intro r bytes hm hr
      simp only [rearm_log, List.mem_append, List.mem_cons] at hm
      rcases hm with hm | hm | hm
      · have := l5 r bytes hm
        rcases hr with hr | hr
        · exact absurd hr this.1
        · exact absurd hr this.2
      · cases hm
      · split_ifs at hm <;> simp at hm
    · intro h
      simp at h
    · intro _
      first | rfl | trivial

/-- The hypothesis of `C14_feature_reassert` holds with the feature off and a
failing `METS_ENABLE` write: both disable writes are issued and the checkpoint
changes nothing; with the feature on, no enable register is written. -/
theorem C14_feature_reassert_witness :
    ¬ (m4ped_write_userdata
        (write_failing_hub iio_data_zero (0, 0) M4SH_REG_METS_ENABLE (-5))
        state_feature_off).ret < 0 ∧
    writes_to M4SH_REG_PEDOMETER_ENABLE (m4ped_panic_restore
        (write_failing_hub iio_data_zero (0, 0) M4SH_REG_METS_ENABLE (-5))
        state_feature_off).log = 1 ∧
    writes_to M4SH_REG_METS_ENABLE (m4ped_panic_restore
        (write_failing_hub iio_data_zero (0, 0) M4SH_REG_METS_ENABLE (-5))
        state_feature_off).log = 1 ∧
    checkpoint (write_failing_hub iio_data_zero (0, 0) M4SH_REG_METS_ENABLE (-5))
        state_feature_off = state_feature_off ∧
    writes_to M4SH_REG_PEDOMETER_ENABLE
      (m4ped_panic_restore (example_hub iio_data_zero (0, 0)) state_armed).log = 0 :=
  ⟨by decide,
   (C14_feature_reassert (write_failing_hub iio_data_zero (0, 0) M4SH_REG_METS_ENABLE (-5))
      state_feature_off (by decide)).1,
   (C14_feature_reassert (write_failing_hub iio_data_zero (0, 0) M4SH_REG_METS_ENABLE (-5))
      state_feature_off (by decide)).2.1,
   ((C14_feature_reassert (write_failing_hub iio_data_zero (0, 0) M4SH_REG_METS_ENABLE (-5))
      state_feature_off (by decide)).2.2.2.1 (by decide) (by decide)).1,
   (C14_feature_reassert (example_hub iio_data_zero (0, 0)) state_armed (by decide)).1⟩

/-- C15 (tick re-arm): whatever the sampling cycle did, the tick handler ends
by queueing the work item with the rate as delay exactly when the rate is
positive; run by the workqueue, it leaves the work item pending with that delay
when the rate is positive and not pending otherwise. -/
theorem C15_tick_rearm (m4 : m4sensorhub_data) (dd : m4ped_driver_data) :
    (m4ped_work_func m4 dd).log =
      (m4ped_read_report_data m4 dd).log ++
        (if dd.samplerate > 0 then [Effect.queue_delayed_work dd.samplerate] else []) ∧
    (m4ped_work_func m4 dd).dd.samplerate = dd.samplerate ∧
    (step dd (Event.work_func m4)).m4ped_work =
      (if dd.samplerate > 0 then some dd.samplerate else none) := by
  obtain ⟨_, f2, f3, _⟩ := read_report_frame m4 dd
  obtain ⟨_, g2, g3, _⟩ := read_report_frame m4 { dd with m4ped_work := none }
  refine ⟨?_, ?_, ?_⟩
  · unfold m4ped_work_func
    simp only [f3]
    split_ifs <;> simp
  · unfold m4ped_work_func
    simp only [f3]
    split_ifs <;> simp [f3]
  · simp only [step]
    unfold m4ped_work_func
    simp only [g3]
    split_ifs <;> simp [queue_delayed_work, g2]

/-- C16 as stated fails: the decimal integer 99999999999 is above 32767, but it
is also outside the range of `int`, for which `kstrtoint` returns `-ERANGE`;
the rate writer returns that error, -34, and not `-EINVAL`. It changes and
performs nothing. -/
theorem C16_counterexample :
    ((example_hub iio_data_zero (-ERANGE, 0)).kstrtoint
      ['9', '9', '9', '9', '9', '9', '9', '9', '9', '9', '9', Char.ofNat 10]).1 = -ERANGE ∧
    (m4ped_setrate_store (example_hub iio_data_zero (-ERANGE, 0)) state_armed
      ['9', '9', '9', '9', '9', '9', '9', '9', '9', '9', '9', Char.ofNat 10]).ret = -34 ∧
    (m4ped_setrate_store (example_hub iio_data_zero (-ERANGE, 0)) state_armed
      ['9', '9', '9', '9', '9', '9', '9', '9', '9', '9', '9', Char.ofNat 10]).ret ≠ -EINVAL ∧
    (m4ped_setrate_store (example_hub iio_data_zero (-ERANGE, 0)) state_armed
      ['9', '9', '9', '9', '9', '9', '9', '9', '9', '9', '9', Char.ofNat 10]).dd = state_armed ∧
    (m4ped_setrate_store (example_hub iio_data_zero (-ERANGE, 0)) state_armed
      ['9', '9', '9', '9', '9', '9', '9', '9', '9', '9', '9', Char.ofNat 10]).log = [] := by
  decide

/-- C16 (rate request validation), amended: a text that `kstrtoint` refuses is
rejected with the negative error `kstrtoint` returned, the driver data
unchanged and nothing performed. The writer returns `-EINVAL` with the rate and
the work item unchanged and without register I/O if and only if `kstrtoint`
returned `-EINVAL`, or converted the text to an integer `v` with `v < -1` or
`v > 32767` (and then the writer changes and performs nothing at all). For a
text converted to `v` from -1 to 32767 it runs the rate setter with `v`,
followed by one sampling cycle when `v ≥ 0`. -/
theorem C16_rate_validation (m4 : m4sensorhub_data) (dd : m4ped_driver_data)
    (buf : List Char) :
    ((m4.kstrtoint buf).1 < 0 →
      (m4ped_setrate_store m4 dd buf).ret = (m4.kstrtoint buf).1 ∧
      (m4ped_setrate_store m4 dd buf).dd = dd ∧
      (m4ped_setrate_store m4 dd buf).log = []) ∧
    (((m4ped_setrate_store m4 dd buf).ret = -EINVAL ∧
        (m4ped_setrate_store m4 dd buf).dd.samplerate = dd.samplerate ∧
        (m4ped_setrate_store m4 dd buf).dd.m4ped_work = dd.m4ped_work ∧
        reg_io (m4ped_setrate_store m4 dd buf).log = []) ↔
      ((m4.kstrtoint buf).1 = -EINVAL ∨
        (¬ (m4.kstrtoint buf).1 < 0 ∧
          ((m4.kstrtoint buf).2 < -1 ∨ (m4.kstrtoint buf).2 > 32767)))) ∧
    (¬ (m4.kstrtoint buf).1 < 0 →
      ((m4.kstrtoint buf).2 < -1 ∨ (m4.kstrtoint buf).2 > 32767 →
        (m4ped_setrate_store m4 dd buf).dd = dd ∧ (m4ped_setrate_store m4 dd buf).log = []) ∧
      (-1 ≤ (m4.kstrtoint buf).2 ∧ (m4.kstrtoint buf).2 ≤ 32767 →
        (m4ped_setrate_store m4 dd buf).dd =
          (if 0 ≤ (m4.kstrtoint buf).2
            then cycle m4 (m4ped_set_samplerate dd (m4.kstrtoint buf).2).dd
            else (m4ped_set_samplerate dd (m4.kstrtoint buf).2).dd) ∧
        (m4ped_setrate_store m4 dd buf).log =
          (m4ped_set_samplerate dd (m4.kstrtoint buf).2).log ++
            (if 0 ≤ (m4.kstrtoint buf).2
              then (m4ped_read_report_data m4
                (m4ped_set_samplerate dd (m4.kstrtoint buf).2).dd).log
              else []))) := by
  by_cases hk : (m4.kstrtoint buf).1 < 0
  · rw [setrate_store_refused m4 dd buf hk]
    refine ⟨fun _ => ⟨rfl, rfl, rfl⟩, ⟨fun hr => Or.inl hr.1, fun hr => ?_⟩, fun n => absurd hk n⟩
    rcases hr with e | ⟨n, _⟩
    · exact ⟨e, rfl, rfl, rfl⟩
    · exact absurd hk n
  · obtain ⟨a, b, c⟩ := setrate_store_converted m4 dd buf hk
    refine ⟨fun n => absurd n hk, ⟨fun hr => Or.inr ⟨hk, a.1 hr⟩, fun hr => ?_⟩, fun _ => ⟨b, c⟩⟩
    rcases hr with e | ⟨_, r⟩
    · simp only [EINVAL] at e
      omega
    · exact a.2 r

/-- The theorem `C16_rate_validation` on `state_armed`: the request 40000 is
refused with `-EINVAL` and changes nothing, the request -1 is handed to the
rate setter, and a text that `kstrtoint` refuses changes nothing. -/
theorem C16_rate_validation_witness :
    (m4ped_setrate_store (example_hub iio_data_zero (0, 40000)) state_armed
      ['4', '0', '0', '0', '0', Char.ofNat 10]).ret = -EINVAL ∧
    (m4ped_setrate_store (example_hub iio_data_zero (0, 40000)) state_armed
      ['4', '0', '0', '0', '0', Char.ofNat 10]).dd = state_armed ∧
    (m4ped_setrate_store (example_hub iio_data_zero (0, -1)) state_armed
      ['-', '1', Char.ofNat 10]).dd = (m4ped_set_samplerate state_armed (-1)).dd ∧
    (m4ped_setrate_store (example_hub iio_data_zero (-EINVAL, 0)) state_armed
      ['a', 'b', 'c', Char.ofNat 10]).dd = state_armed :=
  ⟨((C16_rate_validation (example_hub iio_data_zero (0, 40000)) state_armed
      ['4', '0', '0', '0', '0', Char.ofNat 10]).2.1.2 (Or.inr ⟨by decide, by decide⟩)).1,
   (((C16_rate_validation (example_hub iio_data_zero (0, 40000)) state_armed
      ['4', '0', '0', '0', '0', Char.ofNat 10]).2.2 (by decide)).1 (by decide)).1,
   (((C16_rate_validation (example_hub iio_data_zero (0, -1)) state_armed
      ['-', '1', Char.ofNat 10]).2.2 (by decide)).2 (by decide)).1,
   ((C16_rate_validation (example_hub iio_data_zero (-EINVAL, 0)) state_armed
      ['a', 'b', 'c', Char.ofNat 10]).1 (by decide)).2.1⟩

/-- C17 (immediate sample on rate-enable) fails on the code in its last
clause: in `state_armed` (rate 1000, 150 steps last seen) the accepted request
2000 starts exactly one sampling cycle, whose reads all succeed and deliver 140
steps; the cycle is ended by the detected decrease and publishes nothing, yet
it returns 4, so the writer returns 5, the consumed size, as it does when the
cycle reads 160 steps and publishes them. The rate 2000 stays applied. A cycle
ended by a distance read failing with -5 is returned as -5. -/
theorem C17_reset_reported_as_success :
    ¬ ((example_hub (steps_only 140) (0, 2000)).kstrtoint
        ['2', '0', '0', '0', Char.ofNat 10]).1 < 0 ∧
    state_armed.last_dat.total_steps = 150 ∧
    state_armed.samplerate = 1000 ∧
    reads_ok (example_hub (steps_only 140) (0, 2000)) ∧
    totals_lt_some (raw (example_hub (steps_only 140) (0, 2000)))
      (m4ped_set_samplerate state_armed 2000).dd.last_dat ∧
    cycles_started (m4ped_setrate_store (example_hub (steps_only 140) (0, 2000)) state_armed
      ['2', '0', '0', '0', Char.ofNat 10]).log = 1 ∧
    pushed (m4ped_setrate_store (example_hub (steps_only 140) (0, 2000)) state_armed
      ['2', '0', '0', '0', Char.ofNat 10]).log = [] ∧
    (m4ped_read_report_data (example_hub (steps_only 140) (0, 2000))
      (m4ped_set_samplerate state_armed 2000).dd).ret = 4 ∧
    (m4ped_setrate_store (example_hub (steps_only 140) (0, 2000)) state_armed
      ['2', '0', '0', '0', Char.ofNat 10]).ret = 5 ∧
    (m4ped_setrate_store (example_hub (steps_only 140) (0, 2000)) state_armed
      ['2', '0', '0', '0', Char.ofNat 10]).dd.samplerate = 2000 ∧
    (m4ped_setrate_store (example_hub (steps_only 140) (0, 2000)) state_armed
      ['2', '0', '0', '0', Char.ofNat 10]).dd.iiodat.total_steps = 150 ∧
    (m4ped_setrate_store (example_hub (steps_only 160) (0, 2000)) state_armed
      ['2', '0', '0', '0', Char.ofNat 10]).ret = 5 ∧
    (m4ped_setrate_store (example_hub (steps_only 160) (0, 2000)) state_armed
      ['2', '0', '0', '0', Char.ofNat 10]).dd.iiodat.total_steps = 160 ∧
    (m4ped_setrate_store
      { failing_hub (steps_only 140) M4SH_REG_PEDOMETER_TOTALDISTANCE (-5) with
        kstrtoint := fun _ => (0, 2000) }
      state_armed ['2', '0', '0', '0', Char.ofNat 10]).ret = -5 ∧
    (m4ped_setrate_store
      { failing_hub (steps_only 140) M4SH_REG_PEDOMETER_TOTALDISTANCE (-5) with
        kstrtoint := fun _ => (0, 2000) }
      state_armed ['2', '0', '0', '0', Char.ofNat 10]).dd.samplerate = 2000 := by
  decide

/-- C18 (profile decoding): for hex digits denoting the bytes `g`, `a`, `h`,
`w` (every byte is denoted by two hex digits), a hub that converts the fields
`0xHH` and whose writes succeed, the profile line `0xGG,0xAA,0xHH,0xWW` with
its newline makes the attribute writer return 20, store
`userdata = [a, g, h, w, 0]` and write the four profile registers from it; the
weight `userdata[3] | (userdata[4] << 8)` is then at most 255. -/
theorem C18_profile_decoding (m4 : m4sensorhub_data) (dd : m4ped_driver_data)
    (g1 g2 a1 a2 h1 h2 w1 w2 : Char) (g a h w : Nat)
    (hk : decodes_hex m4) (hw : writes_ok m4)
    (hg : hex_pair g1 g2 = some g) (ha : hex_pair a1 a2 = some a)
    (hh : hex_pair h1 h2 = some h) (hwt : hex_pair w1 w2 = some w) :
    (m4ped_userdata_store m4 dd (profile_line g1 g2 a1 a2 h1 h2 w1 w2)).ret = 20 ∧
    (m4ped_userdata_store m4 dd (profile_line g1 g2 a1 a2 h1 h2 w1 w2)).dd.userdata =
      [a, g, h, w, 0] ∧
    (m4ped_userdata_store m4 dd (profile_line g1 g2 a1 a2 h1 h2 w1 w2)).dd =
      { dd with userdata := [a, g, h, w, 0] } ∧
    (m4ped_userdata_store m4 dd (profile_line g1 g2 a1 a2 h1 h2 w1 w2)).log =
      [Effect.reg_write M4SH_REG_USERSETTINGS_USERAGE [a, g, h, w, 0],
       Effect.reg_write M4SH_REG_USERSETTINGS_USERGENDER [g, h, w, 0],
       Effect.reg_write M4SH_REG_USERSETTINGS_USERHEIGHT [h, w, 0],
       Effect.reg_write M4SH_REG_USERSETTINGS_USERWEIGHT [w, 0]] ∧
    (m4ped_userdata_store m4 dd (profile_line g1 g2 a1 a2 h1 h2 w1 w2)).dd.userdata.getD 3 0 |||
      ((m4ped_userdata_store m4 dd
        (profile_line g1 g2 a1 a2 h1 h2 w1 w2)).dd.userdata.getD 4 0 <<< 8) ≤ 255 := by
  have kg := hk g1 g2 g hg
  have ka := hk a1 a2 a ha
  have kh := hk h1 h2 h hh
  have kw := hk w1 w2 w hwt
  have bg := hex_pair_le _ _ _ hg
  have ba := hex_pair_le _ _ _ ha
  have bh := hex_pair_le _ _ _ hh
  have bw := hex_pair_le _ _ _ hwt
  have q1 := not_lt.mpr (hw M4SH_REG_USERSETTINGS_USERAGE)
  have q2 := not_lt.mpr (hw M4SH_REG_USERSETTINGS_USERGENDER)
  have q3 := not_lt.mpr (hw M4SH_REG_USERSETTINGS_USERHEIGHT)
  have q4 := not_lt.mpr (hw M4SH_REG_USERSETTINGS_USERWEIGHT)
  have ng : ¬ g > 255 := by omega
  have na : ¬ a > 255 := by omega
  have nh : ¬ h > 255 := by omega
  have nw : ¬ w > 255 := by omega
  have ug : u8 g = g := by unfold u8; omega
  have ua : u8 a = a := by unfold u8; omega
  have uh : u8 h = h := by unfold u8; omega
  have uw : u8 w = w := by unfold u8; omega
  have conv : m4ped_userdata_convert m4 (profile_line g1 g2 a1 a2 h1 h2 w1 w2) [0, 1, 2, 3] =
      Except.ok [g, a, h, w] := by
    simp [m4ped_userdata_convert, profile_line, kg, ka, kh, kw, ng, na, nh, nw, ug, ua, uh, uw]
  have len : ((profile_line g1 g2 a1 a2 h1 h2 w1 w2).length : Int) = 20 := by
    simp [profile_line]
  unfold m4ped_userdata_store
  simp only [len, conv, ne_eq, not_true, if_false]
  simp [m4ped_write_userdata, q1, q2, q3, q4, M4PED_USERDATA_SIZE]
  exact bw

/-- The hypotheses of `C18_profile_decoding` hold for the line of the source
comment, `0x00,0x16,0xA7,0x31`, on a hub using the base-16 conversion: the
profile becomes age 0x16, gender 0, height 0xA7, weight 0x31, fifth byte 0. -/
theorem C18_profile_decoding_witness :
    decodes_hex profile_hub ∧ writes_ok profile_hub ∧
    hex_pair '0' '0' = some 0x00 ∧ hex_pair '1' '6' = some 0x16 ∧
    hex_pair 'A' '7' = some 0xA7 ∧ hex_pair '3' '1' = some 0x31 ∧
    (m4ped_userdata_store profile_hub m4ped_probe
      (profile_line '0' '0' '1' '6' 'A' '7' '3' '1')).dd.userdata =
      [0x16, 0x00, 0xA7, 0x31, 0] :=
  ⟨decodes_hex_profile_hub, fun r => by cases r <;> decide,
   by decide, by decide, by decide, by decide,
   (C18_profile_decoding profile_hub m4ped_probe '0' '0' '1' '6' 'A' '7' '3' '1'
      0x00 0x16 0xA7 0x31 decodes_hex_profile_hub (fun r => by cases r <;> decide)
      (by decide) (by decide) (by decide) (by decide)).2.1⟩

/-- C19 as stated fails: the 20 characters `0x00;0x16;0xA7;0x31X`, with
semicolons for the commas and `X` for the newline, are not a profile line, yet
the attribute writer accepts them: it returns 20, replaces the profile and
writes the four profile registers. -/
theorem C19_counterexample :
    is_profile_line ['0', 'x', '0', '0', ';', '0', 'x', '1', '6', ';',
      '0', 'x', 'A', '7', ';', '0', 'x', '3', '1', 'X'] = false ∧
    (m4ped_userdata_store profile_hub m4ped_probe
      ['0', 'x', '0', '0', ';', '0', 'x', '1', '6', ';',
       '0', 'x', 'A', '7', ';', '0', 'x', '3', '1', 'X']).ret = 20 ∧
    m4ped_probe.userdata = [0x23, 0x01, 0xB2, 0x5B, 0x00] ∧
    (m4ped_userdata_store profile_hub m4ped_probe
      ['0', 'x', '0', '0', ';', '0', 'x', '1', '6', ';',
       '0', 'x', 'A', '7', ';', '0', 'x', '3', '1', 'X']).dd.userdata =
      [0x16, 0x00, 0xA7, 0x31, 0] ∧
    (m4ped_userdata_store profile_hub m4ped_probe
      ['0', 'x', '0', '0', ';', '0', 'x', '1', '6', ';',
       '0', 'x', 'A', '7', ';', '0', 'x', '3', '1', 'X']).log =
      [Effect.reg_write M4SH_REG_USERSETTINGS_USERAGE [0x16, 0x00, 0xA7, 0x31, 0],
       Effect.reg_write M4SH_REG_USERSETTINGS_USERGENDER [0x00, 0xA7, 0x31, 0],
       Effect.reg_write M4SH_REG_USERSETTINGS_USERHEIGHT [0xA7, 0x31, 0],
       Effect.reg_write M4SH_REG_USERSETTINGS_USERWEIGHT [0x31, 0]] := by
  decide

/-- C19 (malformed profile rejected), amended: the attribute writer returns a
negative error, leaves the driver data with the profile unchanged and performs
no register write if and only if the buffer is not 20 characters long, or
`kstrtouint` fails on one of the four 4-character fields at the offsets 0, 5,
10 and 15, or converts one of them to more than 255. Every other buffer is
accepted: the values `v0` to `v3` of the four fields are stored as the profile
`[v1, v0, v2, v3, 0]`, which the profile writer then writes, and the writer
returns a negative result of these writes, or 20. The characters at the
offsets 4, 9, 14 and 19 are not looked at: two buffers of the same length with
the same four fields are treated alike, and so replacing the character at one
of these offsets by any other changes nothing. -/
theorem C19_malformed_profile_rejected (m4 : m4sensorhub_data) (dd : m4ped_driver_data)
    (buf : List Char) :
    (((m4ped_userdata_store m4 dd buf).ret < 0 ∧
        (m4ped_userdata_store m4 dd buf).dd = dd ∧
        (m4ped_userdata_store m4 dd buf).log = []) ↔
      (buf.length ≠ 20 ∨
        ∃ i ∈ [0, 1, 2, 3],
          (m4.kstrtouint (field buf i)).1 < 0 ∨ 255 < (m4.kstrtouint (field buf i)).2)) ∧
    (buf.length = 20 →
      (∀ i ∈ [0, 1, 2, 3],
        ¬ (m4.kstrtouint (field buf i)).1 < 0 ∧ (m4.kstrtouint (field buf i)).2 ≤ 255) →
      m4ped_userdata_store m4 dd buf =
        ⟨if (m4ped_write_userdata m4 { dd with userdata :=
              [(m4.kstrtouint (field buf 1)).2, (m4.kstrtouint (field buf 0)).2,
               (m4.kstrtouint (field buf 2)).2, (m4.kstrtouint (field buf 3)).2, 0] }).ret < 0
          then (m4ped_write_userdata m4 { dd with userdata :=
              [(m4.kstrtouint (field buf 1)).2, (m4.kstrtouint (field buf 0)).2,
               (m4.kstrtouint (field buf 2)).2, (m4.kstrtouint (field buf 3)).2, 0] }).ret
          else 20,
         { dd with userdata :=
              [(m4.kstrtouint (field buf 1)).2, (m4.kstrtouint (field buf 0)).2,
               (m4.kstrtouint (field buf 2)).2, (m4.kstrtouint (field buf 3)).2, 0] },
         (m4ped_write_userdata m4 { dd with userdata :=
              [(m4.kstrtouint (field buf 1)).2, (m4.kstrtouint (field buf 0)).2,
               (m4.kstrtouint (field buf 2)).2, (m4.kstrtouint (field buf 3)).2, 0] }).log⟩) ∧
    (∀ buf2 : List Char, buf2.length = buf.length →
      (∀ i ∈ [0, 1, 2, 3], field buf2 i = field buf i) →
      m4ped_userdata_store m4 dd buf2 = m4ped_userdata_store m4 dd buf) ∧
    (∀ n ∈ [4, 9, 14, 19], ∀ c : Char,
      m4ped_userdata_store m4 dd (buf.set n c) = m4ped_userdata_store m4 dd buf) := by
  refine ⟨⟨fun hr => ?_, fun h => ?_⟩, fun hl h => userdata_store_accepted m4 dd buf hl h,
    fun buf2 hl h => ?_, fun n hn c => ?_⟩
  · by_contra n
    simp only [not_or, ne_eq, not_not, not_exists, not_and, not_lt] at n
    obtain ⟨hl, h⟩ := n
    rw [userdata_store_accepted m4 dd buf hl (fun i hi => ⟨not_lt.mpr (h i hi).1, (h i hi).2⟩)]
      at hr
    exact write_userdata_log_ne m4 _ hr.2.2
  · unfold m4ped_userdata_store
    simp only []
    by_cases hl : (buf.length : Int) ≠ 20
    · simp [hl, EINVAL]
    · have hl2 : buf.length = 20 := by
        simp only [ne_eq, not_not] at hl
        exact_mod_cast hl
      rcases h with h | h
      · exact absurd hl2 h
      · obtain ⟨e, he, hc⟩ := userdata_convert_error m4 buf [0, 1, 2, 3] h
        simp only [hl, if_false, hc]
        exact ⟨he, by first | rfl | trivial, by first | rfl | trivial⟩
  · unfold m4ped_userdata_store
    simp only [hl, userdata_convert_fields m4 buf buf2 [0, 1, 2, 3] h]
  · have hf : ∀ i ∈ [0, 1, 2, 3], field (buf.set n c) i = field buf i := by
      intro i hi
      apply field_set
      simp only [List.mem_cons, List.mem_singleton, List.not_mem_nil, or_false] at hn hi
      omega
    unfold m4ped_userdata_store
    simp only [List.length_set, userdata_convert_fields m4 buf (buf.set n c) [0, 1, 2, 3] hf]

/-- The theorem `C19_malformed_profile_rejected` on a hub using the base-16
conversion: a line whose third field is `0xG7` is refused and the profile
stays as it was; the line `0x00,0x16,0xA7,0x31` is treated alike with `X` for
its newline and with `;` for its first comma. -/
theorem C19_malformed_profile_rejected_witness :
    (profile_hub.kstrtouint (field (profile_line '0' '0' '1' '6' 'G' '7' '3' '1') 2)).1 < 0 ∧
    (m4ped_userdata_store profile_hub m4ped_probe
      (profile_line '0' '0' '1' '6' 'G' '7' '3' '1')).ret < 0 ∧
    (m4ped_userdata_store profile_hub m4ped_probe
      (profile_line '0' '0' '1' '6' 'G' '7' '3' '1')).dd = m4ped_probe ∧
    m4ped_userdata_store profile_hub m4ped_probe
      ((profile_line '0' '0' '1' '6' 'A' '7' '3' '1').set 19 'X') =
      m4ped_userdata_store profile_hub m4ped_probe
        (profile_line '0' '0' '1' '6' 'A' '7' '3' '1') ∧
    m4ped_userdata_store profile_hub m4ped_probe
      ((profile_line '0' '0' '1' '6' 'A' '7' '3' '1').set 4 ';') =
      m4ped_userdata_store profile_hub m4ped_probe
        (profile_line '0' '0' '1' '6' 'A' '7' '3' '1') :=
  ⟨by decide,
   ((C19_malformed_profile_rejected profile_hub m4ped_probe
      (profile_line '0' '0' '1' '6' 'G' '7' '3' '1')).1.2
      (Or.inr ⟨2, by decide, Or.inl (by decide)⟩)).1,
   ((C19_malformed_profile_rejected profile_hub m4ped_probe
      (profile_line '0' '0' '1' '6' 'G' '7' '3' '1')).1.2
      (Or.inr ⟨2, by decide, Or.inl (by decide)⟩)).2.1,
   (C19_malformed_profile_rejected profile_hub m4ped_probe
      (profile_line '0' '0' '1' '6' 'A' '7' '3' '1')).2.2.2 19 (by decide) 'X',
   (C19_malformed_profile_rejected profile_hub m4ped_probe
      (profile_line '0' '0' '1' '6' 'A' '7' '3' '1')).2.2.2 4 (by decide) ';'⟩

/-- C20 (malformed feature-enable rejected) fails on the code: for the input
`abc` with its newline, on which `kstrtoint` returns `-EINVAL`, the feature
writer changes nothing and writes nothing but returns 4, the consumed size, as
for an accepted request; the rate writer returns the error for the same
input. -/
theorem C20_feature_error_not_returned :
    ((example_hub iio_data_zero (-EINVAL, 0)).kstrtoint ['a', 'b', 'c', Char.ofNat 10]).1 < 0 ∧
    (m4ped_feature_enable_store (example_hub iio_data_zero (-EINVAL, 0)) m4ped_probe
      ['a', 'b', 'c', Char.ofNat 10]).ret = 4 ∧
    (m4ped_feature_enable_store (example_hub iio_data_zero (-EINVAL, 0)) m4ped_probe
      ['a', 'b', 'c', Char.ofNat 10]).dd = m4ped_probe ∧
    (m4ped_feature_enable_store (example_hub iio_data_zero (-EINVAL, 0)) m4ped_probe
      ['a', 'b', 'c', Char.ofNat 10]).log = [] ∧
    (m4ped_feature_enable_store (example_hub iio_data_zero (0, 1)) m4ped_probe
      ['1', '2', '3', Char.ofNat 10]).ret = 4 ∧
    (m4ped_setrate_store (example_hub iio_data_zero (-EINVAL, 0)) m4ped_probe
      ['a', 'b', 'c', Char.ofNat 10]).ret = -EINVAL := by
  decide

/-! ## The scheduler, entry point by entry point -/

theorem replay_work_append (a b : List Effect) :
    ∀ w : Option Int,
      replay_work w (a ++ b) = (replay_work w a).bind (fun w2 => replay_work w2 b) := by
  induction a with
  | nil => intro w; simp [replay_work]
  | cons e rest ih =>
    intro w
    cases e with
    | reg_read r => simp [replay_work, ih]
    | reg_write r bytes => simp [replay_work, ih]
    | iio_push_to_buffers d => simp [replay_work, ih]
    | cancel_delayed_work => simp [replay_work, ih]
    | queue_delayed_work d =>
      cases w with
      | none => simp [replay_work, ih]
      | some v => simp [replay_work]

/-- A sampling cycle makes no scheduling call. -/
theorem read_report_replay (m4 : m4sensorhub_data) (dd : m4ped_driver_data)
    (w : Option Int) : replay_work w (m4ped_read_report_data m4 dd).log = some w := by
  by_cases h : reads_ok m4
  · by_cases hd : totals_lt_some (raw m4) dd.last_dat
    · rw [read_report_rejected m4 dd h hd]
      simp [seven_reads, replay_work]
    · rw [read_report_accepted m4 dd h hd]
      simp [seven_reads, replay_work]
  · by_cases c1 : (m4.reg_read M4SH_REG_PEDOMETER_ACTIVITY).ret < 0
    · unfold m4ped_read_report_data
      simp [c1, replay_work]
    by_cases e1 : m4.reg_getsize M4SH_REG_PEDOMETER_ACTIVITY = (m4.reg_read M4SH_REG_PEDOMETER_ACTIVITY).ret
    swap
    · unfold m4ped_read_report_data
      simp [c1, Ne.symm e1, replay_work]
    by_cases c2 : (m4.reg_read M4SH_REG_PEDOMETER_TOTALDISTANCE).ret < 0
    · unfold m4ped_read_report_data
      simp [c1, e1, c2, replay_work]
    by_cases e2 : m4.reg_getsize M4SH_REG_PEDOMETER_TOTALDISTANCE = (m4.reg_read M4SH_REG_PEDOMETER_TOTALDISTANCE).ret
    swap
    · unfold m4ped_read_report_data
      simp [c1, e1, c2, Ne.symm e2, replay_work]
    by_cases c3 : (m4.reg_read M4SH_REG_PEDOMETER_TOTALSTEPS).ret < 0
    · unfold m4ped_read_report_data
      simp [c1, e1, c2, e2, c3, replay_work]
    by_cases e3 : m4.reg_getsize M4SH_REG_PEDOMETER_TOTALSTEPS = (m4.reg_read M4SH_REG_PEDOMETER_TOTALSTEPS).ret
    swap
    · unfold m4ped_read_report_data
      simp [c1, e1, c2, e2, c3, Ne.symm e3, replay_work]
    by_cases c4 : (m4.reg_read M4SH_REG_PEDOMETER_CURRENTSPEED).ret < 0
    · unfold m4ped_read_report_data
      simp [c1, e1, c2, e2, c3, e3, c4, replay_work]
    by_cases e4 : m4.reg_getsize M4SH_REG_PEDOMETER_CURRENTSPEED = (m4.reg_read M4SH_REG_PEDOMETER_CURRENTSPEED).ret
    swap
    · unfold m4ped_read_report_data
      simp [c1, e1, c2, e2, c3, e3, c4, Ne.symm e4, replay_work]
    by_cases c5 : (m4.reg_read M4SH_REG_METS_HEALTHYMINUTES).ret < 0
    · unfold m4ped_read_report_data
      simp [c1, e1, c2, e2, c3, e3, c4, e4, c5, replay_work]
    by_cases e5 : m4.reg_getsize M4SH_REG_METS_HEALTHYMINUTES = (m4.reg_read M4SH_REG_METS_HEALTHYMINUTES).ret
    swap
    · unfold m4ped_read_report_data
      simp [c1, e1, c2, e2, c3, e3, c4, e4, c5, Ne.symm e5, replay_work]
    by_cases c6 : (m4.reg_read M4SH_REG_METS_CALORIES).ret < 0
    · unfold m4ped_read_report_data
      simp [c1, e1, c2, e2, c3, e3, c4, e4, c5, e5, c6, replay_work]
    by_cases e6 : m4.reg_getsize M4SH_REG_METS_CALORIES = (m4.reg_read M4SH_REG_METS_CALORIES).ret
    swap
    · unfold m4ped_read_report_data
      simp [c1, e1, c2, e2, c3, e3, c4, e4, c5, e5, c6, Ne.symm e6, replay_work]
    by_cases c7 : (m4.reg_read M4SH_REG_METS_CALORIES_NO_RMR).ret < 0
    · unfold m4ped_read_report_data
      simp [c1, e1, c2, e2, c3, e3, c4, e4, c5, e5, c6, e6, c7, replay_work]
    by_cases e7 : m4.reg_getsize M4SH_REG_METS_CALORIES_NO_RMR = (m4.reg_read M4SH_REG_METS_CALORIES_NO_RMR).ret
    swap
    · unfold m4ped_read_report_data
      simp [c1, e1, c2, e2, c3, e3, c4, e4, c5, e5, c6, e6, c7, Ne.symm e7, replay_work]
    exact absurd ⟨⟨not_lt.mp c1, e1.symm⟩, ⟨not_lt.mp c2, e2.symm⟩, ⟨not_lt.mp c3, e3.symm⟩, ⟨not_lt.mp c4, e4.symm⟩, ⟨not_lt.mp c5, e5.symm⟩, ⟨not_lt.mp c6, e6.symm⟩, ⟨not_lt.mp c7, e7.symm⟩⟩ h

theorem write_userdata_replay (m4 : m4sensorhub_data) (dd : m4ped_driver_data)
    (w : Option Int) : replay_work w (m4ped_write_userdata m4 dd).log = some w := by
  unfold m4ped_write_userdata
  simp only []
  split_ifs <;> simp [replay_work]

theorem set_samplerate_replay (dd : m4ped_driver_data) (r : Int) :
    replay_work dd.m4ped_work (m4ped_set_samplerate dd r).log =
      some (m4ped_set_samplerate dd r).dd.m4ped_work := by
  by_cases h : clamped dd r = dd.samplerate
  · rw [set_samplerate_same dd r h]
    simp [replay_work]
  · rw [set_samplerate_changed dd r h]
    simp only [rate_stored]
    split_ifs <;> simp [replay_work]

theorem set_samplerate_inv (dd : m4ped_driver_data) (r : Int) (hi : scheduler_inv dd) :
    scheduler_inv (m4ped_set_samplerate dd r).dd := by
  by_cases h : clamped dd r = dd.samplerate
  · rw [set_samplerate_same dd r h]
    exact hi
  · rw [set_samplerate_changed dd r h]
    simp [scheduler_inv, rate_stored]

theorem read_report_inv (m4 : m4sensorhub_data) (dd : m4ped_driver_data)
    (hi : scheduler_inv dd) : scheduler_inv (m4ped_read_report_data m4 dd).dd := by
  obtain ⟨_, f2, f3, _⟩ := read_report_frame m4 dd
  unfold scheduler_inv at hi ⊢
  rw [f2, f3]
  exact hi

theorem userdata_store_sched (m4 : m4sensorhub_data) (dd : m4ped_driver_data)
    (buf : List Char) :
    (m4ped_userdata_store m4 dd buf).dd.samplerate = dd.samplerate ∧
    (m4ped_userdata_store m4 dd buf).dd.m4ped_work = dd.m4ped_work ∧
    ∀ w : Option Int, replay_work w (m4ped_userdata_store m4 dd buf).log = some w := by
  unfold m4ped_userdata_store
  simp only []
  split_ifs
  · simp [replay_work]
  · cases m4ped_userdata_convert m4 buf [0, 1, 2, 3] with
    | error e => simp [replay_work]
    | ok vs =>
      simp only []
      split_ifs <;> simp [write_userdata_dd, write_userdata_replay]

theorem feature_enable_store_sched (m4 : m4sensorhub_data) (dd : m4ped_driver_data)
    (buf : List Char) :
    (m4ped_feature_enable_store m4 dd buf).dd.samplerate = dd.samplerate ∧
    (m4ped_feature_enable_store m4 dd buf).dd.m4ped_work = dd.m4ped_work ∧
    ∀ w : Option Int, replay_work w (m4ped_feature_enable_store m4 dd buf).log = some w := by
  unfold m4ped_feature_enable_store
  simp only []
  split_ifs <;> simp [replay_work]

theorem queue_delayed_work_idle (dd : m4ped_driver_data) (d : Int)
    (h : dd.m4ped_work = none) : (queue_delayed_work dd d).m4ped_work = some d := by
  unfold queue_delayed_work
  simp [h]

theorem work_func_eq (m4 : m4sensorhub_data) (dd : m4ped_driver_data) :
    m4ped_work_func m4 dd =
      if dd.samplerate > 0 then
        ⟨(), queue_delayed_work (m4ped_read_report_data m4 dd).dd dd.samplerate,
          (m4ped_read_report_data m4 dd).log ++ [Effect.queue_delayed_work dd.samplerate]⟩
      else ⟨(), (m4ped_read_report_data m4 dd).dd, (m4ped_read_report_data m4 dd).log⟩ := by
  have f3 := (read_report_frame m4 dd).2.2.1
  unfold m4ped_work_func
  simp only [f3]

/-- The tick handler, run on the dequeued work item, leaves the scheduler
relation in place and queues at most once, on the idle item. -/
theorem work_func_sched (m4 : m4sensorhub_data) (dd : m4ped_driver_data) :
    scheduler_inv (step dd (Event.work_func m4)) ∧
    replay_work none (step_log dd (Event.work_func m4)) =
      some (step dd (Event.work_func m4)).m4ped_work := by
  have g2 : (m4ped_read_report_data m4 { dd with m4ped_work := none }).dd.m4ped_work = none :=
    (read_report_frame m4 { dd with m4ped_work := none }).2.1
  have g3 : (m4ped_read_report_data m4 { dd with m4ped_work := none }).dd.samplerate =
      dd.samplerate := (read_report_frame m4 { dd with m4ped_work := none }).2.2.1
  have q := read_report_replay m4 { dd with m4ped_work := none } none
  simp only [step, step_log]
  rw [work_func_eq]
  by_cases hs : dd.samplerate > 0
  · simp only [hs, if_true]
    have w := queue_delayed_work_idle _ dd.samplerate g2
    refine ⟨?_, ?_⟩
    · unfold scheduler_inv
      rw [w, queue_delayed_work_samplerate, g3]
      simp [hs]
    · rw [replay_work_append, q, w]
      simp [replay_work]
  · simp only [hs, if_false]
    refine ⟨?_, ?_⟩
    · unfold scheduler_inv
      rw [g2, g3]
      simp [hs]
    · rw [q, g2]

theorem setrate_store_sched (m4 : m4sensorhub_data) (dd : m4ped_driver_data)
    (buf : List Char) :
    (scheduler_inv dd → scheduler_inv (m4ped_setrate_store m4 dd buf).dd) ∧
    replay_work dd.m4ped_work (m4ped_setrate_store m4 dd buf).log =
      some (m4ped_setrate_store m4 dd buf).dd.m4ped_work := by
  have a := set_samplerate_replay dd (s16 (m4.kstrtoint buf).2)
  have b := read_report_replay m4 (m4ped_set_samplerate dd (s16 (m4.kstrtoint buf).2)).dd
    (m4ped_set_samplerate dd (s16 (m4.kstrtoint buf).2)).dd.m4ped_work
  have f := (read_report_frame m4 (m4ped_set_samplerate dd (s16 (m4.kstrtoint buf).2)).dd).2.1
  refine ⟨fun hi => ?_, ?_⟩
  · have i1 := set_samplerate_inv dd (s16 (m4.kstrtoint buf).2) hi
    have i2 := read_report_inv m4 _ i1
    unfold m4ped_setrate_store
    simp only []
    split_ifs <;> first | exact hi | exact i1 | exact i2
  · unfold m4ped_setrate_store
    simp only []
    split_ifs <;> simp [replay_work, replay_work_append, a, b, f]

theorem panic_restore_sched (m4 : m4sensorhub_data) (dd : m4ped_driver_data) :
    (scheduler_inv dd → scheduler_inv (m4ped_panic_restore m4 dd).dd) ∧
    replay_work dd.m4ped_work (m4ped_panic_restore m4 dd).log =
      some (m4ped_panic_restore m4 dd).dd.m4ped_work := by
  have q := write_userdata_replay m4 dd dd.m4ped_work
  have r : scheduler_inv (restored dd) := by
    simp [scheduler_inv, restored, checkpointed]
  have t : replay_work dd.m4ped_work (rearm_log dd) = some (restored dd).m4ped_work := by
    simp only [rearm_log, restored]
    split_ifs <;> simp [replay_work]
  by_cases h : (m4ped_write_userdata m4 dd).ret < 0
  · rw [panic_restore_profile_failed m4 dd h]
    exact ⟨fun hi => hi, q⟩
  · rw [panic_restore_profile_ok m4 dd h]
    split_ifs
    · exact ⟨fun _ => r, by simp [replay_work_append, q, t]⟩
    · exact ⟨fun hi => hi, by simp [replay_work_append, q, replay_work]⟩
    · exact ⟨fun hi => hi, by simp [replay_work_append, q, replay_work]⟩
    · exact ⟨fun _ => r, by simp [replay_work_append, q, replay_work, t]⟩

/-- Every entry point keeps the scheduler relation. -/
theorem step_scheduler_inv (dd : m4ped_driver_data) (ev : Event)
    (hi : scheduler_inv dd) : scheduler_inv (step dd ev) := by
  cases ev with
  | work_func m4 => exact (work_func_sched m4 dd).1
  | setrate_store m4 buf => exact (setrate_store_sched m4 dd buf).1 hi
  | userdata_store m4 buf =>
    obtain ⟨a, b, _⟩ := userdata_store_sched m4 dd buf
    simp only [step, scheduler_inv]
    rw [a, b]
    exact hi
  | feature_enable_store m4 buf =>
    obtain ⟨a, b, _⟩ := feature_enable_store_sched m4 dd buf
    simp only [step, scheduler_inv]
    rw [a, b]
    exact hi
  | panic_restore m4 => exact (panic_restore_sched m4 dd).1 hi

/-- No entry point calls `queue_delayed_work` while the work item is
pending, and the work item ends as the scheduling calls leave it. -/
theorem step_replay (dd : m4ped_driver_data) (ev : Event) :
    replay_work (work_at_entry dd ev) (step_log dd ev) = some (step dd ev).m4ped_work := by
  cases ev with
  | work_func m4 => exact (work_func_sched m4 dd).2
  | setrate_store m4 buf => exact (setrate_store_sched m4 dd buf).2
  | userdata_store m4 buf =>
    obtain ⟨_, b, c⟩ := userdata_store_sched m4 dd buf
    simp only [step, step_log, work_at_entry]
    rw [c, b]
  | feature_enable_store m4 buf =>
    obtain ⟨_, b, c⟩ := feature_enable_store_sched m4 dd buf
    simp only [step, step_log, work_at_entry]
    rw [c, b]
  | panic_restore m4 => exact (panic_restore_sched m4 dd).2

theorem reachable_scheduler_inv (dd : m4ped_driver_data) (h : Reachable dd) :
    scheduler_inv dd := by
  induction h with
  | probe => decide
  | step ev _ _ ih => exact step_scheduler_inv _ ev ih

/-! ## The status bits -/

theorem feature_enabled_testBit (dd : m4ped_driver_data) :
    feature_enabled dd = dd.status.testBit M4PED_FEATURE_ENABLED_BIT := by
  have e : (1 <<< M4PED_FEATURE_ENABLED_BIT : Nat) = 2 ^ 1 := by decide
  have b : M4PED_FEATURE_ENABLED_BIT = 1 := rfl
  unfold feature_enabled
  rw [e, Nat.and_two_pow, b]
  cases dd.status.testBit 1 <;> decide

theorem status_set_bits (s i : Nat) (hi : i ≠ 1) :
    (s ||| 2).testBit i = s.testBit i := by
  have t : Nat.testBit 2 i = false := by
    have := @Nat.testBit_two_pow_of_ne 1 i (fun h => hi h.symm)
    simpa using this
  rw [Nat.testBit_or, t, Bool.or_false]

theorem status_clear_bits (s i : Nat) (hs : s < 2 ^ 16) (hi : i ≠ 1) :
    (s &&& 65533).testBit i = s.testBit i := by
  rw [Nat.testBit_and]
  by_cases h : i < 16
  · have t : Nat.testBit 65533 i = true := by
      interval_cases i <;> first | decide | exact absurd rfl hi
    rw [t, Bool.and_true]
  · have t : s.testBit i = false := by
      apply Nat.testBit_lt_two_pow
      calc s < 2 ^ 16 := hs
        _ ≤ 2 ^ i := Nat.pow_le_pow_right (by norm_num) (by omega)
    rw [t, Bool.false_and]

theorem status_set_lt (s : Nat) (hs : s < 2 ^ 16) : s ||| 2 < 2 ^ 16 :=
  Nat.or_lt_two_pow hs (by norm_num)

theorem status_clear_lt (s : Nat) (hs : s < 2 ^ 16) : s &&& 65533 < 2 ^ 16 :=
  lt_of_le_of_lt Nat.and_le_left hs

/-- The driver data after a feature write whose text converted to `v`: nothing
changes when the flag is as asked or when a write fails; otherwise only the
flag changes. -/
theorem feature_enable_store_dd (m4 : m4sensorhub_data) (dd : m4ped_driver_data)
    (buf : List Char) (hk : ¬ (m4.kstrtoint buf).1 < 0) :
    (m4ped_feature_enable_store m4 dd buf).dd =
      if (feature_enabled dd = true ↔ (m4.kstrtoint buf).2 ≠ 0) then dd
      else if m4.reg_write M4SH_REG_PEDOMETER_ENABLE < 0 ∨
          m4.reg_write M4SH_REG_METS_ENABLE < 0 then dd
      else if (m4.kstrtoint buf).2 = 0 then { dd with status := dd.status &&& 65533 }
      else { dd with status := dd.status ||| 2 } := by
  have e : (1 <<< M4PED_FEATURE_ENABLED_BIT : Nat) = 2 := by decide
  have e2 : (2 ^ 16 - 1 - 2 : Nat) = 65533 := by decide
  unfold m4ped_feature_enable_store
  simp only [hk, if_false, e, e2]
  by_cases hv : (m4.kstrtoint buf).2 = 0
  · cases hf : feature_enabled dd
    · simp [hv, hf]
    · by_cases p : m4.reg_write M4SH_REG_PEDOMETER_ENABLE < 0
      · simp [hv, hf, p]
      · by_cases q : m4.reg_write M4SH_REG_METS_ENABLE < 0
        · simp [hv, hf, p, q]
        · simp [hv, hf, p, q]
  · cases hf : feature_enabled dd
    · by_cases p : m4.reg_write M4SH_REG_PEDOMETER_ENABLE < 0
      · simp [hv, hf, p]
      · by_cases q : m4.reg_write M4SH_REG_METS_ENABLE < 0
        · simp [hv, hf, p, q]
        · simp [hv, hf, p, q]
    · simp [hv, hf]

/-! ## Properties of the scheduler and the feature flag -/

/-- C21 (scheduler invariant): in every state reachable from the probe state by
rate writes, ticks, checkpoints and the other attribute writers, with any
answers of the hub, the work item is pending if and only if the rate is
positive, and then with the rate as its delay; the work item is the driver's
only timer, and no entry point started in such a state calls
`queue_delayed_work` while it is pending, so that never more than one tick is
pending, also in the middle of an entry point. -/
theorem C21_scheduler_invariant (dd : m4ped_driver_data) (h : Reachable dd) :
    (dd.m4ped_work.isSome = true ↔ dd.samplerate > 0) ∧
    scheduler_inv dd ∧
    ∀ ev : Event, enabled dd ev = true →
      replay_work (work_at_entry dd ev) (step_log dd ev) = some (step dd ev).m4ped_work := by
  have hi := reachable_scheduler_inv dd h
  refine ⟨?_, hi, fun ev _ => step_replay dd ev⟩
  unfold scheduler_inv at hi
  rw [hi]
  split_ifs with hs <;> simp [hs]

/-- The hypothesis of `C21_scheduler_invariant` holds after polling was enabled
at 1000 ms (one tick pending at 1000 ms) and at the end of the run
`state_after_run` (polling disabled, nothing pending). -/
theorem C21_scheduler_invariant_witness :
    Reachable (step m4ped_probe
      (Event.setrate_store (example_hub (steps_only 150) (0, 1000))
        ['1', '0', '0', '0', Char.ofNat 10])) ∧
    (step m4ped_probe
      (Event.setrate_store (example_hub (steps_only 150) (0, 1000))
        ['1', '0', '0', '0', Char.ofNat 10])).m4ped_work = some 1000 ∧
    scheduler_inv (step m4ped_probe
      (Event.setrate_store (example_hub (steps_only 150) (0, 1000))
        ['1', '0', '0', '0', Char.ofNat 10])) ∧
    Reachable state_after_run ∧
    state_after_run.m4ped_work = none ∧
    (state_after_run.m4ped_work.isSome = true ↔ state_after_run.samplerate > 0) :=
  ⟨Reachable.step _ Reachable.probe rfl,
   by decide,
   (C21_scheduler_invariant
     (step m4ped_probe
       (Event.setrate_store (example_hub (steps_only 150) (0, 1000))
         ['1', '0', '0', '0', Char.ofNat 10]))
     (Reachable.step
       (Event.setrate_store (example_hub (steps_only 150) (0, 1000))
         ['1', '0', '0', '0', Char.ofNat 10])
       Reachable.probe rfl)).2.1,
   Reachable.step _ (Reachable.step _ (Reachable.step _
     (Reachable.step _ Reachable.probe rfl) rfl) rfl) rfl,
   by decide,
   (C21_scheduler_invariant state_after_run
     (Reachable.step _ (Reachable.step _ (Reachable.step _
       (Reachable.step _ Reachable.probe rfl) rfl) rfl) rfl)).1⟩

/-- C22 (feature flag follows the device): for a feature write whose text
`kstrtoint` converted to `v`, on driver data whose `status` is a 16-bit value,
the feature bit of `status` afterwards is `v ≠ 0` when the bit was that
already or when the writes to `PEDOMETER_ENABLE` and `METS_ENABLE` both
succeed, and is what it was when one of the two writes fails; every other bit
of `status` and every other field of the driver data is unchanged. -/
theorem C22_feature_flag_frame (m4 : m4sensorhub_data) (dd : m4ped_driver_data)
    (buf : List Char) (hk : ¬ (m4.kstrtoint buf).1 < 0) (ht : dd.status < 2 ^ 16) :
    (dd.status.testBit M4PED_FEATURE_ENABLED_BIT = decide ((m4.kstrtoint buf).2 ≠ 0) ∨
        (¬ m4.reg_write M4SH_REG_PEDOMETER_ENABLE < 0 ∧
         ¬ m4.reg_write M4SH_REG_METS_ENABLE < 0) →
      (m4ped_feature_enable_store m4 dd buf).dd.status.testBit M4PED_FEATURE_ENABLED_BIT =
        decide ((m4.kstrtoint buf).2 ≠ 0)) ∧
    (m4.reg_write M4SH_REG_PEDOMETER_ENABLE < 0 ∨ m4.reg_write M4SH_REG_METS_ENABLE < 0 →
      (m4ped_feature_enable_store m4 dd buf).dd.status.testBit M4PED_FEATURE_ENABLED_BIT =
        dd.status.testBit M4PED_FEATURE_ENABLED_BIT) ∧
    (∀ i : Nat, i ≠ M4PED_FEATURE_ENABLED_BIT →
      (m4ped_feature_enable_store m4 dd buf).dd.status.testBit i = dd.status.testBit i) ∧
    (m4ped_feature_enable_store m4 dd buf).dd =
      { dd with status := (m4ped_feature_enable_store m4 dd buf).dd.status } ∧
    (m4ped_feature_enable_store m4 dd buf).dd.status < 2 ^ 16 := by
  have hd := feature_enable_store_dd m4 dd buf hk
  have hb := feature_enabled_testBit dd
  have b1 : M4PED_FEATURE_ENABLED_BIT = 1 := rfl
  by_cases hm : (feature_enabled dd = true ↔ (m4.kstrtoint buf).2 ≠ 0)
  · rw [if_pos hm] at hd
    rw [hd]
    refine ⟨fun _ => ?_, fun _ => rfl, fun _ _ => rfl, rfl, ht⟩
    rw [← hb]
    by_cases hv : (m4.kstrtoint buf).2 = 0
    · cases hf : feature_enabled dd
      · simp [hv]
      · exact absurd hv (hm.mp hf)
    · rw [hm.mpr hv]
      simp [hv]
  · rw [if_neg hm] at hd
    have hne : dd.status.testBit M4PED_FEATURE_ENABLED_BIT ≠
        decide ((m4.kstrtoint buf).2 ≠ 0) := by
      intro he
      apply hm
      rw [hb, he]
      simp
    by_cases hf : m4.reg_write M4SH_REG_PEDOMETER_ENABLE < 0 ∨
        m4.reg_write M4SH_REG_METS_ENABLE < 0
    · rw [if_pos hf] at hd
      rw [hd]
      refine ⟨fun h => ?_, fun _ => rfl, fun _ _ => rfl, rfl, ht⟩
      rcases h with h | h
      · exact absurd h hne
      · rcases hf with hf | hf
        · exact absurd hf h.1
        · exact absurd hf h.2
    · rw [if_neg hf] at hd
      by_cases hv : (m4.kstrtoint buf).2 = 0
      · rw [if_pos hv] at hd
        rw [hd]
        refine ⟨fun _ => ?_, fun h => absurd h hf, fun i hi => ?_, rfl,
          status_clear_lt dd.status ht⟩
        · have t : Nat.testBit 65533 1 = false := by decide
          simp only [b1, Nat.testBit_and, t, Bool.and_false, hv]
          decide
        · exact status_clear_bits dd.status i ht (by rw [b1] at hi; exact hi)
      · rw [if_neg hv] at hd
        rw [hd]
        refine ⟨fun _ => ?_, fun h => absurd h hf, fun i hi => ?_, rfl,
          status_set_lt dd.status ht⟩
        · have t : Nat.testBit 2 1 = true := by decide
          simp only [b1, Nat.testBit_or, t, Bool.or_true]
          simp [hv]
        · exact status_set_bits dd.status i (by rw [b1] at hi; exact hi)

/-- The hypotheses of `C22_feature_flag_frame` hold on the probe state (status
2, feature on): a disable request with succeeding writes clears the bit, one
whose `METS_ENABLE` write fails leaves it set, and an enable request on status
5 sets bit 1 and keeps bits 0 and 2. -/
theorem C22_feature_flag_frame_witness :
    ¬ ((example_hub iio_data_zero (0, 0)).kstrtoint ['0', Char.ofNat 10]).1 < 0 ∧
    m4ped_probe.status < 2 ^ 16 ∧
    (m4ped_feature_enable_store (example_hub iio_data_zero (0, 0)) m4ped_probe
      ['0', Char.ofNat 10]).dd.status.testBit M4PED_FEATURE_ENABLED_BIT = false ∧
    (m4ped_feature_enable_store
      (write_failing_hub iio_data_zero (0, 0) M4SH_REG_METS_ENABLE (-5)) m4ped_probe
      ['0', Char.ofNat 10]).dd.status.testBit M4PED_FEATURE_ENABLED_BIT = true ∧
    (m4ped_feature_enable_store (example_hub iio_data_zero (0, 1))
      { m4ped_probe with status := 5 } ['1', Char.ofNat 10]).dd.status = 7 :=
  ⟨by decide, by decide,
   (C22_feature_flag_frame (example_hub iio_data_zero (0, 0)) m4ped_probe
      ['0', Char.ofNat 10] (by decide) (by decide)).1 (Or.inr ⟨by decide, by decide⟩),
   (C22_feature_flag_frame
      (write_failing_hub iio_data_zero (0, 0) M4SH_REG_METS_ENABLE (-5)) m4ped_probe
      ['0', Char.ofNat 10] (by decide) (by decide)).2.1 (Or.inr (by decide)),
   by decide⟩

end M4Ped
